import Mathlib

/-!
SMPlayer2 playback core (`src/core.cpp`): a shallow embedding.

The C++ class `Core` is embedded as a record `Core` of its member variables
together with the global preferences object `pref` and a model of the decoder
process `proc`.  Every member function becomes a function `Core → Core`.
Everything the controller does to the outside world (lines written to the
decoder, process stop and start, Qt signals, calls on the video window) is
appended to `Core.log`, so that a statement about "which commands were issued"
is a statement about that list.

Conventions of the embedding:
* `int` is `Int`, `bool` is `Bool`, `QString` is `String`;
* `double` is `ℚ`: the finite, non-NaN values, with exact arithmetic.  The
  literals `0.10`, `100`, `1.0`, `2` of the source are the rationals
  `1/10`, `100`, `1`, `2`;
* a decoder command line is a value of `Command` (one constructor per command
  word, carrying the numbers the source formats into the line), and a message
  shown to the user is a value of `Message`.
-/

namespace SMPlayer2

/-- The enum `Core::State` of `core.h`. -/
inductive State where
  | Stopped
  | Playing
  | Paused
  deriving DecidableEq, Repr

/-- Modelled from the spec: the media kind stored in `mdat.type`; the `TYPE_*`
constants come from `mediadata.h`, which is missing from the sources
(spec §3, `kind`). -/
inductive MediaType where
  | TYPE_UNKNOWN
  | TYPE_FILE
  | TYPE_DVD
  | TYPE_STREAM
  | TYPE_VCD
  | TYPE_AUDIO_CD
  | TYPE_TV
  deriving DecidableEq, Repr

/-- Modelled from the spec: a track descriptor (spec §3, `{id, kind,
language?, sourceFile?}`), declared in `tracks.h`; the fields read by the
embedded functions. -/
structure Track where
  ID : Int
  lang : String
  deriving DecidableEq

/-- Modelled from the spec: the kind of a subtitle track, the enum
`SubData::Type` of `subtracks.h` (spec §3, `kind`): a VOBsub stream, a stream
of the container, a loaded file, or none of them. -/
inductive SubType where
  | None
  | Vob
  | Sub
  | File
  deriving DecidableEq

/-- Modelled from the spec: a subtitle track descriptor, the class `SubData`
of `subtracks.h` (spec §3, `{id, kind, language?, sourceFile?}`). -/
structure SubData where
  type : SubType
  ID : Int
  lang : String
  filename : String
  deriving DecidableEq

/-- Modelled from the spec: the record `MediaData` (spec §3, MediaDescriptor),
declared in `mediadata.h`; only the fields read by the embedded functions are
kept.  `chapters_timestamp` is the ordered map from chapter index to
millisecond offset, as the list of its entries in key order. -/
structure MediaData where
  filename : String
  type : MediaType
  demuxer : String
  duration : ℚ
  audios : List Track
  chapters_timestamp : List (Int × Int)
  videos : List Track
  subs : List SubData
  chapters : Int
  /-- Title number and duration of each title of a disc. -/
  titles : List (Int × ℚ)
  initialized : Bool
  novideo : Bool
  video_codec : String
  audio_codec : String
  deriving DecidableEq

/-- Modelled from the spec: the record `MediaSettings` (spec §3,
PlaybackSettings), declared in `mediasettings.h`; the fields are those that
`core.cpp` reads or writes through `mset`. -/
structure MediaSettings where
  current_sec : ℚ
  current_sub_id : Int
  current_title_id : Int
  current_chapter_id : Int
  current_edition_id : Int
  current_angle_id : Int
  current_video_id : Int
  current_audio_id : Int
  current_program_id : Int
  A_marker : Int
  B_marker : Int
  speed : ℚ
  volume : Int
  mute : Bool
  audio_delay : Int
  sub_delay : Int
  audio_equalizer : List Int
  brightness : Int
  contrast : Int
  gamma : Int
  hue : Int
  saturation : Int
  external_subtitles : String
  external_audio : String
  sub_scale_ass : ℚ
  closed_caption_channel : Int
  loop : Bool
  current_deinterlacer : Int
  current_denoiser : Int
  phase_filter : Bool
  deblock_filter : Bool
  dering_filter : Bool
  noise_filter : Bool
  upscaling_filter : Bool
  add_letterbox : Bool
  flip : Bool
  mirror : Bool
  rotate : Int
  karaoke_filter : Bool
  extrastereo_filter : Bool
  volnorm_filter : Bool
  audio_use_channels : Int
  stereo_mode : Int
  zoom_factor : ℚ
  panscan_factor : ℚ
  aspect_ratio_id : Int
  win_width : Int
  win_height : Int
  starting_time : ℚ
  is264andHD : Bool
  forced_demuxer : String
  forced_audio_codec : String
  forced_video_codec : String
  mplayer_additional_options : String
  mplayer_additional_video_filters : String
  mplayer_additional_audio_filters : String
  deriving DecidableEq

/-- Modelled from the spec: the three-valued preference type of
`preferences.h` (`Preferences::Detect`, `Enabled`, `Disabled`). -/
inductive OptionState where
  | Detect
  | Enabled
  | Disabled
  deriving DecidableEq, Repr

/-- Modelled from the spec: the values of `pref->h264_skip_loop_filter`
(`preferences.h`). -/
inductive H264LoopFilter where
  | LoopEnabled
  | LoopDisabled
  | LoopDisabledOnHD
  deriving DecidableEq, Repr

/-- Modelled from the spec: the values of `pref->priority` (`preferences.h`);
`Other` is any value that the `switch` of `startMplayer` sends to `default`. -/
inductive Priority where
  | Realtime
  | High
  | AboveNormal
  | Normal
  | BelowNormal
  | Idle
  | Other
  deriving DecidableEq, Repr

/-- Modelled from the spec: the global preferences object `pref`
(`preferences.h`, spec §4.2 GlobalPreferences); only the fields used by the
embedded functions are kept.  A field `filters_x` stands for the string
`pref->filters->item("x").filter()`, a field `vdpau_x` for `pref->vdpau.x`, and
`ass_styles_toString`, `ass_styles_fontname`, `ass_styles_fontsize` for
`pref->ass_styles.toString()`, `.fontname` and `.fontsize`. -/
structure Preferences where
  global_volume : Bool
  volume : Int
  mute : Bool
  fullscreen : Bool
  sub_visibility : Bool
  osd : Int
  use_forced_subs_only : Bool
  cache_for_dvds : Int
  filters_volnorm : String
  mplayer_bin : String
  verbose_log : Bool
  use_mplayer_window : Bool
  vo : String
  ao : String
  vdpau_ffh264vdpau : Bool
  vdpau_ffmpeg12vdpau : Bool
  vdpau_ffwmv3vdpau : Bool
  vdpau_ffvc1vdpau : Bool
  vdpau_ffodivxvdpau : Bool
  vdpau_disable_video_filters : Bool
  use_hwac3 : Bool
  gapless_audio : Bool
  h264_skip_loop_filter : H264LoopFilter
  show_motion_vectors : Bool
  threads : Int
  subfuzziness : Int
  adapter : Int
  priority : Priority
  frame_drop : Bool
  hard_frame_drop : Bool
  autosync : Bool
  autosync_factor : Int
  use_mc : Bool
  mc_value : ℚ
  disable_screensaver : Bool
  color_key : Int
  monitor_aspect : String
  sub_use_mplayer2_defaults : Bool
  ass_line_spacing : Int
  force_ass_styles : Bool
  user_forced_ass_style : String
  ass_styles_toString : String
  ass_styles_fontname : String
  ass_styles_fontsize : Int
  use_enca : Bool
  enca_lang : String
  sub_encoding : String
  change_video_equalizer_on_startup : Bool
  dvd_device : String
  cdrom_device : String
  cache_for_files : Int
  cache_for_streams : Int
  cache_for_vcds : Int
  cache_for_audiocds : Int
  cache_for_tv : Int
  use_idx : Bool
  prefer_ipv4 : Bool
  use_correct_pts : OptionState
  filters_denoise_soft : String
  filters_denoise_normal : String
  filters_deblock : String
  filters_noise : String
  add_blackborders_on_fullscreen : Bool
  use_soft_video_eq : Bool
  mplayer_additional_video_filters : String
  subtitles_on_screenshots : Bool
  screenshot_directory : String
  use_scaletempo : OptionState
  use_audio_equalizer : Bool
  mplayer_additional_audio_filters : String
  use_soft_vol : Bool
  softvol_max : Int
  use_edl_files : Bool
  mplayer_additional_options : String
  use_dvdnav : Bool
  dont_remember_media_settings : Bool
  dont_remember_time_pos : Bool
  initial_audio_track : Int
  initial_subtitle_track : Int
  audio_lang : String
  subtitle_lang : String
  autoload_sub : Bool
  prefer_external : Bool
  vcd_initial_title : Int
  last_dvb_channel : String
  last_tv_channel : String
  initial_tv_deinterlace : Int
  osd_delay : Int
  wheel_function : Int
  wheel_function_cycle : Int
  deriving DecidableEq

/-- Compile-time constants of `constants.h`, a header that is missing from the
sources; the functions that use them take them as a parameter. -/
structure Constants where
  ZOOM_MIN : ℚ
  ZOOM_STEP : ℚ

/-- A slave command: one line handed to `tellmp`.  The comment on each
constructor gives the text that the source builds. -/
inductive Command where
  /-- Line `quit` -/
  | quit
  /-- Line `volume N 1` -/
  | volume (n : Int)
  /-- Line `mute N` -/
  | mute (n : Int)
  /-- Line `brightness N 1` -/
  | brightness (n : Int)
  /-- Line `contrast N 1` -/
  | contrast (n : Int)
  /-- Line `gamma N 1` -/
  | gamma (n : Int)
  /-- Line `hue N 1` -/
  | hue (n : Int)
  /-- Line `saturation N 1` -/
  | saturation (n : Int)
  /-- Line `speed_set X` -/
  | speed_set (x : ℚ)
  /-- Line `sub_delay X 1`, with `X` in seconds -/
  | sub_delay (x : ℚ)
  /-- Line `audio_delay X 1`, with `X` in seconds -/
  | audio_delay (x : ℚ)
  /-- Line `sub_scale X 1` -/
  | sub_scale (x : ℚ)
  /-- Line `sub_visibility N` -/
  | sub_visibility (n : Int)
  /-- Line `panscan X 1` -/
  | panscan (x : ℚ)
  /-- Line `osd N` -/
  | osd (n : Int)
  /-- Line `loop N 1` -/
  | loop (n : Int)
  /-- Line `af_add F` -/
  | af_add (f : String)
  /-- Line `af_del F` -/
  | af_del (f : String)
  /-- Line `forced_subs_only N` -/
  | forced_subs_only (n : Int)
  /-- Line `seek_chapter N M` -/
  | seek_chapter (n : Int) (m : Int)
  /-- Line `get_property P` -/
  | get_property (p : String)
  /-- Line `sub_source N` -/
  | sub_source (n : Int)
  /-- Line `sub_vob N` -/
  | sub_vob (n : Int)
  /-- Line `sub_demux N` -/
  | sub_demux (n : Int)
  /-- Line `sub_file N` -/
  | sub_file (n : Int)
  /-- Line `switch_audio N` -/
  | switch_audio (n : Int)
  /-- Line `set_property switch_video N` -/
  | switch_video (n : Int)
  /-- Line `set_property switch_program N` -/
  | switch_program (n : Int)
  /-- Line `switch_title N` -/
  | switch_title (n : Int)
  /-- Line `switch_ratio X` -/
  | switch_ratio (x : ℚ)
  /-- Line `seek X M` -/
  | seek (x : ℚ) (m : Int)
  deriving DecidableEq

/-- A text passed to `displayMessage` or `displayTextOnOSD`: the translated
template of the source together with the value substituted into it. -/
inductive Message where
  /-- Template `Brightness: %1` -/
  | brightness (n : Int)
  /-- Template `Contrast: %1` -/
  | contrast (n : Int)
  /-- Template `Gamma: %1` -/
  | gamma (n : Int)
  /-- Template `Hue: %1` -/
  | hue (n : Int)
  /-- Template `Saturation: %1` -/
  | saturation (n : Int)
  /-- Template `Speed: %1` -/
  | speed (x : ℚ)
  /-- Template `Volume: %1` -/
  | volume (n : Int)
  /-- Template `Subtitle delay: %1 ms` -/
  | sub_delay (n : Int)
  /-- Template `Audio delay: %1 ms` -/
  | audio_delay (n : Int)
  /-- Template `Font scale: %1` -/
  | font_scale (x : ℚ)
  /-- Template `Subtitles on` -/
  | subtitles_on
  /-- Template `Subtitles off` -/
  | subtitles_off
  /-- Template `Zoom: %1` -/
  | zoom (x : ℚ)
  /-- Template `Panscan: %1` -/
  | panscan (x : ℚ)
  /-- A text supplied by the caller. -/
  | text (t : String)
  /-- Template `"A" marker set to %1`, with `Helper::formatTime(sec)` -/
  | a_marker (sec : Int)
  /-- Template `"B" marker set to %1`, with `Helper::formatTime(sec)` -/
  | b_marker (sec : Int)
  /-- Template `A-B markers cleared` -/
  | ab_markers_cleared
  /-- Template `Aspect ratio: %1`, with `MediaSettings::aspectToString` -/
  | aspect_ratio (name : String)
  /-- Template `Mouse wheel seeks now` -/
  | wheel_seeks
  /-- Template `Mouse wheel changes volume now` -/
  | wheel_volume
  /-- Template `Mouse wheel changes zoom level now` -/
  | wheel_zoom
  /-- Template `Mouse wheel changes speed now` -/
  | wheel_speed
  deriving DecidableEq

/-- A Qt signal emitted by `Core`. -/
inductive Signal where
  | widgetsNeedUpdate
  | showMessage (m : Message)
  | videoEqualizerNeedsUpdate
  | volumeChanged (n : Int)
  | aboutToStartPlaying
  | logLineAvailable
  | ABMarkersChanged (a : Int) (b : Int)
  | mediaFinished
  | mediaStoppedByUser
  | showTime (sec : ℚ)
  | positionChanged (value : Int)
  | posChanged (perc : Int)
  | stateChanged (st : State)
  | mplayerFinishedWithError (exit_code : Int)
  | menusNeedInitialize
  | needResize (w : Int) (h : Int) (full : Bool)
  | audioTracksChanged
  | mediaStartPlay
  | audioEqualizerNeedsUpdate
  | mediaLoaded
  | mediaInfoChanged
  deriving DecidableEq

/-- One effect of the controller on its collaborators, in program order. -/
inductive Event where
  /-- Call `proc->writeToStdin(command)`, reached through `tellmp` -/
  | writeToStdin (c : Command)
  /-- Call `proc->write(...)` of an `osd_show_text "text" duration level` line,
  preceded by `pfx` when that is not empty -/
  | write (pfx : String) (text : Message) (duration : Int) (level : Int)
  /-- Call `proc->waitForFinished(5000)` -/
  | waitForFinished
  /-- Call `proc->kill()` -/
  | kill
  /-- Call `proc->start()` -/
  | start
  /-- An `emit` of a signal -/
  | emit (sig : Signal)
  /-- Call `mplayerwindow->hideLogo()` -/
  | hideLogo
  /-- Call `mplayerwindow->setZoom(p)` -/
  | setZoom (p : ℚ)
  /-- Call `mplayerwindow->setAspect(asp)` -/
  | setAspect (asp : ℚ)
  /-- Call `file_settings->saveSettingsFor(filename, mset)` -/
  | saveFileSettings (filename : String) (mset : MediaSettings)
  /-- Call `tv_settings->saveSettingsFor(filename, mset)` -/
  | saveTvSettings (filename : String) (mset : MediaSettings)
  /-- Call `QTimer::singleShot(msec, this, SLOT(initializeOSD()))` -/
  | singleShotInitializeOSD (msec : Int)
  deriving DecidableEq

/-- Modelled from the spec: the Process Supervisor `MplayerProcess`
(`mplayerprocess.h`, spec §2 and §5).  It owns at most one child process;
`running` is what `isRunning()` answers.  The two other fields describe how
the external process behaves: whether it exits within the five seconds that
follow `quit`, and whether the next `start()` succeeds. -/
structure Process where
  running : Bool
  finishesOnQuit : Bool
  startSucceeds : Bool
  deriving DecidableEq

/-- The member variables of `Core` (`core.h`), the preferences object, the
process and the log of effects.  `last_second` is the `static` local variable
of `Core::changeCurrentSec`, which starts at 0. -/
structure Core where
  mdat : MediaData
  mset : MediaSettings
  pref : Preferences
  state : State
  we_are_restarting : Bool
  just_loaded_external_subs : Bool
  just_unloaded_external_subs : Bool
  change_volume_after_unpause : Bool
  initial_subtitle : String
  last_second : Int
  proc : Process
  log : List Event
  deriving DecidableEq

/-- Append one effect to the log. -/
def Core.record (e : Event) (s : Core) : Core :=
  { s with log := s.log ++ [e] }

/-- The session-visible state: everything but the log of effects. -/
def Core.visible (s : Core) : Core :=
  { s with log := [] }

/-- Member `Core::updateWidgets` -/
def updateWidgets (s : Core) : Core :=
  s.record (.emit .widgetsNeedUpdate)

/-- Member `Core::tellmp`: the line is written only while the process is running. -/
def tellmp (command : Command) (s : Core) : Core :=
  if s.proc.running then s.record (.writeToStdin command) else s

/-- Member `Core::displayTextOnOSD` -/
def displayTextOnOSD (text : Message) (duration : Int) (level : Int) (pfx : String)
    (s : Core) : Core :=
  if s.proc.running then s.record (.write pfx text duration level) else s

/-- Member `Core::displayMessage`; the call `displayTextOnOSD(text)` uses the default
arguments `3000`, `1` and a null string of `core.h`. -/
def displayMessage (text : Message) (s : Core) : Core :=
  let s := s.record (.emit (.showMessage text))
  if s.pref.fullscreen ∧ s.state ≠ State.Stopped then
    displayTextOnOSD text 3000 1 "" s
  else s

/-- The C++ conversion `(int) x` of a `double`: truncation towards zero. -/
def truncToInt (x : ℚ) : Int :=
  if 0 ≤ x then ⌊x⌋ else ⌈x⌉

/-- `Core::stopMplayer`: nothing happens without a running process; otherwise
`quit` is sent, the controller waits five seconds, and kills the process if it
has not finished by then.  Either way the process is gone afterwards. -/
def stopMplayer (s : Core) : Core :=
  if ¬ s.proc.running then s
  else
    let s := tellmp .quit s
    let s := s.record .waitForFinished
    let s := if ¬ s.proc.finishesOnQuit then s.record .kill else s
    { s with proc.running := false }

/-- `Core::startMplayer`, as far as the session state, the process and the
log go.  Between the two guards and `proc->start()` the source assembles the
argument list of the decoder from `mset`, `pref` and `mdat` (and may set the
working directory of `proc` and export the subtitle style file).  Of the
session it only reads, except for the assignments kept here:
`mset.current_chapter_id = 0`, and the pending `initial_subtitle` that is
moved into `mset.external_subtitles`. -/
def startMplayer (file : String) (_seek : ℚ) (s : Core) : Core :=
  if file = "" then s
  else if s.proc.running then s
  else
    let s := { s with mset.current_chapter_id := 0 }
    let s :=
      if s.initial_subtitle ≠ "" then
        { s with
          mset.external_subtitles := s.initial_subtitle
          initial_subtitle := ""
          just_loaded_external_subs := true }
      else s
    let s := s.record (.emit .aboutToStartPlaying)
    let s := s.record (.emit .logLineAvailable)
    let s := s.record .start
    { s with proc.running := s.proc.startSucceeds }

/-- `Core::initPlaying`; `seek` defaults to `-1` in `core.h`. -/
def initPlaying (seek : Int) (s : Core) : Core :=
  let s := s.record .hideLogo
  let s := if s.proc.running then stopMplayer s else s
  let start_sec : Int := truncToInt s.mset.current_sec
  let start_sec : Int := if seek > -1 then seek else start_sec
  startMplayer s.mdat.filename start_sec s

/-- `Core::restartPlay` -/
def restartPlay (s : Core) : Core :=
  initPlaying (-1) { s with we_are_restarting := true }

/-- `Core::toggleRepeat(bool)` -/
def toggleRepeat (b : Bool) (s : Core) : Core :=
  if s.mset.loop ≠ b then
    let s := { s with mset.loop := b }
    let v : Int := if s.mset.loop then 0 else -1
    tellmp (.loop v) s
  else s

/-- `Core::toggleFlip(bool)` -/
def toggleFlip (b : Bool) (s : Core) : Core :=
  if s.mset.flip ≠ b then
    let s := { s with mset.flip := b }
    if s.proc.running then restartPlay s else s
  else s

/-- `Core::toggleMirror(bool)` -/
def toggleMirror (b : Bool) (s : Core) : Core :=
  if s.mset.mirror ≠ b then
    let s := { s with mset.mirror := b }
    if s.proc.running then restartPlay s else s
  else s

/-- `Core::toggleKaraoke(bool)` -/
def toggleKaraoke (b : Bool) (s : Core) : Core :=
  if b ≠ s.mset.karaoke_filter then
    let s := { s with mset.karaoke_filter := b }
    if b then tellmp (.af_add "karaoke") s else tellmp (.af_del "karaoke") s
  else s

/-- `Core::toggleExtrastereo(bool)` -/
def toggleExtrastereo (b : Bool) (s : Core) : Core :=
  if b ≠ s.mset.extrastereo_filter then
    let s := { s with mset.extrastereo_filter := b }
    if b then tellmp (.af_add "extrastereo") s else tellmp (.af_del "extrastereo") s
  else s

/-- `Core::toggleVolnorm(bool)` -/
def toggleVolnorm (b : Bool) (s : Core) : Core :=
  if b ≠ s.mset.volnorm_filter then
    let s := { s with mset.volnorm_filter := b }
    let f := s.pref.filters_volnorm
    if b then tellmp (.af_add f) s else tellmp (.af_del "volnorm") s
  else s

/-- `Core::setAudioChannels` -/
def setAudioChannels (channels : Int) (s : Core) : Core :=
  if channels ≠ s.mset.audio_use_channels then
    restartPlay { s with mset.audio_use_channels := channels }
  else s

/-- `Core::setStereoMode` -/
def setStereoMode (mode : Int) (s : Core) : Core :=
  if mode ≠ s.mset.stereo_mode then
    restartPlay { s with mset.stereo_mode := mode }
  else s

/-- `Core::toggleAutophase(bool)` -/
def toggleAutophase (b : Bool) (s : Core) : Core :=
  if b ≠ s.mset.phase_filter then
    restartPlay { s with mset.phase_filter := b }
  else s

/-- `Core::toggleDeblock(bool)` -/
def toggleDeblock (b : Bool) (s : Core) : Core :=
  if b ≠ s.mset.deblock_filter then
    restartPlay { s with mset.deblock_filter := b }
  else s

/-- `Core::toggleDering(bool)` -/
def toggleDering (b : Bool) (s : Core) : Core :=
  if b ≠ s.mset.dering_filter then
    restartPlay { s with mset.dering_filter := b }
  else s

/-- `Core::toggleNoise(bool)` -/
def toggleNoise (b : Bool) (s : Core) : Core :=
  if b ≠ s.mset.noise_filter then
    restartPlay { s with mset.noise_filter := b }
  else s

/-- `Core::changeDenoise` -/
def changeDenoise (id : Int) (s : Core) : Core :=
  if id ≠ s.mset.current_denoiser then
    restartPlay { s with mset.current_denoiser := id }
  else s

/-- `Core::changeUpscale` -/
def changeUpscale (b : Bool) (s : Core) : Core :=
  if s.mset.upscaling_filter ≠ b then
    restartPlay { s with mset.upscaling_filter := b }
  else s

/-- `Core::setBrightness` -/
def setBrightness (value : Int) (s : Core) : Core :=
  let value := if value > 100 then 100 else value
  let value := if value < -100 then -100 else value
  if value ≠ s.mset.brightness then
    let s := tellmp (.brightness value) s
    let s := { s with mset.brightness := value }
    let s := displayMessage (.brightness value) s
    s.record (.emit .videoEqualizerNeedsUpdate)
  else s

/-- `Core::setContrast` -/
def setContrast (value : Int) (s : Core) : Core :=
  let value := if value > 100 then 100 else value
  let value := if value < -100 then -100 else value
  if value ≠ s.mset.contrast then
    let s := tellmp (.contrast value) s
    let s := { s with mset.contrast := value }
    let s := displayMessage (.contrast value) s
    s.record (.emit .videoEqualizerNeedsUpdate)
  else s

/-- `Core::setGamma` -/
def setGamma (value : Int) (s : Core) : Core :=
  let value := if value > 100 then 100 else value
  let value := if value < -100 then -100 else value
  if value ≠ s.mset.gamma then
    let s := tellmp (.gamma value) s
    let s := { s with mset.gamma := value }
    let s := displayMessage (.gamma value) s
    s.record (.emit .videoEqualizerNeedsUpdate)
  else s

/-- `Core::setHue` -/
def setHue (value : Int) (s : Core) : Core :=
  let value := if value > 100 then 100 else value
  let value := if value < -100 then -100 else value
  if value ≠ s.mset.hue then
    let s := tellmp (.hue value) s
    let s := { s with mset.hue := value }
    let s := displayMessage (.hue value) s
    s.record (.emit .videoEqualizerNeedsUpdate)
  else s

/-- `Core::setSaturation` -/
def setSaturation (value : Int) (s : Core) : Core :=
  let value := if value > 100 then 100 else value
  let value := if value < -100 then -100 else value
  if value ≠ s.mset.saturation then
    let s := tellmp (.saturation value) s
    let s := { s with mset.saturation := value }
    let s := displayMessage (.saturation value) s
    s.record (.emit .videoEqualizerNeedsUpdate)
  else s

/-- `Core::incBrightness` -/
def incBrightness (s : Core) : Core :=
  setBrightness (s.mset.brightness + 4) s

/-- `Core::decBrightness` -/
def decBrightness (s : Core) : Core :=
  setBrightness (s.mset.brightness - 4) s

/-- `Core::incContrast` -/
def incContrast (s : Core) : Core :=
  setContrast (s.mset.contrast + 4) s

/-- `Core::decContrast` -/
def decContrast (s : Core) : Core :=
  setContrast (s.mset.contrast - 4) s

/-- `Core::incGamma` -/
def incGamma (s : Core) : Core :=
  setGamma (s.mset.gamma + 4) s

/-- `Core::decGamma` -/
def decGamma (s : Core) : Core :=
  setGamma (s.mset.gamma - 4) s

/-- `Core::incHue` -/
def incHue (s : Core) : Core :=
  setHue (s.mset.hue + 4) s

/-- `Core::decHue` -/
def decHue (s : Core) : Core :=
  setHue (s.mset.hue - 4) s

/-- `Core::incSaturation` -/
def incSaturation (s : Core) : Core :=
  setSaturation (s.mset.saturation + 4) s

/-- `Core::decSaturation` -/
def decSaturation (s : Core) : Core :=
  setSaturation (s.mset.saturation - 4) s

/-- `Core::setSpeed` -/
def setSpeed (value : ℚ) (s : Core) : Core :=
  let value := if value < 1/10 then 1/10 else value
  let value := if value > 100 then 100 else value
  let s := { s with mset.speed := value }
  let s := tellmp (.speed_set value) s
  displayMessage (.speed value) s

/-- `Core::doubleSpeed` -/
def doubleSpeed (s : Core) : Core :=
  setSpeed (s.mset.speed * 2) s

/-- `Core::halveSpeed` -/
def halveSpeed (s : Core) : Core :=
  setSpeed (s.mset.speed / 2) s

/-- `Core::setVolume`; `force` defaults to `false` in `core.h`. -/
def setVolume (volume : Int) (force : Bool) (s : Core) : Core :=
  let current_volume := if s.pref.global_volume then s.pref.volume else s.mset.volume
  if volume = current_volume ∧ force = false then s
  else
    let current_volume := volume
    let current_volume := if current_volume > 100 then 100 else current_volume
    let current_volume := if current_volume < 0 then 0 else current_volume
    let s :=
      if s.state = State.Paused then { s with change_volume_after_unpause := true }
      else tellmp (.volume current_volume) s
    let s :=
      if s.pref.global_volume then
        { s with pref.volume := current_volume, pref.mute := false }
      else
        { s with mset.volume := current_volume, mset.mute := false }
    let s := updateWidgets s
    let s := displayMessage (.volume current_volume) s
    s.record (.emit (.volumeChanged current_volume))

/-- `Core::mute` -/
def mute (b : Bool) (s : Core) : Core :=
  let v : Int := if b then 1 else 0
  let s := tellmp (.mute v) s
  let s := if s.pref.global_volume then { s with pref.mute := b } else { s with mset.mute := b }
  updateWidgets s

/-- `Core::switchMute` -/
def switchMute (s : Core) : Core :=
  let s := { s with mset.mute := !s.mset.mute }
  mute s.mset.mute s

/-- `Core::incVolume` -/
def incVolume (s : Core) : Core :=
  let new_vol := if s.pref.global_volume then s.pref.volume + 4 else s.mset.volume + 4
  setVolume new_vol false s

/-- `Core::decVolume` -/
def decVolume (s : Core) : Core :=
  let new_vol := if s.pref.global_volume then s.pref.volume - 4 else s.mset.volume - 4
  setVolume new_vol false s

/-- `Core::setSubDelay` -/
def setSubDelay (delay : Int) (s : Core) : Core :=
  let s := { s with mset.sub_delay := delay }
  let s := tellmp (.sub_delay ((s.mset.sub_delay : ℚ) / 1000)) s
  displayMessage (.sub_delay delay) s

/-- `Core::incSubDelay` -/
def incSubDelay (s : Core) : Core :=
  setSubDelay (s.mset.sub_delay + 100) s

/-- `Core::decSubDelay` -/
def decSubDelay (s : Core) : Core :=
  setSubDelay (s.mset.sub_delay - 100) s

/-- `Core::setAudioDelay` -/
def setAudioDelay (delay : Int) (s : Core) : Core :=
  let s := { s with mset.audio_delay := delay }
  let s := tellmp (.audio_delay ((s.mset.audio_delay : ℚ) / 1000)) s
  displayMessage (.audio_delay delay) s

/-- `Core::incAudioDelay` -/
def incAudioDelay (s : Core) : Core :=
  setAudioDelay (s.mset.audio_delay + 100) s

/-- `Core::decAudioDelay` -/
def decAudioDelay (s : Core) : Core :=
  setAudioDelay (s.mset.audio_delay - 100) s

/-- `Core::changeSubScale` -/
def changeSubScale (value : ℚ) (s : Core) : Core :=
  let value := if value < 0 then 0 else value
  if value ≠ s.mset.sub_scale_ass then
    let s := { s with mset.sub_scale_ass := value }
    let s := tellmp (.sub_scale s.mset.sub_scale_ass) s
    displayMessage (.font_scale s.mset.sub_scale_ass) s
  else s

/-- `Core::changeSubVisibility` -/
def changeSubVisibility (visible : Bool) (s : Core) : Core :=
  let s := { s with pref.sub_visibility := visible }
  let s := tellmp (.sub_visibility (if s.pref.sub_visibility then 1 else 0)) s
  let s :=
    if s.pref.sub_visibility then displayMessage .subtitles_on s
    else displayMessage .subtitles_off s
  updateWidgets s

/-- `Core::changeDeinterlace` -/
def changeDeinterlace (ID : Int) (s : Core) : Core :=
  if ID ≠ s.mset.current_deinterlacer then
    restartPlay { s with mset.current_deinterlacer := ID }
  else s

/-- `Core::changeChapter(int, bool)` -/
def changeChapter (ID : Int) (relative : Bool) (s : Core) : Core :=
  if ID ≠ s.mset.current_chapter_id ∨ relative = true then
    if s.mdat.type ≠ MediaType.TYPE_DVD then
      let s := tellmp (.seek_chapter ID (if relative then 0 else 1)) s
      let s := tellmp (.get_property "chapter") s
      updateWidgets s
    else
      if s.pref.cache_for_dvds = 0 then
        let s := tellmp (.seek_chapter ID (if relative then 0 else 1)) s
        let s := tellmp (.get_property "chapter") s
        updateWidgets s
      else
        let s := stopMplayer s
        let s := tellmp (.get_property "chapter") s
        let s := { s with mset.current_sec := 0 }
        restartPlay s
  else s

/-- `Core::prevChapter` -/
def prevChapter (s : Core) : Core :=
  changeChapter (-1) true s

/-- `Core::nextChapter` -/
def nextChapter (s : Core) : Core :=
  changeChapter 1 true s

/-- `Core::changeEdition` -/
def changeEdition (ID : Int) (s : Core) : Core :=
  if ID ≠ s.mset.current_edition_id then
    restartPlay { s with mset.current_edition_id := ID, mset.current_sec := 0 }
  else s

/-- `Core::changeAngle` -/
def changeAngle (ID : Int) (s : Core) : Core :=
  if ID ≠ s.mset.current_angle_id then
    restartPlay { s with mset.current_angle_id := ID }
  else s

/-- `Core::changeLetterbox` -/
def changeLetterbox (b : Bool) (s : Core) : Core :=
  if s.mset.add_letterbox ≠ b then
    restartPlay { s with mset.add_letterbox := b }
  else s

/-- `Core::changeOSD` -/
def changeOSD (v : Int) (s : Core) : Core :=
  let s := { s with pref.osd := v }
  let s := tellmp (.osd s.pref.osd) s
  updateWidgets s

/-- `Core::changeRotate` -/
def changeRotate (r : Int) (s : Core) : Core :=
  if s.mset.rotate ≠ r then
    restartPlay { s with mset.rotate := r }
  else s

/-- `Core::changeZoom` -/
def changeZoom (k : Constants) (p : ℚ) (s : Core) : Core :=
  let p := if p < k.ZOOM_MIN then k.ZOOM_MIN else p
  let s := { s with mset.zoom_factor := p }
  let s := s.record (.setZoom p)
  displayMessage (.zoom s.mset.zoom_factor) s

/-- `Core::resetZoom` -/
def resetZoom (k : Constants) (s : Core) : Core :=
  changeZoom k 1 s

/-- `Core::changePanscan` -/
def changePanscan (p : ℚ) (s : Core) : Core :=
  let p := if p < 1/10 then 0 else p
  let p := if p > 1 then 1 else p
  let s := { s with mset.panscan_factor := p }
  let s := tellmp (.panscan s.mset.panscan_factor) s
  displayMessage (.panscan s.mset.panscan_factor) s

/-- `Core::incPanscan` -/
def incPanscan (s : Core) : Core :=
  changePanscan (s.mset.panscan_factor + 1/10) s

/-- `Core::decPanscan` -/
def decPanscan (s : Core) : Core :=
  changePanscan (s.mset.panscan_factor - 1/10) s

/-- `Core::toggleForcedSubsOnly` -/
def toggleForcedSubsOnly (b : Bool) (s : Core) : Core :=
  if s.pref.use_forced_subs_only ≠ b then
    let s := { s with pref.use_forced_subs_only := b }
    let v : Int := if b then 1 else 0
    tellmp (.forced_subs_only v) s
  else s

/-- `Core::changeClosedCaptionChannel` -/
def changeClosedCaptionChannel (c : Int) (s : Core) : Core :=
  if c ≠ s.mset.closed_caption_channel then
    let s := { s with mset.closed_caption_channel := c }
    if s.proc.running then restartPlay s else s
  else s

/-- The volume in force: the expression
`pref->global_volume ? pref->volume : mset.volume` of `Core::setVolume`. -/
def effectiveVolume (s : Core) : Int :=
  if s.pref.global_volume then s.pref.volume else s.mset.volume

/-- The mute flag in force, chosen like the volume in `Core::mute`. -/
def effectiveMute (s : Core) : Bool :=
  if s.pref.global_volume then s.pref.mute else s.mset.mute

/-- A settings record used in the examples: a file playing at chapter 3. -/
def sampleSettings : MediaSettings :=
  { current_sec := 12, current_sub_id := 0, current_title_id := 0, current_chapter_id := 3,
    current_edition_id := -1, current_angle_id := 0, current_video_id := 0,
    current_audio_id := 0, current_program_id := 0, A_marker := -1, B_marker := -1,
    speed := 1, volume := 50, mute := false, audio_delay := 0, sub_delay := 0,
    audio_equalizer := [0, 0, 0, 0, 0, 0, 0, 0, 0, 0], brightness := 0, contrast := 0,
    gamma := 0, hue := 0, saturation := 0, external_subtitles := "", external_audio := "",
    sub_scale_ass := 1, closed_caption_channel := 0, loop := false,
    current_deinterlacer := 0, current_denoiser := 0, phase_filter := false,
    deblock_filter := false, dering_filter := false, noise_filter := false,
    upscaling_filter := false, add_letterbox := false, flip := false, mirror := false,
    rotate := 0, karaoke_filter := false, extrastereo_filter := false,
    volnorm_filter := false, audio_use_channels := 2, stereo_mode := 0, zoom_factor := 1,
    panscan_factor := 0, aspect_ratio_id := 0, win_width := 400, win_height := 300,
    starting_time := -1, is264andHD := false, forced_demuxer := "",
    forced_audio_codec := "", forced_video_codec := "", mplayer_additional_options := "",
    mplayer_additional_video_filters := "", mplayer_additional_audio_filters := "" }

/-- A preferences record used in the examples: per-media volume, windowed
playback inside the player window. -/
def samplePreferences : Preferences :=
  { global_volume := false, volume := 40, mute := false, fullscreen := false,
    sub_visibility := true, osd := 0, use_forced_subs_only := false,
    cache_for_dvds := 0, filters_volnorm := "volnorm=2",
    mplayer_bin := "mplayer2", verbose_log := false, use_mplayer_window := false,
    vo := "xv", ao := "alsa", vdpau_ffh264vdpau := true, vdpau_ffmpeg12vdpau := true,
    vdpau_ffwmv3vdpau := true, vdpau_ffvc1vdpau := true, vdpau_ffodivxvdpau := false,
    vdpau_disable_video_filters := true, use_hwac3 := false, gapless_audio := false,
    h264_skip_loop_filter := .LoopEnabled, show_motion_vectors := false, threads := 1,
    subfuzziness := 1, adapter := -1, priority := .Normal, frame_drop := true,
    hard_frame_drop := false, autosync := false, autosync_factor := 100, use_mc := false,
    mc_value := 0, disable_screensaver := true, color_key := 131328, monitor_aspect := "",
    sub_use_mplayer2_defaults := true, ass_line_spacing := 0, force_ass_styles := false,
    user_forced_ass_style := "", ass_styles_toString := "FontName=Arial,FontSize=20",
    ass_styles_fontname := "Arial", ass_styles_fontsize := 20, use_enca := false,
    enca_lang := "", sub_encoding := "", change_video_equalizer_on_startup := true,
    dvd_device := "/dev/dvd", cdrom_device := "/dev/cdrom", cache_for_files := 2000,
    cache_for_streams := 1000, cache_for_vcds := 1000, cache_for_audiocds := 1000,
    cache_for_tv := 3000, use_idx := false, prefer_ipv4 := true, use_correct_pts := .Detect,
    filters_denoise_soft := "hqdn3d=2:1:2", filters_denoise_normal := "hqdn3d",
    filters_deblock := "pp=vb/hb", filters_noise := "noise=9ah:5ah",
    add_blackborders_on_fullscreen := false, use_soft_video_eq := false,
    mplayer_additional_video_filters := "", subtitles_on_screenshots := false,
    screenshot_directory := "", use_scaletempo := .Detect, use_audio_equalizer := true,
    mplayer_additional_audio_filters := "", use_soft_vol := true, softvol_max := 110,
    use_edl_files := true, mplayer_additional_options := "", use_dvdnav := false,
    dont_remember_media_settings := false, dont_remember_time_pos := false,
    initial_audio_track := 1, initial_subtitle_track := 1, audio_lang := "",
    subtitle_lang := "", autoload_sub := true, prefer_external := false,
    vcd_initial_title := 2, last_dvb_channel := "", last_tv_channel := "",
    initial_tv_deinterlace := 0, osd_delay := 2200, wheel_function := 2,
    wheel_function_cycle := 30 }

/-- A session used in the examples: a local file is playing in a running
process, with per-media volume. -/
def sampleCore : Core :=
  { mdat := { filename := "/tmp/movie.mkv", type := .TYPE_FILE, demuxer := "mkv",
              duration := 600, audios := [{ ID := 0, lang := "en" }, { ID := 1, lang := "fr" }],
              chapters_timestamp := [(0, 0), (1, 60000), (2, 120000), (3, 180000)],
              videos := [{ ID := 0, lang := "" }],
              subs := [{ type := .Sub, ID := 0, lang := "en", filename := "" },
                       { type := .Sub, ID := 1, lang := "fr", filename := "" }],
              chapters := 4, titles := [], initialized := true, novideo := false,
              video_codec := "ffh264", audio_codec := "ffaac" },
    mset := sampleSettings,
    pref := samplePreferences,
    state := .Playing,
    we_are_restarting := false,
    just_loaded_external_subs := false,
    just_unloaded_external_subs := false,
    change_volume_after_unpause := false,
    initial_subtitle := "",
    last_second := 0,
    proc := { running := true, finishesOnQuit := true, startSucceeds := true },
    log := [] }

/-- The sample session with a per-media volume of 150, as a settings file
written by hand may hold it. -/
def loudCore : Core :=
  { sampleCore with mset.volume := 150 }

/-- Sample values for the constants of `constants.h`. -/
def sampleConstants : Constants :=
  { ZOOM_MIN := 1/2, ZOOM_STEP := 1/20 }

/-- The effects of `displayMessage text` in session `s`, as a list. -/
def displayMessageEvents (text : Message) (s : Core) : List Event :=
  Event.emit (.showMessage text) ::
    (if s.pref.fullscreen ∧ s.state ≠ State.Stopped then
      (if s.proc.running then [Event.write "" text 3000 1] else [])
     else [])

/-- The sample session, muted (per-media mute flag). -/
def mutedCore : Core :=
  { sampleCore with mset.mute := true }

/-- The effects of one stop and start cycle of `restartPlay`, on a session
with a running process and a file name: the logo is hidden, `quit` is sent and
awaited (with a kill after the timeout), and the process is started. -/
def restartEvents (s : Core) : List Event :=
  [Event.hideLogo, Event.writeToStdin .quit, Event.waitForFinished] ++
    (if s.proc.finishesOnQuit then [] else [Event.kill]) ++
    [Event.emit .aboutToStartPlaying, Event.emit .logLineAvailable, Event.start]

/-- The settings after one stop and start cycle: `startMplayer` resets the
chapter and moves a pending initial subtitle file into the settings. -/
def restartSettings (s : Core) : MediaSettings :=
  { s.mset with
    current_chapter_id := 0
    external_subtitles :=
      if s.initial_subtitle ≠ "" then s.initial_subtitle else s.mset.external_subtitles }

/-- A process stop: the `quit` line written by `stopMplayer`. -/
def Event.isStop : Event → Bool
  | .writeToStdin .quit => true
  | _ => false

/-- A process start: the call `proc->start()`. -/
def Event.isStart : Event → Bool
  | .start => true
  | _ => false

/-- A list of effects holds exactly one process stop and exactly one process
start, the stop before the start. -/
def oneStopThenStart (evs : List Event) : Prop :=
  ∃ pre mid post,
    evs = pre ++ [Event.writeToStdin .quit] ++ mid ++ [Event.start] ++ post ∧
    ∀ e ∈ pre ++ mid ++ post, e.isStop = false ∧ e.isStart = false

/-- The mutators of the settings that spec §4.5 classifies as requiring a
restart (deinterlace, denoise, deblock, dering, noise, letterbox, flip, mirror,
rotate, upscale, audio channel count, stereo mode, closed-caption channel),
each with its argument. -/
inductive RestartMutator where
  | changeDeinterlace (ID : Int)
  | changeDenoise (id : Int)
  | toggleDeblock (b : Bool)
  | toggleDering (b : Bool)
  | toggleNoise (b : Bool)
  | changeLetterbox (b : Bool)
  | toggleFlip (b : Bool)
  | toggleMirror (b : Bool)
  | changeRotate (r : Int)
  | changeUpscale (b : Bool)
  | setAudioChannels (channels : Int)
  | setStereoMode (mode : Int)
  | changeClosedCaptionChannel (c : Int)

/-- The member function of `Core` that a `RestartMutator` names. -/
def RestartMutator.run : RestartMutator → Core → Core
  | .changeDeinterlace ID => SMPlayer2.changeDeinterlace ID
  | .changeDenoise id => SMPlayer2.changeDenoise id
  | .toggleDeblock b => SMPlayer2.toggleDeblock b
  | .toggleDering b => SMPlayer2.toggleDering b
  | .toggleNoise b => SMPlayer2.toggleNoise b
  | .changeLetterbox b => SMPlayer2.changeLetterbox b
  | .toggleFlip b => SMPlayer2.toggleFlip b
  | .toggleMirror b => SMPlayer2.toggleMirror b
  | .changeRotate r => SMPlayer2.changeRotate r
  | .changeUpscale b => SMPlayer2.changeUpscale b
  | .setAudioChannels channels => SMPlayer2.setAudioChannels channels
  | .setStereoMode mode => SMPlayer2.setStereoMode mode
  | .changeClosedCaptionChannel c => SMPlayer2.changeClosedCaptionChannel c

/-- The one assignment to the settings that a `RestartMutator` stands for. -/
def RestartMutator.assign : RestartMutator → MediaSettings → MediaSettings
  | .changeDeinterlace ID, ms => { ms with current_deinterlacer := ID }
  | .changeDenoise id, ms => { ms with current_denoiser := id }
  | .toggleDeblock b, ms => { ms with deblock_filter := b }
  | .toggleDering b, ms => { ms with dering_filter := b }
  | .toggleNoise b, ms => { ms with noise_filter := b }
  | .changeLetterbox b, ms => { ms with add_letterbox := b }
  | .toggleFlip b, ms => { ms with flip := b }
  | .toggleMirror b, ms => { ms with mirror := b }
  | .changeRotate r, ms => { ms with rotate := r }
  | .changeUpscale b, ms => { ms with upscaling_filter := b }
  | .setAudioChannels channels, ms => { ms with audio_use_channels := channels }
  | .setStereoMode mode, ms => { ms with stereo_mode := mode }
  | .changeClosedCaptionChannel c, ms => { ms with closed_caption_channel := c }

/-- The argument of the mutator differs from the value the setting has. -/
def RestartMutator.isNew : RestartMutator → MediaSettings → Prop
  | .changeDeinterlace ID, ms => ID ≠ ms.current_deinterlacer
  | .changeDenoise id, ms => id ≠ ms.current_denoiser
  | .toggleDeblock b, ms => b ≠ ms.deblock_filter
  | .toggleDering b, ms => b ≠ ms.dering_filter
  | .toggleNoise b, ms => b ≠ ms.noise_filter
  | .changeLetterbox b, ms => b ≠ ms.add_letterbox
  | .toggleFlip b, ms => b ≠ ms.flip
  | .toggleMirror b, ms => b ≠ ms.mirror
  | .changeRotate r, ms => r ≠ ms.rotate
  | .changeUpscale b, ms => b ≠ ms.upscaling_filter
  | .setAudioChannels channels, ms => channels ≠ ms.audio_use_channels
  | .setStereoMode mode, ms => mode ≠ ms.stereo_mode
  | .changeClosedCaptionChannel c, ms => c ≠ ms.closed_caption_channel

instance RestartMutator.decidableIsNew (m : RestartMutator) (ms : MediaSettings) :
    Decidable (m.isNew ms) := by
  cases m <;> unfold RestartMutator.isNew <;> infer_instance

/-- The mutators of the settings that spec §4.5 classifies as live-appliable,
each with its arguments. -/
inductive LiveMutator where
  | setVolume (volume : Int) (force : Bool)
  | mute (b : Bool)
  | setBrightness (value : Int)
  | setContrast (value : Int)
  | setGamma (value : Int)
  | setHue (value : Int)
  | setSaturation (value : Int)
  | setSpeed (value : ℚ)
  | setSubDelay (delay : Int)
  | setAudioDelay (delay : Int)
  | changeSubScale (value : ℚ)
  | changeSubVisibility (visible : Bool)
  | changePanscan (p : ℚ)
  | changeOSD (v : Int)
  | toggleRepeat (b : Bool)
  | toggleKaraoke (b : Bool)
  | toggleExtrastereo (b : Bool)
  | toggleVolnorm (b : Bool)
  | toggleForcedSubsOnly (b : Bool)
  | displayTextOnOSD (text : String) (duration : Int) (level : Int) (pfx : String)
  | changeChapter (ID : Int) (relative : Bool)

/-- The member function of `Core` that a `LiveMutator` names. -/
def LiveMutator.run : LiveMutator → Core → Core
  | .setVolume volume force => SMPlayer2.setVolume volume force
  | .mute b => SMPlayer2.mute b
  | .setBrightness value => SMPlayer2.setBrightness value
  | .setContrast value => SMPlayer2.setContrast value
  | .setGamma value => SMPlayer2.setGamma value
  | .setHue value => SMPlayer2.setHue value
  | .setSaturation value => SMPlayer2.setSaturation value
  | .setSpeed value => SMPlayer2.setSpeed value
  | .setSubDelay delay => SMPlayer2.setSubDelay delay
  | .setAudioDelay delay => SMPlayer2.setAudioDelay delay
  | .changeSubScale value => SMPlayer2.changeSubScale value
  | .changeSubVisibility visible => SMPlayer2.changeSubVisibility visible
  | .changePanscan p => SMPlayer2.changePanscan p
  | .changeOSD v => SMPlayer2.changeOSD v
  | .toggleRepeat b => SMPlayer2.toggleRepeat b
  | .toggleKaraoke b => SMPlayer2.toggleKaraoke b
  | .toggleExtrastereo b => SMPlayer2.toggleExtrastereo b
  | .toggleVolnorm b => SMPlayer2.toggleVolnorm b
  | .toggleForcedSubsOnly b => SMPlayer2.toggleForcedSubsOnly b
  | .displayTextOnOSD text duration level pfx => SMPlayer2.displayTextOnOSD (.text text) duration level pfx
  | .changeChapter ID relative => SMPlayer2.changeChapter ID relative

/-- A runtime command: a line written to the running decoder, other than
`quit`. -/
def Event.isRuntimeCommand : Event → Bool
  | .writeToStdin .quit => false
  | .writeToStdin _ => true
  | .write _ _ _ _ => true
  | _ => false

/-- A signal emitted towards the user interface. -/
def Event.isSignal : Event → Bool
  | .emit _ => true
  | _ => false

/-- A step of the session that is applied live: the process and the
restarting flag are untouched, and every added effect is a runtime command or
a signal; in particular none is a process stop or a process start. -/
def liveStep (s s' : Core) : Prop :=
  s'.proc = s.proc ∧
  s'.we_are_restarting = s.we_are_restarting ∧
  ∃ evs, s'.log = s.log ++ evs ∧
    ∀ e ∈ evs, e.isStop = false ∧ e.isStart = false ∧
      (e.isRuntimeCommand = true ∨ e.isSignal = true)

/-- The mutators of `core.cpp` that compare the new value with the current
one before doing anything, each with its argument.  `setVolume` stands for the
call with `force` left at its default `false`, `changeChapter` for the
one-argument overload (`relative` false). -/
inductive GuardedMutator where
  | toggleRepeat (b : Bool)
  | toggleFlip (b : Bool)
  | toggleMirror (b : Bool)
  | toggleKaraoke (b : Bool)
  | toggleExtrastereo (b : Bool)
  | toggleVolnorm (b : Bool)
  | setAudioChannels (channels : Int)
  | setStereoMode (mode : Int)
  | toggleAutophase (b : Bool)
  | toggleDeblock (b : Bool)
  | toggleDering (b : Bool)
  | toggleNoise (b : Bool)
  | changeDenoise (id : Int)
  | changeUpscale (b : Bool)
  | setBrightness (value : Int)
  | setContrast (value : Int)
  | setGamma (value : Int)
  | setHue (value : Int)
  | setSaturation (value : Int)
  | setVolume (volume : Int)
  | changeSubScale (value : ℚ)
  | changeDeinterlace (ID : Int)
  | changeChapter (ID : Int)
  | changeEdition (ID : Int)
  | changeAngle (ID : Int)
  | changeLetterbox (b : Bool)
  | changeRotate (r : Int)
  | toggleForcedSubsOnly (b : Bool)
  | changeClosedCaptionChannel (c : Int)

/-- The member function of `Core` that a `GuardedMutator` names. -/
def GuardedMutator.run : GuardedMutator → Core → Core
  | .toggleRepeat b => SMPlayer2.toggleRepeat b
  | .toggleFlip b => SMPlayer2.toggleFlip b
  | .toggleMirror b => SMPlayer2.toggleMirror b
  | .toggleKaraoke b => SMPlayer2.toggleKaraoke b
  | .toggleExtrastereo b => SMPlayer2.toggleExtrastereo b
  | .toggleVolnorm b => SMPlayer2.toggleVolnorm b
  | .setAudioChannels channels => SMPlayer2.setAudioChannels channels
  | .setStereoMode mode => SMPlayer2.setStereoMode mode
  | .toggleAutophase b => SMPlayer2.toggleAutophase b
  | .toggleDeblock b => SMPlayer2.toggleDeblock b
  | .toggleDering b => SMPlayer2.toggleDering b
  | .toggleNoise b => SMPlayer2.toggleNoise b
  | .changeDenoise id => SMPlayer2.changeDenoise id
  | .changeUpscale b => SMPlayer2.changeUpscale b
  | .setBrightness value => SMPlayer2.setBrightness value
  | .setContrast value => SMPlayer2.setContrast value
  | .setGamma value => SMPlayer2.setGamma value
  | .setHue value => SMPlayer2.setHue value
  | .setSaturation value => SMPlayer2.setSaturation value
  | .setVolume volume => SMPlayer2.setVolume volume false
  | .changeSubScale value => SMPlayer2.changeSubScale value
  | .changeDeinterlace ID => SMPlayer2.changeDeinterlace ID
  | .changeChapter ID => SMPlayer2.changeChapter ID false
  | .changeEdition ID => SMPlayer2.changeEdition ID
  | .changeAngle ID => SMPlayer2.changeAngle ID
  | .changeLetterbox b => SMPlayer2.changeLetterbox b
  | .changeRotate r => SMPlayer2.changeRotate r
  | .toggleForcedSubsOnly b => SMPlayer2.toggleForcedSubsOnly b
  | .changeClosedCaptionChannel c => SMPlayer2.changeClosedCaptionChannel c

/-- The argument of the mutator is the value the setting already has.  For a
setter that clamps its argument first (the video equalizer setters to
[-100,100], `changeSubScale` to non-negative values) the value is also required
to lie inside the clamp range. -/
def GuardedMutator.atCurrent : GuardedMutator → Core → Prop
  | .toggleRepeat b, s => b = s.mset.loop
  | .toggleFlip b, s => b = s.mset.flip
  | .toggleMirror b, s => b = s.mset.mirror
  | .toggleKaraoke b, s => b = s.mset.karaoke_filter
  | .toggleExtrastereo b, s => b = s.mset.extrastereo_filter
  | .toggleVolnorm b, s => b = s.mset.volnorm_filter
  | .setAudioChannels channels, s => channels = s.mset.audio_use_channels
  | .setStereoMode mode, s => mode = s.mset.stereo_mode
  | .toggleAutophase b, s => b = s.mset.phase_filter
  | .toggleDeblock b, s => b = s.mset.deblock_filter
  | .toggleDering b, s => b = s.mset.dering_filter
  | .toggleNoise b, s => b = s.mset.noise_filter
  | .changeDenoise id, s => id = s.mset.current_denoiser
  | .changeUpscale b, s => b = s.mset.upscaling_filter
  | .setBrightness value, s => value = s.mset.brightness ∧ -100 ≤ value ∧ value ≤ 100
  | .setContrast value, s => value = s.mset.contrast ∧ -100 ≤ value ∧ value ≤ 100
  | .setGamma value, s => value = s.mset.gamma ∧ -100 ≤ value ∧ value ≤ 100
  | .setHue value, s => value = s.mset.hue ∧ -100 ≤ value ∧ value ≤ 100
  | .setSaturation value, s => value = s.mset.saturation ∧ -100 ≤ value ∧ value ≤ 100
  | .setVolume volume, s => volume = effectiveVolume s
  | .changeSubScale value, s => value = s.mset.sub_scale_ass ∧ 0 ≤ value
  | .changeDeinterlace ID, s => ID = s.mset.current_deinterlacer
  | .changeChapter ID, s => ID = s.mset.current_chapter_id
  | .changeEdition ID, s => ID = s.mset.current_edition_id
  | .changeAngle ID, s => ID = s.mset.current_angle_id
  | .changeLetterbox b, s => b = s.mset.add_letterbox
  | .changeRotate r, s => r = s.mset.rotate
  | .toggleForcedSubsOnly b, s => b = s.pref.use_forced_subs_only
  | .changeClosedCaptionChannel c, s => c = s.mset.closed_caption_channel

instance GuardedMutator.decidableAtCurrent (m : GuardedMutator) (s : Core) :
    Decidable (m.atCurrent s) := by
  cases m <;> unfold GuardedMutator.atCurrent <;> infer_instance

/-- Preprocessor switches of `config.h` and of the platform, which decide what
part of `core.cpp` is compiled; the embedded functions take them as a
parameter.  `SEEKBAR_RESOLUTION` is `none` when the macro is not defined. -/
structure Config where
  Q_OS_WIN : Bool
  Q_WS_X11 : Bool
  USE_ADAPTER : Bool
  USE_COLORKEY : Bool
  PROGRAM_SWITCH : Bool
  DVDNAV_SUPPORT : Bool
  SEEKBAR_RESOLUTION : Option Int
  NOTIFY_AUDIO_CHANGES : Bool
  NOTIFY_SUB_CHANGES : Bool
  NO_USE_INI_FILES : Bool

/-- The enumeration constants of `mediasettings.h`, a header that is missing
from the sources; the functions that use them take them as a parameter. -/
structure SettingsConstants where
  NoneSelected : Int
  SubNone : Int
  NoDeinterlace : Int
  L5 : Int
  Yadif : Int
  LB : Int
  Yadif_1 : Int
  Kerndeint : Int
  NoDenoise : Int
  DenoiseSoft : Int
  NoRotate : Int
  Left : Int

/-- Modelled from the spec: the record `DiscData` of `discname.h` (spec §4.2,
policy 1: device or path, title number, protocol). -/
structure DiscData where
  protocol : String
  title : Int
  device : String

/-- The collaborators that `core.cpp` calls and that are missing from the
sources (the file system behind `QFileInfo` and `QFile`, `QUrl`, `QRegExp`,
`DiscName`, `Helper`, `Paths`, `DesktopInfo`, `ColorUtils`, `MyProcess`, the
video window): each field is what the call of that name answers.
* `matchesPlaylistPattern p`: the case-insensitive regular expression
  `\.ram$|\.asx$|\.m3u$|\.pls$` matches `p`;
* `capturedTitle scheme f`: the number captured by `^scheme://(\d+)` in `f`,
  converted with `toInt`, when the expression matches;
* `exportStylesWorks`: the subtitle style file exists once
  `pref->ass_styles.exportStyles` has been asked to create it;
* `formatDouble x`: the text that `QString::arg(double)` produces;
* `langMatches expr lang`: the regular expression `expr` of a language
  preference matches the language tag `lang` of a track;
* `mset_reset`, `mdat_reset`: the records that `mset.reset()` and
  `mdat.reset()` leave (`mediasettings.cpp` and `mediadata.cpp` are missing);
* `existSettingsFor`, `loadSettingsFor`: the store `file_settings` of
  persisted snapshots; loading overwrites the settings record it is given;
* `tv_existSettingsFor`, `tv_loadSettingsFor`: the store `tv_settings`;
* `aspectToNum`, `aspectToString`: the static helpers of `MediaSettings`;
* `default_sub_default`, `prefer_external_default`: the defaults of the second
  and of the third parameter of `SubTracks::selectOne`. -/
structure Env where
  DiscName_split : String → DiscData
  DiscName_joinDVD : Int → String → Bool → String
  toLocalFile : String → String
  urlPath : String → String
  matchesPlaylistPattern : String → Bool
  capturedTitle : String → String → Option Int
  fileExists : String → Bool
  isDir : String → Bool
  isExecutable : String → Bool
  absoluteFilePath : String → String
  suffix : String → String
  path : String → String
  completeBaseName : String → String
  toLower : String → String
  directoryContainsDVD : String → Bool
  winId : Int
  colorToRGB : Int → String
  subtitleStyleFile : String
  exportStylesWorks : Bool
  desktop_width : Int
  desktop_aspectRatio : ℚ
  formatDouble : ℚ → String
  equalizerListToString : List Int → String
  splitArguments : String → List String
  langMatches : String → String → Bool
  mset_reset : MediaSettings
  mdat_reset : MediaData
  existSettingsFor : String → Bool
  loadSettingsFor : String → MediaSettings → MediaSettings
  tv_existSettingsFor : String → Bool
  tv_loadSettingsFor : String → MediaSettings → MediaSettings
  aspectToNum : Int → ℚ
  aspectToString : Int → String
  DiscName_join : DiscData → String
  prefer_external_default : Bool
  default_sub_default : Int

/-- One argument handed to `proc->addArgument`, in the order of the calls. -/
inductive Arg where
  /-- A string literal of the source: an option name or a fixed value. -/
  | lit (text : String)
  /-- Text `QString::number(n)` of an `int`. -/
  | int (n : Int)
  /-- Text `QString::number(x)` of a `double`. -/
  | num (x : ℚ)
  /-- A string taken or assembled from the settings, the preferences or the
  environment (a file name, a filter chain, a free-form option of the user). -/
  | str (s : String)
  deriving DecidableEq

/-- The string that reaches the decoder for one argument; the text of a
`double` is what `formatDouble` of the environment produces. -/
def Arg.render (env : Env) : Arg → String
  | .lit text => text
  | .int n => toString n
  | .num x => env.formatDouble x
  | .str s => s

/-- `QString::startsWith` (case sensitive), on the characters of the two
strings. -/
def startsWith (s pre : String) : Bool :=
  pre.data.isPrefixOf s.data

/-- `QString::endsWith` (case sensitive), on the characters of the two
strings. -/
def endsWith (s post : String) : Bool :=
  post.data.reverse.isPrefixOf s.data.reverse

/-- The session as `startMplayer` has it when it reads the settings for the
argument list: the chapter is reset and a pending initial subtitle file has
been moved into the settings. -/
def startSession (s : Core) : Core :=
  let s := { s with mset.current_chapter_id := 0 }
  if s.initial_subtitle ≠ "" then
    { s with
      mset.external_subtitles := s.initial_subtitle
      initial_subtitle := ""
      just_loaded_external_subs := true }
  else s

/-- The local variables `file`, `dvd_folder`, `dvd_title` and
`url_is_playlist` of `startMplayer`, once the DVD and playlist checks at its
head are done. -/
structure StartTarget where
  file : String
  dvd_folder : String
  dvd_title : Int
  url_is_playlist : Bool

/-- The head of `Core::startMplayer`: a DVD locator is split and rewritten as
`protocol://title`, and the locator is checked for a playlist. -/
def startTarget (env : Env) (s : Core) (file : String) : StartTarget :=
  let t : StartTarget :=
    if s.mdat.type = MediaType.TYPE_DVD then
      let disc_data := env.DiscName_split file
      let dvd_folder := disc_data.device
      let dvd_folder := if dvd_folder = "" then s.pref.dvd_device else dvd_folder
      let dvd_title := disc_data.title
      let file := disc_data.protocol ++ "://"
      let file := if dvd_title > 0 then file ++ toString dvd_title else file
      { file := file, dvd_folder := dvd_folder, dvd_title := dvd_title,
        url_is_playlist := false }
    else
      { file := file, dvd_folder := "", dvd_title := -1, url_is_playlist := false }
  if endsWith t.file "|playlist" then
    { t with url_is_playlist := true, file := t.file.replace "|playlist" "" }
  else
    { t with url_is_playlist := env.matchesPlaylistPattern (env.urlPath t.file) }

/-- The local variable `screenshot_enabled` of `startMplayer`. -/
def screenshotEnabled (env : Env) (s : Core) : Bool :=
  decide (s.pref.screenshot_directory ≠ "") && env.isDir s.pref.screenshot_directory

/-- The idiom `if (!acc.isEmpty()) acc += sep; acc += x;` of `startMplayer`. -/
def appendWith (sep : String) (acc : String) (x : String) : String :=
  if acc ≠ "" then acc ++ sep ++ x else acc ++ x

/-- Arguments of `startMplayer`: the executable up to `-nomouseinput`. -/
def argsGeneral (env : Env) (s : Core) : List Arg :=
  let mplayer_bin := s.pref.mplayer_bin
  let mplayer_bin :=
    if env.fileExists mplayer_bin ∧ env.isExecutable mplayer_bin ∧ ¬ env.isDir mplayer_bin then
      env.absoluteFilePath mplayer_bin
    else mplayer_bin
  [Arg.str mplayer_bin, Arg.lit "-noquiet"] ++
  (if s.pref.verbose_log then [Arg.lit "-v"] else []) ++
  (if s.pref.fullscreen ∧ s.pref.use_mplayer_window then [Arg.lit "-fs"] else []) ++
  [Arg.lit "-nomouseinput"]

/-- The codec list that `startMplayer` builds for a `vdpau` output driver. -/
def vdpauCodecs (p : Preferences) : String :=
  let c := ""
  let c := if p.vdpau_ffh264vdpau then c ++ "ffh264vdpau," else c
  let c := if p.vdpau_ffmpeg12vdpau then c ++ "ffmpeg12vdpau," else c
  let c := if p.vdpau_ffwmv3vdpau then c ++ "ffwmv3vdpau," else c
  let c := if p.vdpau_ffvc1vdpau then c ++ "ffvc1vdpau," else c
  let c := if p.vdpau_ffodivxvdpau then c ++ "ffodivxvdpau," else c
  c

/-- The local variable `lavdopts` of `startMplayer`. -/
def lavdopts (s : Core) : String :=
  let l := ""
  let l :=
    if s.pref.h264_skip_loop_filter = H264LoopFilter.LoopDisabled ∨
        (s.pref.h264_skip_loop_filter = H264LoopFilter.LoopDisabledOnHD ∧
          s.mset.is264andHD) then
      appendWith ":" l "skiploopfilter=all"
    else l
  let l := if s.pref.show_motion_vectors then appendWith ":" l "vismv=7" else l
  let l :=
    if s.pref.threads > 0 then appendWith ":" l ("threads=" ++ toString s.pref.threads)
    else l
  l

/-- Arguments of `startMplayer`: demuxer and codecs, up to `-lavdopts`. -/
def argsCodecs (cfg : Config) (s : Core) : List Arg :=
  (if s.mset.forced_demuxer ≠ "" then [Arg.lit "-demuxer", Arg.str s.mset.forced_demuxer]
    else []) ++
  (if s.mset.forced_audio_codec ≠ "" then [Arg.lit "-ac", Arg.str s.mset.forced_audio_codec]
    else []) ++
  (if s.mset.forced_video_codec ≠ "" then [Arg.lit "-vc", Arg.str s.mset.forced_video_codec]
    else if ¬ cfg.Q_OS_WIN then
      (if startsWith s.pref.vo "vdpau" then
        (if vdpauCodecs s.pref ≠ "" then [Arg.lit "-vc", Arg.str (vdpauCodecs s.pref)]
          else [])
        else [])
    else []) ++
  (if s.pref.use_hwac3 then [Arg.lit "-afm", Arg.lit "hwac3"] else []) ++
  (if s.pref.gapless_audio then [Arg.lit "-gapless-audio"] else []) ++
  (if lavdopts s ≠ "" then [Arg.lit "-lavdopts", Arg.str (lavdopts s)] else [])

/-- The priority name that `startMplayer` passes on Windows. -/
def priorityName : Priority → String
  | .Realtime => "realtime"
  | .High => "high"
  | .AboveNormal => "abovenormal"
  | .Normal => "normal"
  | .BelowNormal => "belownormal"
  | .Idle => "idle"
  | .Other => "normal"

/-- Arguments of `startMplayer`: from `-sub-fuzziness` to the window
arguments (`-wid` or `-monitoraspect`). -/
def argsOutput (cfg : Config) (env : Env) (s : Core) : List Arg :=
  [Arg.lit "-sub-fuzziness", Arg.int s.pref.subfuzziness, Arg.lit "-identify",
    Arg.lit "-slave"] ++
  (if s.pref.vo ≠ "" then [Arg.lit "-vo", Arg.str s.pref.vo] else []) ++
  (if cfg.USE_ADAPTER ∧ s.pref.adapter > -1 then [Arg.lit "-adapter", Arg.int s.pref.adapter]
    else []) ++
  (if s.pref.ao ≠ "" then [Arg.lit "-ao", Arg.str s.pref.ao] else []) ++
  (if ¬ cfg.Q_OS_WIN ∧ startsWith s.pref.vo "x11" then [Arg.lit "-zoom"] else []) ++
  [Arg.lit "-nokeepaspect"] ++
  (if cfg.Q_OS_WIN then [Arg.lit "-priority", Arg.lit (priorityName s.pref.priority)]
    else []) ++
  (if s.pref.frame_drop then [Arg.lit "-framedrop"] else []) ++
  (if s.pref.hard_frame_drop then [Arg.lit "-hardframedrop"] else []) ++
  (if s.pref.autosync then [Arg.lit "-autosync", Arg.int s.pref.autosync_factor] else []) ++
  (if s.pref.use_mc then [Arg.lit "-mc", Arg.num s.pref.mc_value] else []) ++
  (if ¬ cfg.Q_OS_WIN ∧ ¬ s.pref.use_mplayer_window then
    [Arg.lit "-input", Arg.lit "nodefault-bindings:conf=/dev/null"] else []) ++
  (if cfg.Q_WS_X11 then
    (if s.pref.disable_screensaver then [Arg.lit "-stop-xscreensaver"]
      else [Arg.lit "-nostop-xscreensaver"])
    else []) ++
  (if ¬ s.pref.use_mplayer_window then
    [Arg.lit "-wid", Arg.int env.winId] ++
    (if cfg.USE_COLORKEY ∧ cfg.Q_OS_WIN ∧ (startsWith s.pref.vo "directx" ∨ s.pref.vo = "")
      then [Arg.lit "-colorkey", Arg.str (env.colorToRGB s.pref.color_key)] else []) ++
    [Arg.lit "-monitorpixelaspect", Arg.lit "1"]
   else
    (if s.pref.monitor_aspect ≠ "" then [Arg.lit "-monitoraspect", Arg.str s.pref.monitor_aspect]
      else []))

/-- The local variable `encoding` of `startMplayer` (subtitle encoding). -/
def subtitleEncoding (p : Preferences) : String :=
  if p.use_enca ∧ p.enca_lang ≠ "" then
    let encoding := "enca:" ++ p.enca_lang
    if p.sub_encoding ≠ "" then encoding ++ (":" ++ p.sub_encoding) else encoding
  else if p.sub_encoding ≠ "" then p.sub_encoding
  else ""

/-- Arguments of `startMplayer`: subtitle fonts and styles, subtitle encoding,
closed captions, forced subtitles. -/
def argsSubtitleStyle (env : Env) (s : Core) : List Arg :=
  (if ¬ s.pref.sub_use_mplayer2_defaults then
    [Arg.lit "-ass", Arg.lit "-embeddedfonts", Arg.lit "-ass-line-spacing",
      Arg.int s.pref.ass_line_spacing, Arg.lit "-ass-font-scale",
      Arg.num s.mset.sub_scale_ass] ++
    (if ¬ s.pref.force_ass_styles then
      (if env.fileExists env.subtitleStyleFile ∨ env.exportStylesWorks then
        [Arg.lit "-ass-styles", Arg.str env.subtitleStyleFile] else [])
     else
      [Arg.lit "-ass-force-style"] ++
      (if s.pref.user_forced_ass_style ≠ "" then [Arg.str s.pref.user_forced_ass_style]
        else [Arg.str s.pref.ass_styles_toString])) ++
    (if s.pref.ass_styles_fontname ≠ "" then [Arg.lit "-font", Arg.str s.pref.ass_styles_fontname]
      else []) ++
    [Arg.lit "-subfont-autoscale", Arg.lit "0", Arg.lit "-subfont-osd-scale",
      Arg.int s.pref.ass_styles_fontsize]
   else []) ++
  (if subtitleEncoding s.pref ≠ "" then [Arg.lit "-subcp", Arg.str (subtitleEncoding s.pref)]
    else []) ++
  (if s.mset.closed_caption_channel > 0 then
    [Arg.lit "-subcc", Arg.int s.mset.closed_caption_channel] else []) ++
  (if s.pref.use_forced_subs_only then [Arg.lit "-forcedsubsonly"] else [])

/-- Arguments of `startMplayer`: program, video track and audio track. -/
def argsTracks (cfg : Config) (k : SettingsConstants) (s : Core) : List Arg :=
  if cfg.PROGRAM_SWITCH ∧ s.mset.current_program_id ≠ k.NoneSelected then
    [Arg.lit "-tsprog", Arg.int s.mset.current_program_id]
  else
    (if s.mset.current_video_id ≠ k.NoneSelected then
      [Arg.lit "-vid", Arg.int s.mset.current_video_id] else []) ++
    (if s.mset.current_audio_id ≠ k.NoneSelected then
      (if s.mdat.audios.length ≠ 1 then [Arg.lit "-aid", Arg.int s.mset.current_audio_id]
        else [])
      else [])

/-- Arguments of `startMplayer`: external subtitle and audio files, audio and
subtitle delay. -/
def argsExternalFiles (env : Env) (s : Core) : List Arg :=
  (if s.mset.external_subtitles ≠ "" then
    (if env.toLower (env.suffix s.mset.external_subtitles) = "idx" then
      [Arg.lit "-vobsub",
        Arg.str (env.path s.mset.external_subtitles ++ "/" ++
          env.completeBaseName s.mset.external_subtitles)]
     else [Arg.lit "-sub", Arg.str s.mset.external_subtitles])
    else []) ++
  (if s.mset.external_audio ≠ "" then [Arg.lit "-audiofile", Arg.str s.mset.external_audio]
    else []) ++
  (if s.mset.audio_delay ≠ 0 then [Arg.lit "-delay", Arg.num ((s.mset.audio_delay : ℚ) / 1000)]
    else []) ++
  (if s.mset.sub_delay ≠ 0 then [Arg.lit "-subdelay", Arg.num ((s.mset.sub_delay : ℚ) / 1000)]
    else [])

/-- Arguments of `startMplayer`: video equalizer values and volume. -/
def argsEqualizerVolume (s : Core) : List Arg :=
  (if s.pref.change_video_equalizer_on_startup then
    (if s.mset.contrast ≠ 0 then [Arg.lit "-contrast", Arg.int s.mset.contrast] else []) ++
    (if s.mset.brightness ≠ 0 then [Arg.lit "-brightness", Arg.int s.mset.brightness]
      else []) ++
    (if s.mset.hue ≠ 0 then [Arg.lit "-hue", Arg.int s.mset.hue] else []) ++
    (if s.mset.saturation ≠ 0 then [Arg.lit "-saturation", Arg.int s.mset.saturation]
      else [])
    else []) ++
  (if s.pref.global_volume then [Arg.lit "-volume", Arg.int s.pref.volume]
    else [Arg.lit "-volume", Arg.int s.mset.volume])

/-- Arguments of `startMplayer`: disc devices, chapter, edition and angle. -/
def argsDisc (t : StartTarget) (s : Core) : List Arg :=
  (if s.mdat.type = MediaType.TYPE_DVD then
    (if t.dvd_folder ≠ "" then [Arg.lit "-dvd-device", Arg.str t.dvd_folder] else [])
    else []) ++
  (if s.mdat.type = MediaType.TYPE_VCD ∨ s.mdat.type = MediaType.TYPE_AUDIO_CD then
    (if s.pref.cdrom_device ≠ "" then [Arg.lit "-cdrom-device", Arg.str s.pref.cdrom_device]
      else [])
    else []) ++
  (if s.mset.current_chapter_id > 0 then
    [Arg.lit "-chapter",
      Arg.int (if s.mdat.type = MediaType.TYPE_DVD then s.mset.current_chapter_id + 1
        else s.mset.current_chapter_id)]
    else []) ++
  (if s.mset.current_edition_id > -1 then [Arg.lit "-edition", Arg.int s.mset.current_edition_id]
    else []) ++
  (if s.mset.current_angle_id > 0 then [Arg.lit "-dvdangle", Arg.int s.mset.current_angle_id]
    else [])

/-- The local variable `cache` of `startMplayer`. -/
def cacheSize (cfg : Config) (t : StartTarget) (s : Core) : Int :=
  match s.mdat.type with
  | .TYPE_FILE => s.pref.cache_for_files
  | .TYPE_DVD =>
    if cfg.DVDNAV_SUPPORT ∧ startsWith t.file "dvdnav:" then 0 else s.pref.cache_for_dvds
  | .TYPE_STREAM => s.pref.cache_for_streams
  | .TYPE_VCD => s.pref.cache_for_vcds
  | .TYPE_AUDIO_CD => s.pref.cache_for_audiocds
  | .TYPE_TV => s.pref.cache_for_tv
  | .TYPE_UNKNOWN => 0

/-- Arguments of `startMplayer`: cache and speed. -/
def argsCacheSpeed (cfg : Config) (t : StartTarget) (s : Core) : List Arg :=
  (if cacheSize cfg t s > 31 then [Arg.lit "-cache", Arg.int (cacheSize cfg t s)]
    else [Arg.lit "-nocache"]) ++
  (if s.mset.speed ≠ 1 then [Arg.lit "-speed", Arg.num s.mset.speed] else [])

/-- Arguments of `startMplayer`: the A-B section or the seek offset. -/
def argsSeek (seek : ℚ) (s : Core) : List Arg :=
  if s.mdat.type ≠ MediaType.TYPE_TV then
    if s.mset.A_marker > -1 ∧ s.mset.B_marker > s.mset.A_marker then
      [Arg.lit "-ss", Arg.int s.mset.A_marker, Arg.lit "-endpos",
        Arg.int (s.mset.B_marker - s.mset.A_marker)]
    else if seek ≥ 5 ∧ ¬ s.mset.loop then [Arg.lit "-ss", Arg.num seek]
    else []
  else []

/-- Arguments of `startMplayer`: OSD level, index, IP version, pts. -/
def argsPlayback (s : Core) : List Arg :=
  [Arg.lit "-osdlevel", Arg.lit "0"] ++
  (if s.pref.use_idx then [Arg.lit "-idx"] else []) ++
  (if s.mdat.type = MediaType.TYPE_STREAM then
    (if s.pref.prefer_ipv4 then [Arg.lit "-prefer-ipv4"] else [Arg.lit "-prefer-ipv6"])
    else []) ++
  (if s.pref.use_correct_pts ≠ OptionState.Detect then
    (if s.pref.use_correct_pts = OptionState.Enabled then [Arg.lit "-correct-pts"]
      else [Arg.lit "-nocorrect-pts"])
    else [])

/-- The value that the `switch` on `mset.current_deinterlacer` adds after
`-vf-add`; a value outside the enumeration adds nothing. -/
def deinterlaceFilter (k : SettingsConstants) (d : Int) : List Arg :=
  if d = k.L5 then [Arg.lit "pp=l5"]
  else if d = k.Yadif then [Arg.lit "yadif"]
  else if d = k.LB then [Arg.lit "pp=lb"]
  else if d = k.Yadif_1 then [Arg.lit "yadif=1"]
  else if d = k.Kerndeint then [Arg.lit "kerndeint=5"]
  else []

/-- The local variable `eq_filter` of `startMplayer`. -/
def softEqualizerFilter (cfg : Config) (p : Preferences) : String :=
  if p.vo = "gl" ∨ p.vo = "gl2" ∨ (cfg.Q_OS_WIN ∧ p.vo = "directx:noaccel") then
    "eq2,hue" ++ ",scale"
  else "eq2,hue"

/-- Arguments of `startMplayer`: the video filter chain.  Outside Windows the
whole section is skipped (`goto end_video_filters`) when the `vdpau` driver is
used with its filters disabled. -/
def argsVideoFilters (cfg : Config) (k : SettingsConstants) (env : Env) (s : Core) :
    List Arg :=
  if ¬ cfg.Q_OS_WIN ∧ s.pref.vdpau_disable_video_filters ∧ startsWith s.pref.vo "vdpau" then []
  else
    (if s.mset.phase_filter then [Arg.lit "-vf-add", Arg.lit "phase=A"] else []) ++
    (if s.mset.current_deinterlacer ≠ k.NoDeinterlace then
      [Arg.lit "-vf-add"] ++ deinterlaceFilter k s.mset.current_deinterlacer else []) ++
    (if s.mset.current_denoiser ≠ k.NoDenoise then
      [Arg.lit "-vf-add",
        Arg.str (if s.mset.current_denoiser = k.DenoiseSoft then s.pref.filters_denoise_soft
          else s.pref.filters_denoise_normal)]
      else []) ++
    (if s.mset.deblock_filter then [Arg.lit "-vf-add", Arg.str s.pref.filters_deblock]
      else []) ++
    (if s.mset.dering_filter then [Arg.lit "-vf-add", Arg.lit "pp=dr"] else []) ++
    (if s.mset.upscaling_filter then
      [Arg.lit "-sws", Arg.lit "9", Arg.lit "-vf-add",
        Arg.str ("scale=" ++ toString env.desktop_width ++ ":-2")]
      else []) ++
    (if s.mset.noise_filter then [Arg.lit "-vf-add", Arg.str s.pref.filters_noise] else []) ++
    (if s.mset.add_letterbox ∨ (s.pref.fullscreen ∧ s.pref.add_blackborders_on_fullscreen) then
      [Arg.lit "-vf-add",
        Arg.str ("expand=:::::" ++ env.formatDouble env.desktop_aspectRatio ++ ",harddup")]
      else []) ++
    (if s.pref.use_soft_video_eq then
      [Arg.lit "-vf-add", Arg.lit (softEqualizerFilter cfg s.pref)] else []) ++
    (if s.mset.mplayer_additional_video_filters ≠ "" then
      [Arg.lit "-vf-add", Arg.str s.mset.mplayer_additional_video_filters] else []) ++
    (if s.pref.mplayer_additional_video_filters ≠ "" then
      [Arg.lit "-vf-add", Arg.str s.pref.mplayer_additional_video_filters] else []) ++
    (if s.pref.subtitles_on_screenshots then [Arg.lit "-vf-add", Arg.lit "ass"] else []) ++
    (if s.mset.rotate ≠ k.NoRotate then
      [Arg.lit "-vf-add", Arg.str ("rotate=" ++ toString s.mset.rotate)] else []) ++
    (if s.mset.flip then [Arg.lit "-vf-add", Arg.lit "harddup,flip"] else []) ++
    (if s.mset.mirror then [Arg.lit "-vf-add", Arg.lit "mirror"] else []) ++
    (if s.pref.subtitles_on_screenshots ∧ screenshotEnabled env s then
      [Arg.lit "-vf-add", Arg.lit "screenshot"] else [])

/-- The local variable `af` of `startMplayer`: the audio filter chain. -/
def audioFilters (k : SettingsConstants) (env : Env) (s : Core) : String :=
  let af := ""
  let af := if s.mset.karaoke_filter then "karaoke" else af
  let af :=
    if s.mset.stereo_mode ≠ 0 then
      (if s.mset.stereo_mode = k.Left then af ++ "channels=2:2:0:1:0:0"
        else af ++ "channels=2:2:1:0:1:1")
    else af
  let af := if s.mset.extrastereo_filter then appendWith "," af "extrastereo" else af
  let af := if s.mset.volnorm_filter then appendWith "," af s.pref.filters_volnorm else af
  let af :=
    if s.pref.use_scaletempo = OptionState.Detect then appendWith "," af "scaletempo" else af
  let af :=
    if s.pref.use_audio_equalizer then
      appendWith "," af ("equalizer=" ++ env.equalizerListToString s.mset.audio_equalizer)
    else af
  let af :=
    if s.pref.mplayer_additional_audio_filters ≠ "" then
      appendWith "," af s.pref.mplayer_additional_audio_filters
    else af
  let af :=
    if s.mset.mplayer_additional_audio_filters ≠ "" then
      appendWith "," af s.mset.mplayer_additional_audio_filters
    else af
  af

/-- Arguments of `startMplayer`: audio channels, audio filters, soft volume. -/
def argsAudio (k : SettingsConstants) (env : Env) (s : Core) : List Arg :=
  (if s.mset.audio_use_channels ≠ 0 then [Arg.lit "-channels", Arg.int s.mset.audio_use_channels]
    else []) ++
  (if audioFilters k env s ≠ "" then
    (if s.pref.use_hwac3 then [] else [Arg.lit "-af", Arg.str (audioFilters k env s)])
    else []) ++
  (if s.pref.use_soft_vol then
    [Arg.lit "-softvol", Arg.lit "-softvol-max", Arg.int s.pref.softvol_max] else [])

/-- The local variable `edl_f` of `startMplayer`. -/
def edlFile (env : Env) (file : String) : String :=
  let basename := env.path file ++ "/" ++ env.completeBaseName file
  if env.fileExists (basename ++ ".edl") then basename ++ ".edl"
  else if env.fileExists (basename ++ ".EDL") then basename ++ ".EDL"
  else ""

/-- Arguments of `startMplayer`: EDL file, the additional options of the user,
the file to play and the loop option. -/
def argsTail (env : Env) (t : StartTarget) (s : Core) : List Arg :=
  (if s.pref.use_edl_files then
    (if edlFile env t.file ≠ "" then [Arg.lit "-edl", Arg.str (edlFile env t.file)] else [])
    else []) ++
  (if s.mset.mplayer_additional_options ≠ "" then
    (env.splitArguments s.mset.mplayer_additional_options).map Arg.str else []) ++
  (if s.pref.mplayer_additional_options ≠ "" then
    (env.splitArguments s.pref.mplayer_additional_options).map Arg.str else []) ++
  (if t.url_is_playlist then [Arg.lit "-playlist"] else []) ++
  [Arg.str t.file] ++
  (if s.mset.loop then [Arg.lit "-loop", Arg.lit "0"] else [])

/-- The argument list that `Core::startMplayer(file, seek)` hands to `proc`,
for a call that passes the two guards at its head: the sections above in the
order of the source, read from the session as `startSession` leaves it. -/
def startArguments (cfg : Config) (k : SettingsConstants) (env : Env) (file : String)
    (seek : ℚ) (s : Core) : List Arg :=
  let s := startSession s
  let t := startTarget env s file
  argsGeneral env s ++ argsCodecs cfg s ++ argsOutput cfg env s ++ argsSubtitleStyle env s ++
    argsTracks cfg k s ++ argsExternalFiles env s ++ argsEqualizerVolume s ++ argsDisc t s ++
    argsCacheSpeed cfg t s ++ argsSeek seek s ++ argsPlayback s ++
    argsVideoFilters cfg k env s ++ argsAudio k env s ++ argsTail env t s

/-- `Core::setAMarker(int)` -/
def setAMarker (sec : Int) (s : Core) : Core :=
  let s := { s with mset.A_marker := sec }
  let s := displayMessage (.a_marker sec) s
  let s :=
    if s.mset.B_marker > s.mset.A_marker then
      (if s.proc.running then restartPlay s else s)
    else s
  s.record (.emit (.ABMarkersChanged s.mset.A_marker s.mset.B_marker))

/-- `Core::setBMarker(int)` -/
def setBMarker (sec : Int) (s : Core) : Core :=
  let s := { s with mset.B_marker := sec }
  let s := displayMessage (.b_marker sec) s
  let s :=
    if s.mset.A_marker > -1 ∧ s.mset.A_marker < s.mset.B_marker then
      (if s.proc.running then restartPlay s else s)
    else s
  s.record (.emit (.ABMarkersChanged s.mset.A_marker s.mset.B_marker))

/-- `Core::clearABMarkers` -/
def clearABMarkers (s : Core) : Core :=
  let s :=
    if s.mset.A_marker ≠ -1 ∨ s.mset.B_marker ≠ -1 then
      let s := { s with mset.A_marker := -1, mset.B_marker := -1 }
      let s := displayMessage .ab_markers_cleared s
      if s.proc.running then restartPlay s else s
    else s
  s.record (.emit (.ABMarkersChanged s.mset.A_marker s.mset.B_marker))

/-- `Core::watchState`, the slot connected to the signal `stateChanged`. -/
def watchState (state : State) (s : Core) : Core :=
  if state = State.Playing ∧ s.change_volume_after_unpause then
    let volume := if s.pref.global_volume then s.pref.volume else s.mset.volume
    let s := tellmp (.volume volume) s
    { s with change_volume_after_unpause := false }
  else s

/-- `Core::setState`; the emitted signal `stateChanged` runs the connected
slot `watchState` at once. -/
def setState (st : State) (s : Core) : Core :=
  if st ≠ s.state then
    let s := { s with state := st }
    let s := s.record (.emit (.stateChanged s.state))
    watchState s.state s
  else s

/-- `Core::changePause` -/
def changePause (s : Core) : Core :=
  setState State.Paused s

/-- `Core::updateChapter` -/
def updateChapter (chapter : Int) (s : Core) : Core :=
  updateWidgets { s with mset.current_chapter_id := chapter }

/-- The loop of `Core::changeCurrentSec` over `mdat.chapters_timestamp`: the
key of the last entry, before the first one that lies after `ms`, replaces
`newChapter`. -/
def chapterAt (ms : Int) : List (Int × Int) → Int → Int
  | [], newChapter => newChapter
  | (key, value) :: rest, newChapter =>
    if ms ≥ value then chapterAt ms rest key else newChapter

/-- The position that `Core::changeCurrentSec` reports, on a scale of
`resolution`. -/
def positionValue (resolution : Int) (s : Core) : Int :=
  if s.mdat.duration > 1 ∧ s.mset.current_sec > 1 ∧ s.mdat.duration > s.mset.current_sec then
    Int.tdiv (truncToInt s.mset.current_sec * resolution) (truncToInt s.mdat.duration)
  else 0

/-- `Core::changeCurrentSec` -/
def changeCurrentSec (cfg : Config) (sec : ℚ) (s : Core) : Core :=
  let s := { s with mset.current_sec := sec }
  let s :=
    if s.mset.starting_time ≠ -1 then
      { s with mset.current_sec := s.mset.current_sec - s.mset.starting_time }
    else s
  let s := if s.state ≠ State.Playing then setState State.Playing s else s
  let s := s.record (.emit (.showTime s.mset.current_sec))
  if (⌊sec⌋ : Int) = s.last_second then s
  else
    let s := { s with last_second := ⌊sec⌋ }
    let newChapter := chapterAt (truncToInt sec * 1000) s.mdat.chapters_timestamp
      s.mset.current_chapter_id
    let s := if newChapter ≠ s.mset.current_chapter_id then updateChapter newChapter s else s
    match cfg.SEEKBAR_RESOLUTION with
    | some resolution => s.record (.emit (.positionChanged (positionValue resolution s)))
    | none => s.record (.emit (.posChanged (positionValue 100 s)))

/-- `Core::processFinished`; `exit_code` is what `proc->exitCode()` answers. -/
def processFinished (exit_code : Int) (s : Core) : Core :=
  let s := if ¬ s.we_are_restarting then setState State.Stopped s else s
  if exit_code ≠ 0 then s.record (.emit (.mplayerFinishedWithError exit_code)) else s

/-- `Core::fileReachedEnd` -/
def fileReachedEnd (s : Core) : Core :=
  let s := { s with mset.current_sec := 0 }
  let s := updateWidgets s
  s.record (.emit .mediaFinished)

/-- `Core::stop` -/
def stop (cfg : Config) (s : Core) : Core :=
  let s :=
    if s.state = State.Stopped then
      let s := { s with mset.current_sec := 0 }
      let s := s.record (.emit (.showTime s.mset.current_sec))
      match cfg.SEEKBAR_RESOLUTION with
      | some _ => s.record (.emit (.positionChanged 0))
      | none => s.record (.emit (.posChanged 0))
    else s
  let s := stopMplayer s
  s.record (.emit .mediaStoppedByUser)

/-- The call that `Core::open` ends in. -/
inductive OpenCall where
  | openDVD (dvd_url : String)
  | openFile (filename : String) (seek : Int)
  | openVCD (title : Int)
  | openAudioCD (title : Int)
  | openTV (channel_id : String)
  | openStream (name : String)
  /-- A directory without a DVD: nothing is opened. -/
  | nothing
  deriving DecidableEq

/-- `Core::open`: the locator is classified and exactly one of the `open*`
members is called (or none); the function answers which one, with its
arguments.  `openVCD()` and `openAudioCD()` without argument pass the default
`-1` of `core.h`. -/
def openCall (cfg : Config) (env : Env) (p : Preferences) (file : String) (seek : Int) :
    OpenCall :=
  let file := if startsWith file "file:" then env.toLocalFile file else file
  if env.fileExists file ∧ env.toLower (env.suffix file) = "iso" then
    (if cfg.DVDNAV_SUPPORT then .openDVD (env.DiscName_joinDVD 0 file p.use_dvdnav)
      else .openDVD (env.DiscName_joinDVD 1 file false))
  else if env.fileExists file ∧ ¬ env.isDir file then
    .openFile (env.absoluteFilePath file) seek
  else if env.fileExists file ∧ env.isDir file then
    let file := env.absoluteFilePath file
    if env.directoryContainsDVD file then
      (if cfg.DVDNAV_SUPPORT then .openDVD (env.DiscName_joinDVD 1 file p.use_dvdnav)
        else .openDVD (env.DiscName_joinDVD 1 file false))
    else .nothing
  else if startsWith (env.toLower file) "dvd:" ∨ startsWith (env.toLower file) "dvdnav:" then
    .openDVD file
  else if startsWith (env.toLower file) "vcd:" then
    match env.capturedTitle "vcd" (env.toLower file) with
    | some title => .openVCD title
    | none => .openVCD (-1)
  else if startsWith (env.toLower file) "cdda:" then
    match env.capturedTitle "cdda" (env.toLower file) with
    | some title => .openAudioCD title
    | none => .openAudioCD (-1)
  else if startsWith (env.toLower file) "dvb:" ∨ startsWith (env.toLower file) "tv:" then
    .openTV file
  else .openStream file

/-- Modelled from the spec: `Tracks::itemAt(n)` and `SubTracks::itemAt(n)` of
`tracks.h` and `subtracks.h` (spec §3: ordered sequences of track
descriptors): the descriptor at position `n`; there is none when `n` is out of
range. -/
def itemAt {α : Type} (items : List α) (n : Int) : Option α :=
  if n < 0 then none else items.get? n.toNat

/-- Modelled from the spec: `Tracks::existsItemAt(n)` of `tracks.h`. -/
def existsItemAt {α : Type} (items : List α) (n : Int) : Bool :=
  decide (0 ≤ n ∧ n < items.length)

/-- Modelled from the spec: `Tracks::findLang(expr)` of `tracks.h` (spec §4.4:
a user language preference matches a track's language tag): the ID of the
first track whose language matches, -1 when there is none. -/
def findLang (env : Env) (tracks : List Track) (expr : String) : Int :=
  match tracks.find? fun t => env.langMatches expr t.lang with
  | some t => t.ID
  | none => -1

/-- Modelled from the spec: `SubTracks::find(type, ID)` of `subtracks.h`
(spec §4.3: the same (type, decoder-internal-id) pair): the position of the
first track with that type and ID, -1 when there is none. -/
def SubTracks.find (subs : List SubData) (type : SubType) (ID : Int) : Int :=
  if subs.findIdx (fun d => decide (d.type = type ∧ d.ID = ID)) < subs.length then
    (subs.findIdx (fun d => decide (d.type = type ∧ d.ID = ID)) : Int)
  else -1

/-- Modelled from the spec: `SubTracks::selectOne(preferred_lang, default_sub,
prefer_external)` of `subtracks.h` (spec §4.4): a language preference that is
set matches a track whose language tag is equal to it; the choice is the
first match among the loaded files when `prefer_external` is set, then the
first match in any source, then the position `default_sub` when it exists,
else off (`SubNone`).  The answer is a position in the list. -/
def SubTracks.selectOne (k : SettingsConstants) (subs : List SubData) (preferred_lang : String)
    (default_sub : Int) (prefer_external : Bool) : Int :=
  let isMatch := fun (d : SubData) => decide (preferred_lang ≠ "" ∧ d.lang = preferred_lang)
  let isFileMatch := fun (d : SubData) => decide (d.type = SubType.File) && isMatch d
  if prefer_external ∧ subs.findIdx isFileMatch < subs.length then
    (subs.findIdx isFileMatch : Int)
  else if subs.findIdx isMatch < subs.length then (subs.findIdx isMatch : Int)
  else if existsItemAt subs default_sub then default_sub
  else k.SubNone

/-- The position `r` is the first position of `items` whose item satisfies
`p`. -/
def isFirstPosition {α : Type} (p : α → Prop) (items : List α) (r : Int) : Prop :=
  (∃ d, itemAt items r = some d ∧ p d) ∧
  ∀ j : Int, j < r → ∀ d, itemAt items j = some d → ¬ p d

/-- The rule of subtitle auto-selection, in the words of the claim and of spec
§4.4: `r` is the choice among the tracks `subs` for the language preference
`lang`, the zero-based initial position `initial` and the flag
`prefer_external`.  With the flag set, a language preference that is matched
by a loaded file selects the first such file; else a language preference that
is matched by a track selects the first such track; with no language match the
initial position is selected when the list has it, and the explicit off value
`SubNone` when it has not. -/
def autoSelected (k : SettingsConstants) (subs : List SubData) (lang : String) (initial : Int)
    (prefer_external : Bool) (r : Int) : Prop :=
  (prefer_external = true → lang ≠ "" →
    (∃ d ∈ subs, d.type = SubType.File ∧ d.lang = lang) →
    isFirstPosition (fun d => d.type = SubType.File ∧ d.lang = lang) subs r) ∧
  ((prefer_external = false ∨ ¬ ∃ d ∈ subs, d.type = SubType.File ∧ d.lang = lang) →
    lang ≠ "" → (∃ d ∈ subs, d.lang = lang) →
    isFirstPosition (fun d => d.lang = lang) subs r) ∧
  ((lang = "" ∨ ¬ ∃ d ∈ subs, d.lang = lang) →
    ((0 ≤ initial ∧ initial < subs.length) → r = initial) ∧
    (¬ (0 ≤ initial ∧ initial < subs.length) → r = k.SubNone))

/-- `Core::saveMediaInfo` -/
def saveMediaInfo (s : Core) : Core :=
  if s.pref.dont_remember_media_settings then s
  else if s.mdat.type = MediaType.TYPE_FILE ∧ s.mdat.filename ≠ "" then
    s.record (.saveFileSettings s.mdat.filename s.mset)
  else if s.mdat.type = MediaType.TYPE_TV ∧ s.mdat.filename ≠ "" then
    s.record (.saveTvSettings s.mdat.filename s.mset)
  else s

/-- `Core::initializeMenus` -/
def initializeMenus (s : Core) : Core :=
  s.record (.emit .menusNeedInitialize)

/-- `Core::changeAspectRatio` -/
def changeAspectRatio (env : Env) (ID : Int) (s : Core) : Core :=
  let s := { s with mset.aspect_ratio_id := ID }
  let asp := env.aspectToNum ID
  let s :=
    if ¬ s.pref.use_mplayer_window then s.record (.setAspect asp)
    else if ¬ s.mdat.novideo then tellmp (.switch_ratio asp) s
    else s
  displayMessage (.aspect_ratio (env.aspectToString s.mset.aspect_ratio_id)) s

/-- `Core::changeSubtitle` -/
def changeSubtitle (k : SettingsConstants) (ID : Int) (s : Core) : Core :=
  let s := { s with mset.current_sub_id := ID }
  let ID := if ID = k.SubNone then -1 else ID
  let ID := if ID = k.NoneSelected then -1 else ID
  let s :=
    if ID = -1 then tellmp (.sub_source (-1)) s
    else
      let valid_item := ID ≥ 0 ∧ ID < s.mdat.subs.length
      let s :=
        if s.mdat.subs.length > 0 ∧ valid_item then
          match itemAt s.mdat.subs ID with
          | some d =>
            match d.type with
            | .Vob => tellmp (.sub_vob d.ID) s
            | .Sub => tellmp (.sub_demux d.ID) s
            | .File => tellmp (.sub_file d.ID) s
            | .None => s
          | none => s
        else s
      changeSubVisibility true s
  updateWidgets s

/-- `Core::changeAudio` -/
def changeAudio (ID : Int) (_allow_restart : Bool) (s : Core) : Core :=
  if ID ≠ s.mset.current_audio_id then
    let s := { s with mset.current_audio_id := ID }
    let s := tellmp (.switch_audio ID) s
    let s :=
      if s.pref.global_volume then
        let s := setVolume s.pref.volume true s
        if s.pref.mute then mute true s else s
      else
        let s := setVolume s.mset.volume true s
        if s.mset.mute then mute true s else s
    updateWidgets s
  else s

/-- `Core::changeVideo` -/
def changeVideo (ID : Int) (allow_restart : Bool) (s : Core) : Core :=
  if ID ≠ s.mset.current_video_id then
    let s := { s with mset.current_video_id := ID }
    let need_restart :=
      if allow_restart then decide (s.mdat.demuxer ≠ "lavf" ∧ s.mdat.demuxer ≠ "mpegts")
      else false
    if need_restart then restartPlay s
    else if s.mdat.demuxer = "nsv" then s
    else tellmp (.switch_video ID) s
  else s

/-- `Core::changeProgram`, compiled when `PROGRAM_SWITCH` is set. -/
def changeProgram (ID : Int) (s : Core) : Core :=
  if ID ≠ s.mset.current_program_id then
    let s := { s with mset.current_program_id := ID }
    let s := tellmp (.switch_program ID) s
    let s := tellmp (.get_property "switch_audio") s
    tellmp (.get_property "switch_video") s
  else s

/-- `Core::openDVD(QString)` -/
def openDVD (cfg : Config) (env : Env) (dvd_url : String) (s : Core) : Core :=
  let disc_data := env.DiscName_split dvd_url
  let folder := disc_data.device
  let title := disc_data.title
  if title = -1 then s
  else if folder ≠ "" ∧ ¬ env.fileExists folder then s
  else
    let s := if s.proc.running then { stopMplayer s with we_are_restarting := false } else s
    let s := if ¬ cfg.NO_USE_INI_FILES then saveMediaInfo s else s
    let s := { s with mdat := { env.mdat_reset with filename := dvd_url, type := .TYPE_DVD } }
    let s := { s with mset := env.mset_reset }
    let s := { s with mset.current_title_id := title }
    let s := { s with mset.current_chapter_id := 0 }
    let s := { s with mset.current_angle_id := 1 }
    initPlaying (-1) s

/-- `Core::openVCD` -/
def openVCD (cfg : Config) (env : Env) (title : Int) (s : Core) : Core :=
  let title := if title = -1 then s.pref.vcd_initial_title else title
  let s := if s.proc.running then stopMplayer s else s
  let s := if ¬ cfg.NO_USE_INI_FILES then saveMediaInfo s else s
  let s := { s with
    mdat := { env.mdat_reset with filename := "vcd://" ++ toString title, type := .TYPE_VCD } }
  let s := { s with mset := env.mset_reset }
  let s := { s with mset.current_title_id := title }
  let s := { s with mset.current_chapter_id := -1 }
  let s := { s with mset.current_edition_id := -1 }
  let s := { s with mset.current_angle_id := -1 }
  initPlaying (-1) s

/-- `Core::openAudioCD` -/
def openAudioCD (cfg : Config) (env : Env) (title : Int) (s : Core) : Core :=
  let title := if title = -1 then 1 else title
  let s := if s.proc.running then stopMplayer s else s
  let s := if ¬ cfg.NO_USE_INI_FILES then saveMediaInfo s else s
  let s := { s with
    mdat := { env.mdat_reset with filename := "cdda://" ++ toString title,
                                  type := .TYPE_AUDIO_CD } }
  let s := { s with mset := env.mset_reset }
  let s := { s with mset.current_title_id := title }
  let s := { s with mset.current_chapter_id := -1 }
  let s := { s with mset.current_angle_id := -1 }
  initPlaying (-1) s

/-- `Core::changeTitle` -/
def changeTitle (cfg : Config) (env : Env) (ID : Int) (s : Core) : Core :=
  if s.mdat.type = MediaType.TYPE_VCD then openVCD cfg env ID s
  else if s.mdat.type = MediaType.TYPE_AUDIO_CD then openAudioCD cfg env ID s
  else if s.mdat.type = MediaType.TYPE_DVD then
    if cfg.DVDNAV_SUPPORT ∧ startsWith s.mdat.filename "dvdnav:" then
      tellmp (.switch_title ID) s
    else
      let disc_data := env.DiscName_split s.mdat.filename
      let disc_data := { disc_data with title := ID }
      openDVD cfg env (env.DiscName_join disc_data) s
  else s

/-- The branch of `Core::playNewFile` that reads the persisted snapshot of the
file into `mset`. -/
def playNewFileLoad (env : Env) (file : String) (s : Core) : Core :=
  let s := { s with mset := env.loadSettingsFor file s.mset }
  let saved_width := s.mset.win_width
  let saved_height := s.mset.win_height
  let reset_size := decide (saved_width = 400 ∧ saved_height = 300)
  let saved_width := if reset_size then 0 else saved_width
  let saved_height := if reset_size then 0 else saved_height
  let s :=
    if saved_width > 0 ∧ saved_height > 0 then
      let s := s.record (.emit (.needResize s.mset.win_width s.mset.win_height false))
      changeAspectRatio env s.mset.aspect_ratio_id s
    else s
  if s.pref.dont_remember_time_pos then { s with mset.current_sec := 0 } else s

/-- `Core::playNewFile` -/
def playNewFile (cfg : Config) (env : Env) (file : String) (seek : Int) (s : Core) : Core :=
  let s := if s.proc.running then { stopMplayer s with we_are_restarting := false } else s
  let s := if ¬ cfg.NO_USE_INI_FILES then saveMediaInfo s else s
  let s := { s with mdat := { env.mdat_reset with filename := file, type := .TYPE_FILE } }
  let old_volume := s.mset.volume
  let s := { s with mset := env.mset_reset }
  let s :=
    if ¬ cfg.NO_USE_INI_FILES then
      if env.existSettingsFor file then
        if ¬ s.pref.dont_remember_media_settings then playNewFileLoad env file s else s
      else { s with mset.volume := old_volume }
    else { s with mset.volume := old_volume }
  initPlaying seek s

/-- The local variable `audio` of `Core::newMediaPlaying` and of
`Core::initAudioTrack`: the ID of the first track, replaced by the ID of the
track at `pref->initial_audio_track - 1` when that position exists, replaced
by the answer of `findLang` when a language preference is set and the answer
is not -1.  There is no value when the list is empty (`itemAt(0)`). -/
def initialAudio (env : Env) (p : Preferences) (audios : List Track) : Option Int :=
  match itemAt audios 0 with
  | none => none
  | some first =>
    let audio := first.ID
    let audio :=
      if existsItemAt audios (p.initial_audio_track - 1) then
        match itemAt audios (p.initial_audio_track - 1) with
        | some t => t.ID
        | none => audio
      else audio
    let audio :=
      if p.audio_lang ≠ "" then
        (if findLang env audios p.audio_lang ≠ -1 then findLang env audios p.audio_lang
          else audio)
      else audio
    some audio

/-- The audio block of `Core::newMediaPlaying`, compiled when
`NOTIFY_AUDIO_CHANGES` is not set. -/
def newMediaPlayingAudio (k : SettingsConstants) (env : Env) (s : Core) : Core :=
  if s.mset.current_audio_id = k.NoneSelected ∧ s.mdat.audios.length > 0 then
    match initialAudio env s.pref s.mdat.audios with
    | some audio => changeAudio audio false s
    | none => s
  else s

/-- The subtitle block of `Core::newMediaPlaying`, compiled when
`NOTIFY_SUB_CHANGES` is not set. -/
def newMediaPlayingSubtitles (k : SettingsConstants) (env : Env) (s : Core) : Core :=
  if s.mset.external_subtitles = "" then
    if s.pref.autoload_sub then
      if s.mset.current_sub_id = k.NoneSelected then
        changeSubtitle k
          (SubTracks.selectOne k s.mdat.subs s.pref.subtitle_lang
            (s.pref.initial_subtitle_track - 1) env.prefer_external_default) s
      else s
    else changeSubtitle k k.SubNone s
  else s

/-- `Core::initAudioTrack`, compiled when `NOTIFY_AUDIO_CHANGES` is set.  There
is no result when the new list is empty and a first track is asked for
(`itemAt(0)` out of range). -/
def initAudioTrack (k : SettingsConstants) (env : Env) (audios : List Track) (s : Core) :
    Option Core :=
  let restore_audio :=
    decide (s.mdat.audios.length > 0 ∨ s.mset.current_audio_id ≠ k.NoneSelected)
  let s := { s with mdat.audios := audios }
  let s := initializeMenus s
  if ¬ restore_audio then
    match initialAudio env s.pref s.mdat.audios with
    | some audio =>
      let s := changeAudio audio true s
      let s := updateWidgets s
      some (s.record (.emit .audioTracksChanged))
    | none => none
  else
    let s := updateWidgets s
    some (s.record (.emit .audioTracksChanged))

/-- The position that `Core::initSubtitleTrack` selects after an external
subtitle file has been loaded: the first track of type `File` with that file
name, else the last track. -/
def loadedSubtitle (subs : List SubData) (external_subtitles : String) : Int :=
  if subs.findIdx (fun d => decide (d.type = SubType.File ∧ d.filename = external_subtitles))
      < subs.length then
    (subs.findIdx (fun d => decide (d.type = SubType.File ∧ d.filename = external_subtitles))
      : Int)
  else (subs.length : Int) - 1

/-- The end of `Core::initSubtitleTrack`, once the two flags of the external
subtitles are dealt with: the initial track is selected or the previous one
restored. -/
def initSubtitleTrackSelect (k : SettingsConstants) (restore_subs : Bool)
    (previous_sub_type : SubType) (previous_sub_id : Int) (s : Core) : Core :=
  if ¬ restore_subs then
    if ¬ s.pref.autoload_sub then changeSubtitle k k.SubNone s
    else
      changeSubtitle k
        (SubTracks.selectOne k s.mdat.subs s.pref.subtitle_lang
          (s.pref.initial_subtitle_track - 1) s.pref.prefer_external) s
  else
    if s.mset.current_sub_id = k.SubNone then changeSubtitle k k.SubNone s
    else if s.mset.current_sub_id ≠ k.NoneSelected then
      let item := s.mset.current_sub_id
      let item :=
        if previous_sub_id ≠ -1 then
          (if SubTracks.find s.mdat.subs previous_sub_type previous_sub_id > -1 then
            SubTracks.find s.mdat.subs previous_sub_type previous_sub_id
           else item)
        else item
      if item > -1 then changeSubtitle k item s else s
    else s

/-- The middle of `Core::initSubtitleTrack`: the new list is stored and the
two flags of the external subtitles are dealt with. -/
def initSubtitleTrackStore (k : SettingsConstants) (env : Env) (subs : List SubData)
    (restore_subs : Bool) (previous_sub_type : SubType) (previous_sub_id : Int) (s : Core) :
    Core :=
  let s := { s with mdat.subs := subs }
  let s := initializeMenus s
  let unloaded := s.just_unloaded_external_subs
  let s := if unloaded then { s with just_unloaded_external_subs := false } else s
  let loaded := s.just_loaded_external_subs
  let s := if loaded then { s with just_loaded_external_subs := false } else s
  let restore_subs := if unloaded ∨ loaded then false else restore_subs
  let s :=
    if loaded ∧ env.toLower (env.suffix s.mset.external_subtitles) ≠ "idx" ∧
        s.mdat.subs.length > 0 then
      changeSubtitle k (loadedSubtitle s.mdat.subs s.mset.external_subtitles) s
    else initSubtitleTrackSelect k restore_subs previous_sub_type previous_sub_id s
  updateWidgets s

/-- `Core::initSubtitleTrack`, compiled when `NOTIFY_SUB_CHANGES` is set.
There is no result when the selected position is out of the range of the old
list (`itemAt(mset.current_sub_id)`). -/
def initSubtitleTrack (k : SettingsConstants) (env : Env) (subs : List SubData) (s : Core) :
    Option Core :=
  let restore_subs :=
    decide (s.mdat.subs.length > 0 ∨ s.mset.current_sub_id ≠ k.NoneSelected)
  if s.mdat.subs.length > 0 ∧ s.mset.current_sub_id ≠ k.SubNone ∧
      s.mset.current_sub_id ≠ k.NoneSelected then
    match itemAt s.mdat.subs s.mset.current_sub_id with
    | some d => some (initSubtitleTrackStore k env subs restore_subs d.type d.ID s)
    | none => none
  else some (initSubtitleTrackStore k env subs restore_subs SubType.Sub (-1) s)

/-- `Core::goToSec` -/
def goToSec (sec : ℚ) (s : Core) : Core :=
  let sec := if sec < 0 then 0 else sec
  let sec := if sec > s.mdat.duration then s.mdat.duration - 20 else sec
  tellmp (.seek sec 2) s

/-- The channel that `Core::openTV` opens: the last channel when the name is
just `dvb://` or `tv://` and a last channel is remembered. -/
def openTVChannel (p : Preferences) (channel_id : String) : String :=
  if channel_id = "dvb://" ∧ p.last_dvb_channel ≠ "" then p.last_dvb_channel
  else if channel_id = "tv://" ∧ p.last_tv_channel ≠ "" then p.last_tv_channel
  else channel_id

/-- The part of `Core::openTV` that saves the last channel. -/
def openTVRemember (channel_id : String) (s : Core) : Core :=
  if startsWith channel_id "dvb://" then { s with pref.last_dvb_channel := channel_id }
  else if startsWith channel_id "tv://" then { s with pref.last_tv_channel := channel_id }
  else s

/-- The part of `Core::openTV` that resets descriptor and settings, sets the
deinterlacer for TV and reads a persisted snapshot of the channel. -/
def openTVSettings (cfg : Config) (env : Env) (channel_id : String) (s : Core) : Core :=
  let s := { s with mdat := { env.mdat_reset with filename := channel_id, type := .TYPE_TV } }
  let s := { s with mset := env.mset_reset }
  let s := { s with mset.current_deinterlacer := s.pref.initial_tv_deinterlace }
  if ¬ cfg.NO_USE_INI_FILES ∧ ¬ s.pref.dont_remember_media_settings ∧
      env.tv_existSettingsFor channel_id then
    { s with mset := env.tv_loadSettingsFor channel_id s.mset }
  else s

/-- `Core::openTV` -/
def openTV (cfg : Config) (env : Env) (channel_id : String) (s : Core) : Core :=
  let s := if s.proc.running then { stopMplayer s with we_are_restarting := false } else s
  let s := if ¬ cfg.NO_USE_INI_FILES then saveMediaInfo s else s
  let channel_id := openTVChannel s.pref channel_id
  let s := openTVRemember channel_id s
  let s := openTVSettings cfg env channel_id s
  initPlaying (-1) s

/-- `Core::openStream` -/
def openStream (cfg : Config) (env : Env) (name : String) (s : Core) : Core :=
  let s := if s.proc.running then { stopMplayer s with we_are_restarting := false } else s
  let s := if ¬ cfg.NO_USE_INI_FILES then saveMediaInfo s else s
  let s := { s with mdat := { env.mdat_reset with filename := name, type := .TYPE_STREAM } }
  let s := { s with mset := env.mset_reset }
  initPlaying (-1) s

/-- The values that follow the option `name` in a list of arguments: each
occurrence of `name` takes the next argument as its value. -/
def optionValues {α : Type} [DecidableEq α] (name : α) : List α → List α
  | [] => []
  | [_] => []
  | a :: v :: rest =>
    if a = name then v :: optionValues name rest else optionValues name (v :: rest)

/-- The video filters are ignored: outside Windows, with the `vdpau` driver and
its filters disabled. -/
def filtersIgnored (cfg : Config) (s : Core) : Bool :=
  decide (¬ cfg.Q_OS_WIN ∧ s.pref.vdpau_disable_video_filters ∧ startsWith s.pref.vo "vdpau")

/-- The value of the deinterlacer in the list of video filters. -/
def deinterlaceValue (k : SettingsConstants) (d : Int) : Arg :=
  (deinterlaceFilter k d).headD (Arg.lit "")

/-- The fixed list of video filters, in the words of the claim: phase,
deinterlacer, denoiser, deblock, dering, scale, noise, expand, software
equalizer, user filters of the file, global user filters, ass, rotate, flip,
mirror, screenshot; each with the condition that selects it and its value. -/
def videoFilterSlots (cfg : Config) (k : SettingsConstants) (env : Env) (s : Core) :
    List (Bool × Arg) :=
  [(s.mset.phase_filter, Arg.lit "phase=A"),
    (decide (s.mset.current_deinterlacer ≠ k.NoDeinterlace),
      deinterlaceValue k s.mset.current_deinterlacer),
    (decide (s.mset.current_denoiser ≠ k.NoDenoise),
      Arg.str (if s.mset.current_denoiser = k.DenoiseSoft then s.pref.filters_denoise_soft
        else s.pref.filters_denoise_normal)),
    (s.mset.deblock_filter, Arg.str s.pref.filters_deblock),
    (s.mset.dering_filter, Arg.lit "pp=dr"),
    (s.mset.upscaling_filter, Arg.str ("scale=" ++ toString env.desktop_width ++ ":-2")),
    (s.mset.noise_filter, Arg.str s.pref.filters_noise),
    (s.mset.add_letterbox || (s.pref.fullscreen && s.pref.add_blackborders_on_fullscreen),
      Arg.str ("expand=:::::" ++ env.formatDouble env.desktop_aspectRatio ++ ",harddup")),
    (s.pref.use_soft_video_eq, Arg.lit (softEqualizerFilter cfg s.pref)),
    (decide (s.mset.mplayer_additional_video_filters ≠ ""),
      Arg.str s.mset.mplayer_additional_video_filters),
    (decide (s.pref.mplayer_additional_video_filters ≠ ""),
      Arg.str s.pref.mplayer_additional_video_filters),
    (s.pref.subtitles_on_screenshots, Arg.lit "ass"),
    (decide (s.mset.rotate ≠ k.NoRotate), Arg.str ("rotate=" ++ toString s.mset.rotate)),
    (s.mset.flip, Arg.lit "harddup,flip"),
    (s.mset.mirror, Arg.lit "mirror"),
    (s.pref.subtitles_on_screenshots && screenshotEnabled env s, Arg.lit "screenshot")]

/-- The video filters that are selected: those of the fixed list whose
condition holds, in the order of the list; none when the filters are
ignored. -/
def selectedVideoFilters (cfg : Config) (k : SettingsConstants) (env : Env) (s : Core) :
    List Arg :=
  if filtersIgnored cfg s then []
  else ((videoFilterSlots cfg k env s).filter fun slot => slot.1).map fun slot => slot.2

/-- The option names of the filter and chapter sections of `startMplayer`. -/
def filterKeys : List String :=
  ["-vf-add", "-chapter"]

/-- The words of a line of options, separated by blanks; `acc` holds the
characters of the word under way, last one first. -/
def splitAtBlanks : List Char → List Char → List String
  | [], acc => if acc = [] then [] else [String.mk acc.reverse]
  | c :: cs, acc =>
    if c = ' ' then
      (if acc = [] then splitAtBlanks cs [] else String.mk acc.reverse :: splitAtBlanks cs [])
    else splitAtBlanks cs (c :: acc)

/-- Sample build switches: a Linux build with disc navigation and a seek bar
of 1000 steps. -/
def sampleConfig : Config :=
  { Q_OS_WIN := false, Q_WS_X11 := true, USE_ADAPTER := false, USE_COLORKEY := true,
    PROGRAM_SWITCH := false, DVDNAV_SUPPORT := true, SEEKBAR_RESOLUTION := some 1000,
    NOTIFY_AUDIO_CHANGES := false, NOTIFY_SUB_CHANGES := false, NO_USE_INI_FILES := false }

/-- Sample values for the enumeration constants of `mediasettings.h`. -/
def sampleSettingsConstants : SettingsConstants :=
  { NoneSelected := -1000, SubNone := 90000, NoDeinterlace := 0, L5 := 1, Yadif := 2,
    LB := 3, Yadif_1 := 4, Kerndeint := 5, NoDenoise := 0, DenoiseSoft := 2, NoRotate := -1,
    Left := 1 }

/-- Sample values for the record that `mset.reset()` leaves: nothing is
selected yet, the volume is 40. -/
def defaultSettings : MediaSettings :=
  { sampleSettings with
    current_sec := 0, current_sub_id := -1000, current_title_id := -1,
    current_chapter_id := -1, current_angle_id := -1, current_video_id := -1000,
    current_audio_id := -1000, current_program_id := -1000, volume := 40,
    aspect_ratio_id := 1, starting_time := -1 }

/-- Sample values for the record that `mdat.reset()` leaves: nothing is known
about the media. -/
def defaultData : MediaData :=
  { filename := "", type := .TYPE_UNKNOWN, demuxer := "", duration := 0, audios := [],
    chapters_timestamp := [], videos := [], subs := [], chapters := 0, titles := [],
    initialized := false, novideo := false, video_codec := "", audio_codec := "" }

/-- A sample environment: the files `/tmp/movie.mkv` and `/tmp/movie.iso`
exist, nothing is a directory, the locator `dvd://` has no valid title and
every other disc locator names title 1, a snapshot is stored for
`/tmp/known.mkv` only, a local file URL loses its seven leading
characters, the suffix is what follows the last dot, and the other string
helpers are simple stand-ins. -/
def sampleEnv : Env :=
  { DiscName_split := fun url =>
      { protocol := "dvd", title := if url = "dvd://" then -1 else 1, device := "" },
    DiscName_joinDVD := fun title file nav =>
      (if nav then "dvdnav://" else "dvd://") ++ toString title ++ ":" ++ file,
    toLocalFile := fun f => String.mk (f.data.drop 7),
    urlPath := fun f => f,
    matchesPlaylistPattern := fun f => endsWith f ".m3u",
    capturedTitle := fun _ _ => none,
    fileExists := fun f => f == "/tmp/movie.mkv" || f == "/tmp/movie.iso",
    isDir := fun _ => false,
    isExecutable := fun _ => false,
    absoluteFilePath := fun f => f,
    suffix := fun f =>
      String.mk (f.data.reverse.takeWhile fun c => decide (c ≠ Char.ofNat 46)).reverse,
    path := fun _ => "/tmp",
    completeBaseName := fun _ => "movie",
    toLower := fun f => String.mk (f.data.map Char.toLower),
    directoryContainsDVD := fun _ => false,
    winId := 4242,
    colorToRGB := fun _ => "0x020200",
    subtitleStyleFile := "/tmp/styles.ass",
    exportStylesWorks := true,
    desktop_width := 1920,
    desktop_aspectRatio := 16 / 9,
    formatDouble := fun _ => "1.77778",
    equalizerListToString := fun _ => "0:0:0:0:0:0:0:0:0:0",
    splitArguments := fun o => splitAtBlanks o.data [],
    langMatches := fun expr lang => decide (expr = lang),
    mset_reset := defaultSettings,
    mdat_reset := defaultData,
    existSettingsFor := fun f => decide (f = "/tmp/known.mkv"),
    loadSettingsFor := fun _ ms => { ms with current_sec := 95, volume := 70 },
    tv_existSettingsFor := fun _ => false,
    tv_loadSettingsFor := fun _ ms => ms,
    aspectToNum := fun _ => 16 / 9,
    aspectToString := fun _ => "16:9",
    DiscName_join := fun d => d.protocol ++ "://" ++ toString d.title ++ ":" ++ d.device,
    prefer_external_default := false,
    default_sub_default := 0 }

/-- The sample session with the A marker at 30 seconds. -/
def markedCore : Core :=
  { sampleCore with mset.A_marker := 30 }

/-- The sample session with the A marker at 30 seconds and a free-form
option line of the user that names `-endpos`. -/
def optionsCore : Core :=
  { markedCore with pref.mplayer_additional_options := "-endpos 5" }

/-- The sample session without a process: the media is loaded, the state is
`Stopped`. -/
def idleCore : Core :=
  { sampleCore with state := State.Stopped, proc.running := false }

/-- The sample session with the A marker at 30 seconds and without a
process. -/
def idleMarkedCore : Core :=
  { markedCore with state := State.Stopped, proc.running := false }

/-- The sample session in the middle of a restart: `toggleFlip(true)` has
stopped the process and started it again, the restarting flag is set. -/
def restartingCore : Core :=
  toggleFlip true sampleCore

/-- The effects of `stop()` that precede its final notification. -/
def stopEvents (cfg : Config) (s : Core) : List Event :=
  (if s.state = State.Stopped then
    [Event.emit (.showTime 0),
      (match cfg.SEEKBAR_RESOLUTION with
        | some _ => Event.emit (.positionChanged 0)
        | none => Event.emit (.posChanged 0))]
   else []) ++
  (if s.proc.running then
    [Event.writeToStdin .quit, Event.waitForFinished] ++
      (if s.proc.finishesOnQuit then [] else [Event.kill])
   else [])

/-- The effects of `setState(st)` on a session that is in another state: the
signal, and the volume command of `watchState` when one is pending. -/
def setStateEvents (st : State) (s : Core) : List Event :=
  Event.emit (.stateChanged st) ::
    (if st = State.Playing ∧ s.change_volume_after_unpause = true then
      (if s.proc.running then [Event.writeToStdin (.volume (effectiveVolume s))] else [])
     else [])

/-- The first half of `Core::changeCurrentSec`: the position is stored and the
state is set to `Playing`. -/
def changeCurrentSecState (sec : ℚ) (s : Core) : Core :=
  let s := { s with mset.current_sec := sec }
  let s :=
    if s.mset.starting_time ≠ -1 then
      { s with mset.current_sec := s.mset.current_sec - s.mset.starting_time }
    else s
  if s.state ≠ State.Playing then setState State.Playing s else s

/-- The second half of `Core::changeCurrentSec`: the time is shown and, once
per second, the chapter and the position are reported. -/
def changeCurrentSecReport (cfg : Config) (sec : ℚ) (s : Core) : Core :=
  let s := s.record (.emit (.showTime s.mset.current_sec))
  if (⌊sec⌋ : Int) = s.last_second then s
  else
    let s := { s with last_second := ⌊sec⌋ }
    let newChapter := chapterAt (truncToInt sec * 1000) s.mdat.chapters_timestamp
      s.mset.current_chapter_id
    let s := if newChapter ≠ s.mset.current_chapter_id then updateChapter newChapter s else s
    match cfg.SEEKBAR_RESOLUTION with
    | some resolution => s.record (.emit (.positionChanged (positionValue resolution s)))
    | none => s.record (.emit (.posChanged (positionValue 100 s)))

/-- The effects of `processFinished` while no restart is under way: the state
change, when the session was not stopped yet, and the error signal, when the
exit code is not zero. -/
def processFinishedEvents (exit_code : Int) (s : Core) : List Event :=
  (if s.state = State.Stopped then [] else [Event.emit (.stateChanged State.Stopped)]) ++
  (if exit_code = 0 then [] else [Event.emit (.mplayerFinishedWithError exit_code)])

/-- `Core::openFile` -/
def openFile (cfg : Config) (env : Env) (filename : String) (seek : Int) (s : Core) : Core :=
  if env.fileExists filename then playNewFile cfg env (env.absoluteFilePath filename) seek s
  else s

/-- The sample environment, except that every disc locator is split into the
title -2. -/
def negativeTitleEnv : Env :=
  { sampleEnv with
    DiscName_split := fun _ => { protocol := "dvd", title := -2, device := "" } }

/-- The effects of `saveMediaInfo` in session `s`. -/
def saveMediaInfoEvents (s : Core) : List Event :=
  if s.pref.dont_remember_media_settings then []
  else if s.mdat.type = MediaType.TYPE_FILE ∧ s.mdat.filename ≠ "" then
    [Event.saveFileSettings s.mdat.filename s.mset]
  else if s.mdat.type = MediaType.TYPE_TV ∧ s.mdat.filename ≠ "" then
    [Event.saveTvSettings s.mdat.filename s.mset]
  else []

/-- The session of `Core::playNewFile` just before `initPlaying`, when no
snapshot is read: the previous process is stopped, the previous settings are
saved, descriptor and settings are reset, and the volume is recovered when
`keep_volume` is set. -/
def playNewFileReset (cfg : Config) (env : Env) (file : String) (keep_volume : Bool)
    (s : Core) : Core :=
  { s with
    mdat := { env.mdat_reset with filename := file, type := .TYPE_FILE }
    mset := if keep_volume then { env.mset_reset with volume := s.mset.volume }
      else env.mset_reset
    we_are_restarting := if s.proc.running then false else s.we_are_restarting
    proc := { s.proc with running := false }
    log := s.log ++
      (if s.proc.running then
        [Event.writeToStdin .quit, Event.waitForFinished] ++
          (if s.proc.finishesOnQuit then [] else [Event.kill])
       else []) ++
      (if cfg.NO_USE_INI_FILES then [] else saveMediaInfoEvents s) }

/-- The audio track that the claim describes: the first track that matches the
language preference when one is set, else the track at position
`initial_audio_track - 1`, else the first track. -/
def preferredAudio (env : Env) (p : Preferences) (audios : List Track) : Option Int :=
  match (if p.audio_lang ≠ "" then audios.find? fun t => env.langMatches p.audio_lang t.lang
         else none) with
  | some t => some t.ID
  | none =>
    match itemAt audios (p.initial_audio_track - 1) with
    | some t => some t.ID
    | none => audios.head?.map Track.ID

/-- The sample session at its first load: no subtitle is selected yet; the
preferences name the subtitle language `lang` and the initial subtitle track
`initial`. -/
def firstLoadCore (lang : String) (initial : Int) : Core :=
  { sampleCore with
    mset.current_sub_id := sampleSettingsConstants.NoneSelected
    pref.subtitle_lang := lang
    pref.initial_subtitle_track := initial }

/-- The sample session with hidden subtitles. -/
def hiddenSubsCore : Core :=
  { sampleCore with pref.sub_visibility := false }

/-- The sample session at its first load: no audio track is selected yet and
French is the preferred audio language. -/
def firstAudioCore : Core :=
  { sampleCore with
    mset.current_audio_id := sampleSettingsConstants.NoneSelected
    pref.audio_lang := "fr" }

/-- The option names of the track, cache and seek sections of
`startMplayer`. -/
def sectionKeys : List String :=
  ["-ss", "-cache", "-nocache", "-vid", "-aid", "-tsprog"]

/-- The sample session in loop mode. -/
def loopCore : Core :=
  { sampleCore with mset.loop := true }

/-- The sample session with a single audio track and a free-form option line
of the user that names `-aid`. -/
def singleAudioCore : Core :=
  { sampleCore with
    mdat.audios := [{ ID := 1, lang := "en" }]
    mset.current_audio_id := 1
    pref.mplayer_additional_options := "-aid 1" }

/-- The sample session with a free-form option line of the user that names
`-nocache`. -/
def noCacheOptionCore : Core :=
  { sampleCore with pref.mplayer_additional_options := "-nocache" }

/-- The sample session with the A marker at 30 and the B marker at 40
seconds. -/
def abCore : Core :=
  { sampleCore with mset.A_marker := 30, mset.B_marker := 40 }

/-- The sample session with a cache of 0 for files. -/
def zeroCacheCore : Core :=
  { sampleCore with pref.cache_for_files := 0 }

/-- The sample session with the mirror filter and a free-form option line of
the user that adds the phase filter. -/
def userFilterCore : Core :=
  { sampleCore with mset.mirror := true, pref.mplayer_additional_options := "-vf-add phase=A" }

/-- The sample session with the flip filter and the `vdpau` driver, whose
video filters are disabled in the sample preferences. -/
def vdpauCore : Core :=
  { sampleCore with mset.flip := true, pref.vo := "vdpau" }

/-- The sample session with the phase, Yadif, dering and mirror filters. -/
def filteredCore : Core :=
  { sampleCore with
    mset.phase_filter := true, mset.current_deinterlacer := 2, mset.dering_filter := true,
    mset.mirror := true }

/-- Session `b` keeps, of session `a`, the descriptor, the selected video and
audio track and the three flags of a restart, and its log of effects extends
the log of `a`. -/
def keepsTracks (a b : Core) : Prop :=
  b.mdat = a.mdat ∧ b.mset.current_video_id = a.mset.current_video_id ∧
  b.mset.current_audio_id = a.mset.current_audio_id ∧
  b.we_are_restarting = a.we_are_restarting ∧
  b.just_loaded_external_subs = a.just_loaded_external_subs ∧
  b.just_unloaded_external_subs = a.just_unloaded_external_subs ∧
  ∃ evs, b.log = a.log ++ evs

/-- Session `b` has the three flags of a restart as session `a` has them. -/
def keepsFlags (a b : Core) : Prop :=
  b.we_are_restarting = a.we_are_restarting ∧
  b.just_loaded_external_subs = a.just_loaded_external_subs ∧
  b.just_unloaded_external_subs = a.just_unloaded_external_subs

/-- The sample session with the karaoke filter and the left stereo mode. -/
def karaokeLeftCore : Core :=
  { sampleCore with mset.karaoke_filter := true, mset.stereo_mode := 1 }

/-- The sample session in global volume mode, after `mute(true)`. -/
def globalMutedCore : Core :=
  mute true { sampleCore with pref.global_volume := true }

/-- The sample session in global volume mode, muted there. -/
def globalMuteCore : Core :=
  { sampleCore with pref.global_volume := true, pref.mute := true }

/-- The sample session playing title 1 of a DVD through a cache, at
chapter 3. -/
def dvdCore : Core :=
  { sampleCore with
    mdat.type := MediaType.TYPE_DVD, mdat.filename := "dvd://1", pref.cache_for_dvds := 1000 }

/-- The sample session with a medium of ten seconds. -/
def shortCore : Core :=
  { sampleCore with mdat.duration := 10 }

/-- The sample session in the middle of a restart whose process has exited. -/
def exitedRestartCore : Core :=
  { restartingCore with proc.running := false }

/-- Calls of the mutators that restart without asking whether a process is
running, each with a value that is new in the sample session. -/
def unguardedRestartCalls : List (Core → Core) :=
  [toggleDeblock true, toggleDering true, toggleNoise true, toggleAutophase true,
    changeDenoise 1, changeDeinterlace 2, changeUpscale true, changeLetterbox true,
    changeRotate 1, setAudioChannels 6, setStereoMode 1]

/-- Calls of the mutators that restart only when a process is running, each
with a value that is new in the sample session. -/
def guardedRestartCalls : List (Core → Core) :=
  [toggleFlip true, toggleMirror true, changeClosedCaptionChannel 1]

/-- The number of `stateChanged` signals in a list of effects. -/
def stateChangedCount (evs : List Event) : Nat :=
  evs.countP fun e =>
    match e with
    | .emit (.stateChanged _) => true
    | _ => false

/-! ## Theorems -/

theorem tellmp_eq (c : Command) (s : Core) :
    tellmp c s =
      { s with log := s.log ++ (if s.proc.running then [Event.writeToStdin c] else []) } := by
  unfold tellmp Core.record
  split <;> simp

theorem displayTextOnOSD_eq (text : Message) (d l : Int) (pfx : String) (s : Core) :
    displayTextOnOSD text d l pfx s =
      { s with log := s.log ++ (if s.proc.running then [Event.write pfx text d l] else []) } := by
  unfold displayTextOnOSD Core.record
  split <;> simp

theorem displayMessage_eq (text : Message) (s : Core) :
    displayMessage text s = { s with log := s.log ++ displayMessageEvents text s } := by
  unfold displayMessage displayMessageEvents
  simp only [displayTextOnOSD_eq, Core.record]
  split <;> simp

theorem updateWidgets_eq (s : Core) :
    updateWidgets s = { s with log := s.log ++ [Event.emit .widgetsNeedUpdate] } := rfl

theorem Core.mdat_ite (c : Prop) [Decidable c] (a b : Core) :
    (if c then a else b).mdat = if c then a.mdat else b.mdat := by
  split <;> rfl

theorem Core.mset_ite (c : Prop) [Decidable c] (a b : Core) :
    (if c then a else b).mset = if c then a.mset else b.mset := by
  split <;> rfl

theorem Core.pref_ite (c : Prop) [Decidable c] (a b : Core) :
    (if c then a else b).pref = if c then a.pref else b.pref := by
  split <;> rfl

theorem Core.state_ite (c : Prop) [Decidable c] (a b : Core) :
    (if c then a else b).state = if c then a.state else b.state := by
  split <;> rfl

theorem Core.we_are_restarting_ite (c : Prop) [Decidable c] (a b : Core) :
    (if c then a else b).we_are_restarting = if c then a.we_are_restarting else b.we_are_restarting := by
  split <;> rfl

theorem Core.just_loaded_external_subs_ite (c : Prop) [Decidable c] (a b : Core) :
    (if c then a else b).just_loaded_external_subs = if c then a.just_loaded_external_subs else b.just_loaded_external_subs := by
  split <;> rfl

theorem Core.just_unloaded_external_subs_ite (c : Prop) [Decidable c] (a b : Core) :
    (if c then a else b).just_unloaded_external_subs = if c then a.just_unloaded_external_subs else b.just_unloaded_external_subs := by
  split <;> rfl

theorem Core.change_volume_after_unpause_ite (c : Prop) [Decidable c] (a b : Core) :
    (if c then a else b).change_volume_after_unpause = if c then a.change_volume_after_unpause else b.change_volume_after_unpause := by
  split <;> rfl

theorem Core.initial_subtitle_ite (c : Prop) [Decidable c] (a b : Core) :
    (if c then a else b).initial_subtitle = if c then a.initial_subtitle else b.initial_subtitle := by
  split <;> rfl

theorem Core.proc_ite (c : Prop) [Decidable c] (a b : Core) :
    (if c then a else b).proc = if c then a.proc else b.proc := by
  split <;> rfl

theorem Core.log_ite (c : Prop) [Decidable c] (a b : Core) :
    (if c then a else b).log = if c then a.log else b.log := by
  split <;> rfl

theorem setVolume_log (v : Int) (force : Bool) (s : Core) :
    ∃ evs, (setVolume v force s).log = s.log ++ evs ∧
      ∀ n, Event.writeToStdin (.volume n) ∈ evs → 0 ≤ n ∧ n ≤ 100 := by
  by_cases h : v = (if s.pref.global_volume then s.pref.volume else s.mset.volume) ∧ force = false
  · exact ⟨[], by simp [setVolume, h]⟩
  · simp only [setVolume, h, if_false]
    simp [tellmp_eq, displayMessage_eq, updateWidgets_eq, Core.record, displayMessageEvents,
      Core.mdat_ite, Core.mset_ite, Core.pref_ite, Core.state_ite, Core.proc_ite, Core.log_ite]
    split_ifs <;> simp [List.append_assoc] <;> omega

theorem clamp_speed_eq (x : ℚ) :
    (if (if x < 1/10 then 1/10 else x) > 100 then 100 else (if x < 1/10 then 1/10 else x)) =
      min (max x (1/10)) 100 := by
  by_cases h1 : x < 1/10
  · have h2 : ¬ ((1:ℚ)/10 > 100) := by norm_num
    rw [if_pos h1, if_neg h2, max_eq_right (le_of_lt h1), min_eq_left (by norm_num)]
  · rw [if_neg h1, max_eq_left (not_lt.mp h1)]
    by_cases h2 : x > 100
    · rw [if_pos h2, min_eq_right (le_of_lt h2)]
    · rw [if_neg h2, min_eq_left (not_lt.mp h2)]

theorem setSpeed_speed (x : ℚ) (s : Core) :
    (setSpeed x s).mset.speed = min (max x (1/10)) 100 := by
  simp only [setSpeed, tellmp_eq, displayMessage_eq]
  exact clamp_speed_eq x

/-- C1, refuted as stated: in a session whose per-media volume is 150, the call
`setVolume(150, false)` is suppressed as a no-op, so the effective volume stays
at 150, outside [0,100]. -/
theorem setVolume_suppressed_out_of_range :
    effectiveVolume (setVolume 150 false loudCore) = 150 ∧
      ¬ (0 ≤ effectiveVolume (setVolume 150 false loudCore) ∧
          effectiveVolume (setVolume 150 false loudCore) ≤ 100) := by
  decide

theorem setVolume_clamped_aux (v : Int) (force : Bool) (s : Core)
    (h : force = true ∨ v ≠ effectiveVolume s ∨
      (0 ≤ effectiveVolume s ∧ effectiveVolume s ≤ 100)) :
    0 ≤ effectiveVolume (setVolume v force s) ∧
      effectiveVolume (setVolume v force s) ≤ 100 := by
  by_cases hs : v = (if s.pref.global_volume then s.pref.volume else s.mset.volume) ∧ force = false
  · have hv : v = effectiveVolume s := hs.1
    have hr : 0 ≤ effectiveVolume s ∧ effectiveVolume s ≤ 100 := by
      rcases h with h | h | h
      · simp [hs.2] at h
      · exact absurd hv h
      · exact h
    have : setVolume v force s = s := by simp [setVolume, hs]
    rw [this]; exact hr
  · simp only [setVolume, hs, if_false, effectiveVolume]
    simp [tellmp_eq, displayMessage_eq, updateWidgets_eq, Core.record,
      Core.mset_ite, Core.pref_ite]
    split_ifs <;> simp <;> omega

/-- C1, amended: unless `setVolume(v, force)` is suppressed as a no-op on a
session whose effective volume is already out of range (that is: whenever
`force` is set, or `v` differs from the current effective volume, or the
current effective volume lies in [0,100]), the effective volume afterwards lies
in [0,100]; and in every case each `volume N 1` command the call issues
carries `N` in [0,100]. -/
theorem setVolume_clamped (v : Int) (force : Bool) (s : Core) :
    ((force = true ∨ v ≠ effectiveVolume s ∨
        (0 ≤ effectiveVolume s ∧ effectiveVolume s ≤ 100)) →
      0 ≤ effectiveVolume (setVolume v force s) ∧
        effectiveVolume (setVolume v force s) ≤ 100) ∧
    ∃ evs, (setVolume v force s).log = s.log ++ evs ∧
      ∀ n, Event.writeToStdin (.volume n) ∈ evs → 0 ≤ n ∧ n ≤ 100 :=
  ⟨setVolume_clamped_aux v force s, setVolume_log v force s⟩

/-- C1, amended, at a concrete input: a forced `setVolume(250)` on the session
whose volume is 150 leaves a volume in [0,100]. -/
theorem setVolume_clamped_witness :
    (0 ≤ effectiveVolume (setVolume 250 true loudCore) ∧
        effectiveVolume (setVolume 250 true loudCore) ≤ 100) ∧
    ∃ evs, (setVolume 250 true loudCore).log = loudCore.log ++ evs ∧
      ∀ n, Event.writeToStdin (.volume n) ∈ evs → 0 ≤ n ∧ n ≤ 100 :=
  ⟨(setVolume_clamped 250 true loudCore).1 (Or.inl rfl),
    (setVolume_clamped 250 true loudCore).2⟩

/-- The steps `incVolume()` and `decVolume()` always ask for a volume that
differs from the current one, so they are never suppressed: the effective
volume lies in [0,100] after either of them, from every session. -/
theorem incVolume_decVolume_clamped (s : Core) :
    (0 ≤ effectiveVolume (incVolume s) ∧ effectiveVolume (incVolume s) ≤ 100) ∧
    (0 ≤ effectiveVolume (decVolume s) ∧ effectiveVolume (decVolume s) ≤ 100) := by
  constructor
  · have h : (if s.pref.global_volume then s.pref.volume + 4 else s.mset.volume + 4)
        ≠ effectiveVolume s := by
      unfold effectiveVolume; split_ifs <;> omega
    exact (setVolume_clamped_aux _ false s (Or.inr (Or.inl h)))
  · have h : (if s.pref.global_volume then s.pref.volume - 4 else s.mset.volume - 4)
        ≠ effectiveVolume s := by
      unfold effectiveVolume; split_ifs <;> omega
    exact (setVolume_clamped_aux _ false s (Or.inr (Or.inl h)))

/-- C2: `mute` is idempotent on the session-visible state (everything but the
log of issued commands and signals): `mute(b)` twice leaves the same visible
state as `mute(b)` once; and `mute(true)` on a session that is already muted
keeps the effective mute flag true and changes nothing else in the visible
state. -/
theorem mute_idempotent (b : Bool) (s : Core) :
    (mute b (mute b s)).visible = (mute b s).visible ∧
    (effectiveMute s = true →
      effectiveMute (mute true s) = true ∧ (mute true s).visible = s.visible) := by
  constructor
  · obtain ⟨mdat, mset, pref, st, r, jl, ju, cv, isub, ls, proc, log⟩ := s
    by_cases hg : pref.global_volume = true <;>
      simp [mute, tellmp_eq, updateWidgets_eq, Core.visible, hg]
  · intro hm
    obtain ⟨mdat, mset, pref, st, r, jl, ju, cv, isub, ls, proc, log⟩ := s
    by_cases hg : pref.global_volume = true
    · simp only [effectiveMute, hg, if_true] at hm
      cases pref
      simp only at hm hg
      subst hm
      simp [mute, tellmp_eq, updateWidgets_eq, Core.visible, effectiveMute, hg]
    · have hm2 : mset.mute = true := by simpa [effectiveMute, hg] using hm
      cases mset
      simp only at hm2
      subst hm2
      simp [mute, tellmp_eq, updateWidgets_eq, Core.visible, effectiveMute, hg]

/-- C2 at a concrete input: the muted sample session. -/
theorem mute_idempotent_witness :
    effectiveMute mutedCore = true ∧
      effectiveMute (mute true mutedCore) = true ∧
      (mute true mutedCore).visible = mutedCore.visible :=
  ⟨rfl, (mute_idempotent true mutedCore).2 rfl⟩

/-- C4: from a stored speed of exactly 1.0, `doubleSpeed()` followed by
`halveSpeed()` leaves the stored speed at exactly 1.0. -/
theorem double_then_halve_speed (s : Core) (h : s.mset.speed = 1) :
    (halveSpeed (doubleSpeed s)).mset.speed = 1 := by
  have h2 : (doubleSpeed s).mset.speed = 2 := by
    unfold doubleSpeed
    rw [setSpeed_speed, h]
    norm_num
  unfold halveSpeed
  rw [setSpeed_speed, h2]
  norm_num

/-- C4 at a concrete input: the sample session plays at speed 1.0. -/
theorem double_then_halve_speed_witness :
    sampleCore.mset.speed = 1 ∧ (halveSpeed (doubleSpeed sampleCore)).mset.speed = 1 :=
  ⟨rfl, double_then_halve_speed sampleCore rfl⟩

theorem changeZoom_zoom (k : Constants) (p : ℚ) (s : Core) :
    (changeZoom k p s).mset.zoom_factor = max p k.ZOOM_MIN := by
  simp only [changeZoom, displayMessage_eq, Core.record]
  by_cases h : p < k.ZOOM_MIN
  · rw [if_pos h, max_eq_right (le_of_lt h)]
  · rw [if_neg h, max_eq_left (not_lt.mp h)]

/-- C5: whatever the zoom factor was, `resetZoom()` leaves it at exactly 1.0.
The floor `ZOOM_MIN` is a constant of `constants.h`; the statement holds for
every value of it that does not exceed 1.0. -/
theorem resetZoom_one (k : Constants) (s : Core) (hk : k.ZOOM_MIN ≤ 1) :
    (resetZoom k s).mset.zoom_factor = 1 := by
  unfold resetZoom
  rw [changeZoom_zoom, max_eq_left hk]

/-- C5 at a concrete input: floor 0.5, prior zoom factor 3. -/
theorem resetZoom_one_witness :
    sampleConstants.ZOOM_MIN ≤ 1 ∧
      (resetZoom sampleConstants { sampleCore with mset.zoom_factor := 3 }).mset.zoom_factor
        = 1 :=
  ⟨by norm_num [sampleConstants],
    resetZoom_one sampleConstants _ (by norm_num [sampleConstants])⟩

theorem restartPlay_eq (s : Core) (hr : s.proc.running = true) (hf : s.mdat.filename ≠ "") :
    restartPlay s =
      { s with
        we_are_restarting := true
        mset := restartSettings s
        initial_subtitle := ""
        just_loaded_external_subs :=
          if s.initial_subtitle ≠ "" then true else s.just_loaded_external_subs
        proc := { s.proc with running := s.proc.startSucceeds }
        log := s.log ++ restartEvents s } := by
  obtain ⟨mdat, mset, pref, st, r, jl, ju, cv, isub, ls, proc, log⟩ := s
  simp only at hr hf
  simp only [restartPlay, initPlaying, stopMplayer, startMplayer, tellmp, Core.record,
    restartEvents, restartSettings]
  simp [hr, hf]
  split_ifs <;> simp_all

theorem restartEvents_oneStopThenStart (s : Core) : oneStopThenStart (restartEvents s) := by
  refine ⟨[Event.hideLogo],
    [Event.waitForFinished] ++ (if s.proc.finishesOnQuit then [] else [Event.kill]) ++
      [Event.emit .aboutToStartPlaying, Event.emit .logLineAvailable], [], ?_, ?_⟩
  · simp [restartEvents]
  · intro e he
    split_ifs at he <;> simp at he <;> casesm* _ ∨ _ <;> subst_vars <;>
      simp [Event.isStop, Event.isStart]

theorem restartMutator_run_eq (m : RestartMutator) (s : Core)
    (hr : s.proc.running = true) (hn : m.isNew s.mset) :
    m.run s = restartPlay { s with mset := m.assign s.mset } := by
  cases m <;>
    simp only [RestartMutator.isNew, ne_eq] at hn <;>
    simp [RestartMutator.run, RestartMutator.assign, changeDeinterlace, changeDenoise,
      toggleDeblock, toggleDering, toggleNoise, changeLetterbox, toggleFlip, toggleMirror,
      changeRotate, changeUpscale, setAudioChannels, setStereoMode,
      changeClosedCaptionChannel, hr, hn, Ne.symm hn]

/-- A process that `initPlaying` leaves running belongs to a file name that is
not empty: `startMplayer`, the only place where a process is started, refuses
an empty name. -/
theorem initPlaying_running_filename (seek : Int) (s : Core)
    (h : (initPlaying seek s).proc.running = true) : s.mdat.filename ≠ "" := by
  intro hf
  obtain ⟨mdat, mset, pref, st, r, jl, ju, cv, isub, ls, proc, log⟩ := s
  simp only at hf
  simp only [initPlaying, stopMplayer, startMplayer, tellmp, Core.record] at h
  simp [hf] at h
  split_ifs at h <;> simp_all

theorem restartMutator_assign_external_subtitles (m : RestartMutator) (ms : MediaSettings) :
    (m.assign ms).external_subtitles = ms.external_subtitles := by
  cases m <;> rfl

/-- C7: for each requires-restart setting, the mutator called with a value
different from the current one while a decoder process is running (the session
then has a file name, see `initPlaying_running_filename`) performs exactly one
process stop followed by exactly one process start (the effects it adds to the
log are those of `restartEvents`), and the restarting flag is true when it
returns. -/
theorem restart_mutator_cycle (m : RestartMutator) (s : Core)
    (hr : s.proc.running = true) (hf : s.mdat.filename ≠ "") (hn : m.isNew s.mset) :
    (m.run s).log = s.log ++ restartEvents s ∧
    oneStopThenStart (restartEvents s) ∧
    (m.run s).we_are_restarting = true := by
  rw [restartMutator_run_eq m s hr hn,
    restartPlay_eq { s with mset := m.assign s.mset } hr hf]
  exact ⟨rfl, restartEvents_oneStopThenStart s, rfl⟩

/-- C7 at a concrete input: `toggleFlip(true)` on the sample session, where a
process is running and flip is off. -/
theorem restart_mutator_cycle_witness :
    sampleCore.proc.running = true ∧ sampleCore.mdat.filename ≠ "" ∧
    (RestartMutator.toggleFlip true).isNew sampleCore.mset ∧
    ((RestartMutator.toggleFlip true).run sampleCore).log =
        sampleCore.log ++ restartEvents sampleCore ∧
    oneStopThenStart (restartEvents sampleCore) ∧
    ((RestartMutator.toggleFlip true).run sampleCore).we_are_restarting = true :=
  ⟨rfl, by decide, by decide,
    restart_mutator_cycle (.toggleFlip true) sampleCore rfl (by decide) (by decide)⟩

/-- C8, refuted as stated: `toggleFlip(true)` on the sample session (process
running, flip off, chapter 3) goes through one stop and start cycle, after
which the chapter index of the settings is 0 and not 3. -/
theorem restart_resets_chapter :
    sampleCore.proc.running = true ∧ sampleCore.mset.flip = false ∧
    sampleCore.mset.current_chapter_id = 3 ∧
    (toggleFlip true sampleCore).mset.current_chapter_id = 0 ∧
    (toggleFlip true sampleCore).mset ≠ { sampleCore.mset with flip := true } := by
  decide

/-- C8, amended: across the stop and start cycle triggered by mutating a
requires-restart setting while a process is running, every field of the
settings other than the mutated one keeps its value, except that
`current_chapter_id` is reset to 0 and that a pending initial subtitle file,
if there is one, replaces `external_subtitles`. -/
theorem restart_mutator_frame (m : RestartMutator) (s : Core)
    (hr : s.proc.running = true) (hf : s.mdat.filename ≠ "") (hn : m.isNew s.mset) :
    (m.run s).mset =
      { m.assign s.mset with
        current_chapter_id := 0
        external_subtitles :=
          if s.initial_subtitle ≠ "" then s.initial_subtitle
          else s.mset.external_subtitles } := by
  rw [restartMutator_run_eq m s hr hn,
    restartPlay_eq { s with mset := m.assign s.mset } hr hf]
  simp only [restartSettings, restartMutator_assign_external_subtitles]

/-- C8, amended, at a concrete input: `changeRotate(1)` on the sample
session. -/
theorem restart_mutator_frame_witness :
    sampleCore.proc.running = true ∧ sampleCore.mdat.filename ≠ "" ∧
    (RestartMutator.changeRotate 1).isNew sampleCore.mset ∧
    ((RestartMutator.changeRotate 1).run sampleCore).mset =
      { sampleCore.mset with rotate := 1, current_chapter_id := 0 } :=
  ⟨rfl, by decide, by decide,
    restart_mutator_frame (.changeRotate 1) sampleCore rfl (by decide) (by decide)⟩

theorem liveStep_setVolume (volume : Int) (force : Bool) (s : Core) (hr : s.proc.running = true) :
    liveStep s (setVolume volume force s) := by
  simp [liveStep, setVolume, tellmp_eq, displayMessage_eq, displayTextOnOSD_eq,
    updateWidgets_eq, Core.record, displayMessageEvents, Core.mset_ite, Core.pref_ite,
    Core.state_ite, Core.proc_ite, Core.log_ite, Core.we_are_restarting_ite, hr]
  split_ifs <;> simp [Event.isStop, Event.isStart, Event.isRuntimeCommand, Event.isSignal]

theorem liveStep_mute (b : Bool) (s : Core) (hr : s.proc.running = true) :
    liveStep s (mute b s) := by
  simp [liveStep, mute, tellmp_eq, displayMessage_eq, displayTextOnOSD_eq,
    updateWidgets_eq, Core.record, displayMessageEvents, Core.mset_ite, Core.pref_ite,
    Core.state_ite, Core.proc_ite, Core.log_ite, Core.we_are_restarting_ite, hr]
  split_ifs <;> simp [Event.isStop, Event.isStart, Event.isRuntimeCommand, Event.isSignal]

theorem liveStep_setBrightness (value : Int) (s : Core) (hr : s.proc.running = true) :
    liveStep s (setBrightness value s) := by
  simp [liveStep, setBrightness, tellmp_eq, displayMessage_eq, displayTextOnOSD_eq,
    updateWidgets_eq, Core.record, displayMessageEvents, Core.mset_ite, Core.pref_ite,
    Core.state_ite, Core.proc_ite, Core.log_ite, Core.we_are_restarting_ite, hr]
  split_ifs <;> simp [Event.isStop, Event.isStart, Event.isRuntimeCommand, Event.isSignal]

theorem liveStep_setContrast (value : Int) (s : Core) (hr : s.proc.running = true) :
    liveStep s (setContrast value s) := by
  simp [liveStep, setContrast, tellmp_eq, displayMessage_eq, displayTextOnOSD_eq,
    updateWidgets_eq, Core.record, displayMessageEvents, Core.mset_ite, Core.pref_ite,
    Core.state_ite, Core.proc_ite, Core.log_ite, Core.we_are_restarting_ite, hr]
  split_ifs <;> simp [Event.isStop, Event.isStart, Event.isRuntimeCommand, Event.isSignal]

theorem liveStep_setGamma (value : Int) (s : Core) (hr : s.proc.running = true) :
    liveStep s (setGamma value s) := by
  simp [liveStep, setGamma, tellmp_eq, displayMessage_eq, displayTextOnOSD_eq,
    updateWidgets_eq, Core.record, displayMessageEvents, Core.mset_ite, Core.pref_ite,
    Core.state_ite, Core.proc_ite, Core.log_ite, Core.we_are_restarting_ite, hr]
  split_ifs <;> simp [Event.isStop, Event.isStart, Event.isRuntimeCommand, Event.isSignal]

theorem liveStep_setHue (value : Int) (s : Core) (hr : s.proc.running = true) :
    liveStep s (setHue value s) := by
  simp [liveStep, setHue, tellmp_eq, displayMessage_eq, displayTextOnOSD_eq,
    updateWidgets_eq, Core.record, displayMessageEvents, Core.mset_ite, Core.pref_ite,
    Core.state_ite, Core.proc_ite, Core.log_ite, Core.we_are_restarting_ite, hr]
  split_ifs <;> simp [Event.isStop, Event.isStart, Event.isRuntimeCommand, Event.isSignal]

theorem liveStep_setSaturation (value : Int) (s : Core) (hr : s.proc.running = true) :
    liveStep s (setSaturation value s) := by
  simp [liveStep, setSaturation, tellmp_eq, displayMessage_eq, displayTextOnOSD_eq,
    updateWidgets_eq, Core.record, displayMessageEvents, Core.mset_ite, Core.pref_ite,
    Core.state_ite, Core.proc_ite, Core.log_ite, Core.we_are_restarting_ite, hr]
  split_ifs <;> simp [Event.isStop, Event.isStart, Event.isRuntimeCommand, Event.isSignal]

theorem liveStep_setSpeed (value : ℚ) (s : Core) (hr : s.proc.running = true) :
    liveStep s (setSpeed value s) := by
  simp [liveStep, setSpeed, tellmp_eq, displayMessage_eq, displayTextOnOSD_eq,
    updateWidgets_eq, Core.record, displayMessageEvents, Core.mset_ite, Core.pref_ite,
    Core.state_ite, Core.proc_ite, Core.log_ite, Core.we_are_restarting_ite, hr]
  simp [Event.isStop, Event.isStart, Event.isRuntimeCommand, Event.isSignal]
  intros; subst_vars; simp

theorem liveStep_setSubDelay (delay : Int) (s : Core) (hr : s.proc.running = true) :
    liveStep s (setSubDelay delay s) := by
  simp [liveStep, setSubDelay, tellmp_eq, displayMessage_eq, displayTextOnOSD_eq,
    updateWidgets_eq, Core.record, displayMessageEvents, Core.mset_ite, Core.pref_ite,
    Core.state_ite, Core.proc_ite, Core.log_ite, Core.we_are_restarting_ite, hr]
  simp [Event.isStop, Event.isStart, Event.isRuntimeCommand, Event.isSignal]
  intros; subst_vars; simp

theorem liveStep_setAudioDelay (delay : Int) (s : Core) (hr : s.proc.running = true) :
    liveStep s (setAudioDelay delay s) := by
  simp [liveStep, setAudioDelay, tellmp_eq, displayMessage_eq, displayTextOnOSD_eq,
    updateWidgets_eq, Core.record, displayMessageEvents, Core.mset_ite, Core.pref_ite,
    Core.state_ite, Core.proc_ite, Core.log_ite, Core.we_are_restarting_ite, hr]
  simp [Event.isStop, Event.isStart, Event.isRuntimeCommand, Event.isSignal]
  intros; subst_vars; simp

theorem liveStep_changeSubScale (value : ℚ) (s : Core) (hr : s.proc.running = true) :
    liveStep s (changeSubScale value s) := by
  simp [liveStep, changeSubScale, tellmp_eq, displayMessage_eq, displayTextOnOSD_eq,
    updateWidgets_eq, Core.record, displayMessageEvents, Core.mset_ite, Core.pref_ite,
    Core.state_ite, Core.proc_ite, Core.log_ite, Core.we_are_restarting_ite, hr]
  split_ifs <;> simp [Event.isStop, Event.isStart, Event.isRuntimeCommand, Event.isSignal]

theorem liveStep_changeSubVisibility (visible : Bool) (s : Core) (hr : s.proc.running = true) :
    liveStep s (changeSubVisibility visible s) := by
  simp [liveStep, changeSubVisibility, tellmp_eq, displayMessage_eq, displayTextOnOSD_eq,
    updateWidgets_eq, Core.record, displayMessageEvents, Core.mset_ite, Core.pref_ite,
    Core.state_ite, Core.proc_ite, Core.log_ite, Core.we_are_restarting_ite, hr]
  split_ifs <;> simp [Event.isStop, Event.isStart, Event.isRuntimeCommand, Event.isSignal]

theorem liveStep_changePanscan (p : ℚ) (s : Core) (hr : s.proc.running = true) :
    liveStep s (changePanscan p s) := by
  simp [liveStep, changePanscan, tellmp_eq, displayMessage_eq, displayTextOnOSD_eq,
    updateWidgets_eq, Core.record, displayMessageEvents, Core.mset_ite, Core.pref_ite,
    Core.state_ite, Core.proc_ite, Core.log_ite, Core.we_are_restarting_ite, hr]
  simp [Event.isStop, Event.isStart, Event.isRuntimeCommand, Event.isSignal]
  intros; subst_vars; simp

theorem liveStep_changeOSD (v : Int) (s : Core) (hr : s.proc.running = true) :
    liveStep s (changeOSD v s) := by
  simp [liveStep, changeOSD, tellmp_eq, displayMessage_eq, displayTextOnOSD_eq,
    updateWidgets_eq, Core.record, displayMessageEvents, Core.mset_ite, Core.pref_ite,
    Core.state_ite, Core.proc_ite, Core.log_ite, Core.we_are_restarting_ite, hr]
  simp [Event.isStop, Event.isStart, Event.isRuntimeCommand, Event.isSignal]

theorem liveStep_toggleRepeat (b : Bool) (s : Core) (hr : s.proc.running = true) :
    liveStep s (toggleRepeat b s) := by
  simp [liveStep, toggleRepeat, tellmp_eq, displayMessage_eq, displayTextOnOSD_eq,
    updateWidgets_eq, Core.record, displayMessageEvents, Core.mset_ite, Core.pref_ite,
    Core.state_ite, Core.proc_ite, Core.log_ite, Core.we_are_restarting_ite, hr]
  split_ifs <;> simp [Event.isStop, Event.isStart, Event.isRuntimeCommand, Event.isSignal]

theorem liveStep_toggleKaraoke (b : Bool) (s : Core) (hr : s.proc.running = true) :
    liveStep s (toggleKaraoke b s) := by
  simp [liveStep, toggleKaraoke, tellmp_eq, displayMessage_eq, displayTextOnOSD_eq,
    updateWidgets_eq, Core.record, displayMessageEvents, Core.mset_ite, Core.pref_ite,
    Core.state_ite, Core.proc_ite, Core.log_ite, Core.we_are_restarting_ite, hr]
  split_ifs <;> simp [Event.isStop, Event.isStart, Event.isRuntimeCommand, Event.isSignal]

theorem liveStep_toggleExtrastereo (b : Bool) (s : Core) (hr : s.proc.running = true) :
    liveStep s (toggleExtrastereo b s) := by
  simp [liveStep, toggleExtrastereo, tellmp_eq, displayMessage_eq, displayTextOnOSD_eq,
    updateWidgets_eq, Core.record, displayMessageEvents, Core.mset_ite, Core.pref_ite,
    Core.state_ite, Core.proc_ite, Core.log_ite, Core.we_are_restarting_ite, hr]
  split_ifs <;> simp [Event.isStop, Event.isStart, Event.isRuntimeCommand, Event.isSignal]

theorem liveStep_toggleVolnorm (b : Bool) (s : Core) (hr : s.proc.running = true) :
    liveStep s (toggleVolnorm b s) := by
  simp [liveStep, toggleVolnorm, tellmp_eq, displayMessage_eq, displayTextOnOSD_eq,
    updateWidgets_eq, Core.record, displayMessageEvents, Core.mset_ite, Core.pref_ite,
    Core.state_ite, Core.proc_ite, Core.log_ite, Core.we_are_restarting_ite, hr]
  split_ifs <;> simp [Event.isStop, Event.isStart, Event.isRuntimeCommand, Event.isSignal]

theorem liveStep_toggleForcedSubsOnly (b : Bool) (s : Core) (hr : s.proc.running = true) :
    liveStep s (toggleForcedSubsOnly b s) := by
  simp [liveStep, toggleForcedSubsOnly, tellmp_eq, displayMessage_eq, displayTextOnOSD_eq,
    updateWidgets_eq, Core.record, displayMessageEvents, Core.mset_ite, Core.pref_ite,
    Core.state_ite, Core.proc_ite, Core.log_ite, Core.we_are_restarting_ite, hr]
  split_ifs <;> simp [Event.isStop, Event.isStart, Event.isRuntimeCommand, Event.isSignal]

theorem liveStep_displayTextOnOSD (text : Message) (duration : Int) (level : Int) (pfx : String) (s : Core) (hr : s.proc.running = true) :
    liveStep s (displayTextOnOSD text duration level pfx s) := by
  simp [liveStep, displayTextOnOSD, tellmp_eq, displayMessage_eq, displayTextOnOSD_eq,
    updateWidgets_eq, Core.record, displayMessageEvents, Core.mset_ite, Core.pref_ite,
    Core.state_ite, Core.proc_ite, Core.log_ite, Core.we_are_restarting_ite, hr]
  simp [Event.isStop, Event.isStart, Event.isRuntimeCommand, Event.isSignal]

theorem liveStep_changeChapter (ID : Int) (relative : Bool) (s : Core)
    (hr : s.proc.running = true) (ht : s.mdat.type ≠ MediaType.TYPE_DVD) :
    liveStep s (changeChapter ID relative s) := by
  simp [liveStep, changeChapter, ht, tellmp_eq, updateWidgets_eq, Core.record, hr]
  split_ifs <;> simp [Event.isStop, Event.isStart, Event.isRuntimeCommand, Event.isSignal]

/-- C9: every live-appliable mutator (`setVolume`, `mute`, the five video
equalizer setters, `setSpeed`, `setSubDelay`, `setAudioDelay`,
`changeSubScale`, `changeSubVisibility`, `changePanscan`, `changeOSD`,
`toggleRepeat`, `toggleKaraoke`, `toggleExtrastereo`, `toggleVolnorm`,
`toggleForcedSubsOnly`, `displayTextOnOSD`, and `changeChapter` on media that
is not an optical disc), called with any argument while a process is running,
performs no process stop and no process start and leaves the process and the
restarting flag as they were; every effect it adds to the log is a runtime
command or a signal. -/
theorem live_mutator_no_restart (m : LiveMutator) (s : Core)
    (hr : s.proc.running = true)
    (hc : ∀ ID relative, m = .changeChapter ID relative → s.mdat.type ≠ .TYPE_DVD) :
    (m.run s).proc = s.proc ∧
    (m.run s).we_are_restarting = s.we_are_restarting ∧
    ∃ evs, (m.run s).log = s.log ++ evs ∧
      ∀ e ∈ evs, e.isStop = false ∧ e.isStart = false ∧
        (e.isRuntimeCommand = true ∨ e.isSignal = true) := by
  cases m
  case setVolume volume force => exact liveStep_setVolume volume force s hr
  case mute b => exact liveStep_mute b s hr
  case setBrightness value => exact liveStep_setBrightness value s hr
  case setContrast value => exact liveStep_setContrast value s hr
  case setGamma value => exact liveStep_setGamma value s hr
  case setHue value => exact liveStep_setHue value s hr
  case setSaturation value => exact liveStep_setSaturation value s hr
  case setSpeed value => exact liveStep_setSpeed value s hr
  case setSubDelay delay => exact liveStep_setSubDelay delay s hr
  case setAudioDelay delay => exact liveStep_setAudioDelay delay s hr
  case changeSubScale value => exact liveStep_changeSubScale value s hr
  case changeSubVisibility visible => exact liveStep_changeSubVisibility visible s hr
  case changePanscan p => exact liveStep_changePanscan p s hr
  case changeOSD v => exact liveStep_changeOSD v s hr
  case toggleRepeat b => exact liveStep_toggleRepeat b s hr
  case toggleKaraoke b => exact liveStep_toggleKaraoke b s hr
  case toggleExtrastereo b => exact liveStep_toggleExtrastereo b s hr
  case toggleVolnorm b => exact liveStep_toggleVolnorm b s hr
  case toggleForcedSubsOnly b => exact liveStep_toggleForcedSubsOnly b s hr
  case displayTextOnOSD text duration level pfx =>
    exact liveStep_displayTextOnOSD (.text text) duration level pfx s hr
  case changeChapter ID relative =>
    exact liveStep_changeChapter ID relative s hr (hc ID relative rfl)

/-- C9 at a concrete input: `changeChapter(5)` on the sample session, which
plays a local file. -/
theorem live_mutator_no_restart_witness :
    sampleCore.proc.running = true ∧
    ((LiveMutator.changeChapter 5 false).run sampleCore).proc = sampleCore.proc ∧
    ((LiveMutator.changeChapter 5 false).run sampleCore).we_are_restarting =
      sampleCore.we_are_restarting ∧
    ∃ evs, ((LiveMutator.changeChapter 5 false).run sampleCore).log = sampleCore.log ++ evs ∧
      ∀ e ∈ evs, e.isStop = false ∧ e.isStart = false ∧
        (e.isRuntimeCommand = true ∨ e.isSignal = true) :=
  ⟨rfl, live_mutator_no_restart (.changeChapter 5 false) sampleCore rfl
    (fun _ _ _ => by decide)⟩


/-- C10, refuted as stated: `setSpeed` and `setSubDelay` have no check against
the current value.  On the sample session (speed 1, subtitle delay 0, process
running), `setSpeed(1)` and `setSubDelay(0)` each write their command to the
decoder again. -/
theorem setSpeed_same_value_reissues :
    sampleCore.mset.speed = 1 ∧ sampleCore.mset.sub_delay = 0 ∧
    (setSpeed 1 sampleCore).log =
      sampleCore.log ++
        [Event.writeToStdin (.speed_set 1), Event.emit (.showMessage (.speed 1))] ∧
    (setSubDelay 0 sampleCore).log =
      sampleCore.log ++
        [Event.writeToStdin (.sub_delay 0), Event.emit (.showMessage (.sub_delay 0))] := by
  refine ⟨rfl, rfl, ?_, ?_⟩
  · simp [setSpeed, tellmp_eq, displayMessage_eq, displayMessageEvents, sampleCore,
      samplePreferences]
    norm_num
  · simp [setSubDelay, tellmp_eq, displayMessage_eq, displayMessageEvents, sampleCore,
      samplePreferences]

theorem clamp_equalizer_eq (value : Int) (h1 : -100 ≤ value) (h2 : value ≤ 100) :
    (if (if value > 100 then 100 else value) < -100 then -100
      else (if value > 100 then 100 else value)) = value := by
  split_ifs <;> omega

/-- C10, amended: no-op suppression holds for the mutators that compare the
new value with the current one (`toggleRepeat`, `toggleFlip`, `toggleMirror`,
`toggleKaraoke`, `toggleExtrastereo`, `toggleVolnorm`, `setAudioChannels`,
`setStereoMode`, `toggleAutophase`, `toggleDeblock`, `toggleDering`,
`toggleNoise`, `changeDenoise`, `changeUpscale`, the five video equalizer
setters, `setVolume` without `force`, `changeSubScale`, `changeDeinterlace`,
`changeChapter(ID)`, `changeEdition`, `changeAngle`, `changeLetterbox`,
`changeRotate`, `toggleForcedSubsOnly`, `changeClosedCaptionChannel`): called
with the value the setting already has (inside the clamp range, for a setter
that clamps), such a mutator returns the session exactly as it was, log
included: no decoder command, no restart, no change of state. -/
theorem guarded_mutator_noop (m : GuardedMutator) (s : Core) (h : m.atCurrent s) :
    m.run s = s := by
  cases m <;> simp only [GuardedMutator.atCurrent] at h
  case setBrightness value =>
    obtain ⟨h0, h1, h2⟩ := h
    simp only [GuardedMutator.run, setBrightness, clamp_equalizer_eq value h1 h2]
    simp [h0]
  case setContrast value =>
    obtain ⟨h0, h1, h2⟩ := h
    simp only [GuardedMutator.run, setContrast, clamp_equalizer_eq value h1 h2]
    simp [h0]
  case setGamma value =>
    obtain ⟨h0, h1, h2⟩ := h
    simp only [GuardedMutator.run, setGamma, clamp_equalizer_eq value h1 h2]
    simp [h0]
  case setHue value =>
    obtain ⟨h0, h1, h2⟩ := h
    simp only [GuardedMutator.run, setHue, clamp_equalizer_eq value h1 h2]
    simp [h0]
  case setSaturation value =>
    obtain ⟨h0, h1, h2⟩ := h
    simp only [GuardedMutator.run, setSaturation, clamp_equalizer_eq value h1 h2]
    simp [h0]
  case changeSubScale value =>
    obtain ⟨h0, h1⟩ := h
    subst h0
    simp [GuardedMutator.run, changeSubScale, not_lt.mpr h1]
  case setVolume volume =>
    simp only [effectiveVolume] at h
    simp [GuardedMutator.run, setVolume, h]
  all_goals
    simp [GuardedMutator.run, toggleRepeat, toggleFlip, toggleMirror, toggleKaraoke,
      toggleExtrastereo, toggleVolnorm, setAudioChannels, setStereoMode, toggleAutophase,
      toggleDeblock, toggleDering, toggleNoise, changeDenoise, changeUpscale,
      changeDeinterlace, changeChapter, changeEdition, changeAngle, changeLetterbox,
      changeRotate, toggleForcedSubsOnly, changeClosedCaptionChannel, h]

/-- C10, amended, at a concrete input: `setBrightness(0)` on the sample
session, whose brightness is 0. -/
theorem guarded_mutator_noop_witness :
    (GuardedMutator.setBrightness 0).atCurrent sampleCore ∧
      (GuardedMutator.setBrightness 0).run sampleCore = sampleCore :=
  ⟨by decide, guarded_mutator_noop (.setBrightness 0) sampleCore (by decide)⟩

theorem changeEdition_eq (ID : Int) (s : Core) (hn : ID ≠ s.mset.current_edition_id) :
    changeEdition ID s =
      restartPlay { s with mset.current_edition_id := ID, mset.current_sec := 0 } := by
  simp [changeEdition, hn]

theorem changeAngle_eq (ID : Int) (s : Core) (hn : ID ≠ s.mset.current_angle_id) :
    changeAngle ID s = restartPlay { s with mset.current_angle_id := ID } := by
  simp [changeAngle, hn]

/-- C11, refuted as stated: on the sample session, which plays a local file
(not an optical disc) in a running process, `changeEdition(1)` and
`changeAngle(2)` write no runtime command for the change; each sends `quit`,
waits for the process and starts it again. -/
theorem changeEdition_restarts_on_file :
    sampleCore.mdat.type = MediaType.TYPE_FILE ∧
    sampleCore.proc.running = true ∧
    sampleCore.mset.current_edition_id ≠ 1 ∧
    sampleCore.mset.current_angle_id ≠ 2 ∧
    (changeEdition 1 sampleCore).log =
      [Event.hideLogo, Event.writeToStdin .quit, Event.waitForFinished,
        Event.emit .aboutToStartPlaying, Event.emit .logLineAvailable, Event.start] ∧
    (changeAngle 2 sampleCore).log =
      [Event.hideLogo, Event.writeToStdin .quit, Event.waitForFinished,
        Event.emit .aboutToStartPlaying, Event.emit .logLineAvailable, Event.start] := by
  decide

/-- C11, amended: whatever the kind of the loaded media (optical disc or not),
`changeEdition(ID)` and `changeAngle(ID)` with a new value store the value and
restart playback: with a process running they perform exactly one process stop
followed by one process start, set the restarting flag, and write no other
command to the decoder. -/
theorem changeEdition_changeAngle_restart (ID : Int) (s : Core)
    (hr : s.proc.running = true) (hf : s.mdat.filename ≠ "") :
    (ID ≠ s.mset.current_edition_id →
      (changeEdition ID s).mset.current_edition_id = ID ∧
      (changeEdition ID s).log = s.log ++ restartEvents s ∧
      (changeEdition ID s).we_are_restarting = true) ∧
    (ID ≠ s.mset.current_angle_id →
      (changeAngle ID s).mset.current_angle_id = ID ∧
      (changeAngle ID s).log = s.log ++ restartEvents s ∧
      (changeAngle ID s).we_are_restarting = true) ∧
    oneStopThenStart (restartEvents s) := by
  refine ⟨?_, ?_, restartEvents_oneStopThenStart s⟩
  · intro hn
    rw [changeEdition_eq ID s hn,
      restartPlay_eq { s with mset.current_edition_id := ID, mset.current_sec := 0 } hr hf]
    exact ⟨rfl, rfl, rfl⟩
  · intro hn
    rw [changeAngle_eq ID s hn, restartPlay_eq { s with mset.current_angle_id := ID } hr hf]
    exact ⟨rfl, rfl, rfl⟩

/-- C11, amended, at a concrete input: the sample session plays a local file;
`changeEdition(1)` and `changeAngle(2)` each restart it. -/
theorem changeEdition_changeAngle_restart_witness :
    sampleCore.proc.running = true ∧ sampleCore.mdat.filename ≠ "" ∧
    ((changeEdition 1 sampleCore).mset.current_edition_id = 1 ∧
      (changeEdition 1 sampleCore).log = sampleCore.log ++ restartEvents sampleCore ∧
      (changeEdition 1 sampleCore).we_are_restarting = true) ∧
    ((changeAngle 2 sampleCore).mset.current_angle_id = 2 ∧
      (changeAngle 2 sampleCore).log = sampleCore.log ++ restartEvents sampleCore ∧
      (changeAngle 2 sampleCore).we_are_restarting = true) :=
  ⟨rfl, by decide,
    (changeEdition_changeAngle_restart 1 sampleCore rfl (by decide)).1 (by decide),
    (changeEdition_changeAngle_restart 2 sampleCore rfl (by decide)).2.1 (by decide)⟩

theorem noEndpos_argsGeneral (env : Env) (s : Core) :
    Arg.lit "-endpos" ∉ argsGeneral env s := by
  simp [argsGeneral]

theorem noEndpos_argsCodecs (cfg : Config) (s : Core) :
    Arg.lit "-endpos" ∉ argsCodecs cfg s := by
  simp [argsCodecs]
  split_ifs <;> simp

theorem noEndpos_argsOutput (cfg : Config) (env : Env) (s : Core) :
    Arg.lit "-endpos" ∉ argsOutput cfg env s := by
  simp [argsOutput]
  refine ⟨?_, ?_, ?_⟩
  · intro _; cases s.pref.priority <;> simp [priorityName]
  · intro _; split_ifs <;> simp
  · split_ifs <;> simp

theorem noEndpos_argsSubtitleStyle (env : Env) (s : Core) :
    Arg.lit "-endpos" ∉ argsSubtitleStyle env s := by
  simp [argsSubtitleStyle]
  intro _
  split_ifs <;> simp

theorem noEndpos_argsTracks (cfg : Config) (k : SettingsConstants) (s : Core) :
    Arg.lit "-endpos" ∉ argsTracks cfg k s := by
  simp [argsTracks]
  split_ifs <;> simp

theorem noEndpos_argsExternalFiles (env : Env) (s : Core) :
    Arg.lit "-endpos" ∉ argsExternalFiles env s := by
  simp [argsExternalFiles]
  intro _
  split_ifs <;> simp

theorem noEndpos_argsEqualizerVolume (s : Core) :
    Arg.lit "-endpos" ∉ argsEqualizerVolume s := by
  simp [argsEqualizerVolume]
  split_ifs <;> simp

theorem noEndpos_argsDisc (t : StartTarget) (s : Core) :
    Arg.lit "-endpos" ∉ argsDisc t s := by
  simp [argsDisc]

theorem noEndpos_argsCacheSpeed (cfg : Config) (t : StartTarget) (s : Core) :
    Arg.lit "-endpos" ∉ argsCacheSpeed cfg t s := by
  simp [argsCacheSpeed]
  split_ifs <;> simp

theorem noEndpos_argsPlayback (s : Core) :
    Arg.lit "-endpos" ∉ argsPlayback s := by
  simp [argsPlayback]
  constructor <;> intro _ <;> split_ifs <;> simp

theorem noEndpos_argsVideoFilters (cfg : Config) (k : SettingsConstants) (env : Env)
    (s : Core) : Arg.lit "-endpos" ∉ argsVideoFilters cfg k env s := by
  simp [argsVideoFilters]
  intro _
  constructor
  · intro _
    unfold deinterlaceFilter
    split_ifs <;> simp
  · intro _
    unfold softEqualizerFilter
    split_ifs <;> simp

theorem noEndpos_argsAudio (k : SettingsConstants) (env : Env) (s : Core) :
    Arg.lit "-endpos" ∉ argsAudio k env s := by
  simp [argsAudio]

theorem noEndpos_argsTail (env : Env) (t : StartTarget) (s : Core) :
    Arg.lit "-endpos" ∉ argsTail env t s := by
  simp [argsTail]

theorem noEndpos_argsSeek (seek : ℚ) (s : Core)
    (h : ¬ (s.mset.A_marker > -1 ∧ s.mset.B_marker > s.mset.A_marker)) :
    Arg.lit "-endpos" ∉ argsSeek seek s := by
  unfold argsSeek
  rw [if_neg h]
  split_ifs <;> simp

theorem startSession_markers (s : Core) :
    (startSession s).mset.A_marker = s.mset.A_marker ∧
    (startSession s).mset.B_marker = s.mset.B_marker := by
  unfold startSession
  simp only []
  split_ifs <;> exact ⟨rfl, rfl⟩

theorem noEndpos_startArguments (cfg : Config) (k : SettingsConstants) (env : Env)
    (file : String) (seek : ℚ) (s : Core)
    (h : ¬ (s.mset.A_marker > -1 ∧ s.mset.B_marker > s.mset.A_marker)) :
    Arg.lit "-endpos" ∉ startArguments cfg k env file seek s := by
  have h2 : ¬ ((startSession s).mset.A_marker > -1 ∧
      (startSession s).mset.B_marker > (startSession s).mset.A_marker) := by
    rw [(startSession_markers s).1, (startSession_markers s).2]; exact h
  simp only [startArguments, List.mem_append, not_or]
  exact ⟨⟨⟨⟨⟨⟨⟨⟨⟨⟨⟨⟨⟨noEndpos_argsGeneral _ _, noEndpos_argsCodecs _ _⟩,
    noEndpos_argsOutput _ _ _⟩, noEndpos_argsSubtitleStyle _ _⟩, noEndpos_argsTracks _ _ _⟩,
    noEndpos_argsExternalFiles _ _⟩, noEndpos_argsEqualizerVolume _⟩, noEndpos_argsDisc _ _⟩,
    noEndpos_argsCacheSpeed _ _ _⟩, noEndpos_argsSeek _ _ h2⟩, noEndpos_argsPlayback _⟩,
    noEndpos_argsVideoFilters _ _ _ _⟩, noEndpos_argsAudio _ _ _⟩, noEndpos_argsTail _ _ _⟩

theorem setBMarker_noRestart (sec : Int) (s : Core)
    (h : ¬ (s.mset.A_marker > -1 ∧ s.mset.A_marker < sec ∧ s.proc.running = true)) :
    setBMarker sec s =
      { s with
        mset.B_marker := sec
        log := s.log ++ (displayMessageEvents (.b_marker sec) s ++
          [Event.emit (.ABMarkersChanged s.mset.A_marker sec)]) } := by
  simp only [setBMarker, displayMessage_eq, Core.record]
  by_cases h1 : s.mset.A_marker > -1 ∧ s.mset.A_marker < sec
  · have hr : ¬ (s.proc.running = true) := fun hr => h ⟨h1.1, h1.2, hr⟩
    simp [h1, hr, displayMessageEvents]
  · simp [h1, displayMessageEvents]

theorem displayMessageEvents_benign (text : Message) (s : Core) :
    ∀ e ∈ displayMessageEvents text s, e.isStop = false ∧ e.isStart = false := by
  intro e he
  unfold displayMessageEvents at he
  rcases List.mem_cons.mp he with rfl | he
  · simp [Event.isStop, Event.isStart]
  · split_ifs at he <;> simp at he
    subst he
    simp [Event.isStop, Event.isStart]

/-- C12, as stated, fails: with the A marker at 30 and the free-form option
line `-endpos 5` of the user in the preferences, the invocation built after
`setBMarker(10)` contains the string `-endpos`. -/
theorem setBMarker_user_endpos :
    (10 : Int) ≤ optionsCore.mset.A_marker ∧
    "-endpos" ∈ (startArguments sampleConfig sampleSettingsConstants sampleEnv
      "/tmp/movie.mkv" 0 (setBMarker 10 optionsCore)).map (Arg.render sampleEnv) := by
  decide

/-- C12, amended: for every A marker value and every `sec ≤ A`,
`setBMarker(sec)` stores B, triggers no restart (the process and the restart
flag are untouched, nothing is stopped or started), and leaves looping
inactive: the controller puts no `-endpos` option of its own into the
invocation built from the resulting settings (strings that it passes on
verbatim from the configuration of the user are not covered). -/
theorem setBMarker_before_A (cfg : Config) (k : SettingsConstants) (env : Env)
    (file : String) (seek : ℚ) (sec : Int) (s : Core) (h : sec ≤ s.mset.A_marker) :
    (setBMarker sec s).mset.B_marker = sec ∧
    (setBMarker sec s).proc = s.proc ∧
    (setBMarker sec s).we_are_restarting = s.we_are_restarting ∧
    (∃ evs, (setBMarker sec s).log = s.log ++ evs ∧
      ∀ e ∈ evs, e.isStop = false ∧ e.isStart = false) ∧
    Arg.lit "-endpos" ∉ startArguments cfg k env file seek (setBMarker sec s) := by
  have hn : ¬ (s.mset.A_marker > -1 ∧ s.mset.A_marker < sec ∧ s.proc.running = true) := by
    intro hh; omega
  rw [setBMarker_noRestart sec s hn]
  refine ⟨rfl, rfl, rfl, ⟨_, rfl, ?_⟩, ?_⟩
  · intro e he
    rcases List.mem_append.mp he with he | he
    · exact displayMessageEvents_benign _ _ e he
    · simp at he; subst he; simp [Event.isStop, Event.isStart]
  · apply noEndpos_startArguments
    show ¬ (s.mset.A_marker > -1 ∧ sec > s.mset.A_marker)
    intro hh; omega

theorem setBMarker_before_A_witness :
    (setBMarker 10 markedCore).mset.B_marker = 10 ∧
    (setBMarker 10 markedCore).proc = markedCore.proc ∧
    (setBMarker 10 markedCore).we_are_restarting = markedCore.we_are_restarting ∧
    (∃ evs, (setBMarker 10 markedCore).log = markedCore.log ++ evs ∧
      ∀ e ∈ evs, e.isStop = false ∧ e.isStart = false) ∧
    Arg.lit "-endpos" ∉ startArguments sampleConfig sampleSettingsConstants sampleEnv
      "/tmp/movie.mkv" 0 (setBMarker 10 markedCore) :=
  setBMarker_before_A sampleConfig sampleSettingsConstants sampleEnv "/tmp/movie.mkv" 0 10
    markedCore (by decide)

theorem oneStopThenStart_wrap (a evs b : List Event) (h : oneStopThenStart evs)
    (ha : ∀ e ∈ a, e.isStop = false ∧ e.isStart = false)
    (hb : ∀ e ∈ b, e.isStop = false ∧ e.isStart = false) :
    oneStopThenStart (a ++ evs ++ b) := by
  obtain ⟨pre, mid, post, he, hno⟩ := h
  refine ⟨a ++ pre, mid, post ++ b, ?_, ?_⟩
  · subst he; simp [List.append_assoc]
  · intro e hmem
    simp only [List.mem_append] at hmem hno
    rcases hmem with (((h1 | h1) | h1) | (h1 | h1))
    · exact ha e h1
    · exact hno e (Or.inl (Or.inl h1))
    · exact hno e (Or.inl (Or.inr h1))
    · exact hno e (Or.inr h1)
    · exact hb e h1

theorem setBMarker_restart (sec : Int) (s : Core) (hr : s.proc.running = true)
    (hf : s.mdat.filename ≠ "") (ha : s.mset.A_marker > -1) (hb : sec > s.mset.A_marker) :
    setBMarker sec s =
      { s with
        we_are_restarting := true
        mset := restartSettings { s with mset.B_marker := sec }
        initial_subtitle := ""
        just_loaded_external_subs :=
          if s.initial_subtitle ≠ "" then true else s.just_loaded_external_subs
        proc := { s.proc with running := s.proc.startSucceeds }
        log := s.log ++ (displayMessageEvents (.b_marker sec) s ++ restartEvents s ++
          [Event.emit (.ABMarkersChanged s.mset.A_marker sec)]) } := by
  have hlt : s.mset.A_marker < sec := hb
  have hs1 : displayMessage (.b_marker sec) { s with mset.B_marker := sec } =
      { s with
        mset.B_marker := sec
        log := s.log ++ displayMessageEvents (.b_marker sec) s } := by
    rw [displayMessage_eq]; rfl
  have hS := restartPlay_eq { s with
        mset.B_marker := sec
        log := s.log ++ displayMessageEvents (.b_marker sec) s } hr hf
  simp only [setBMarker, hs1]
  rw [if_pos ⟨ha, hlt⟩, if_pos hr, hS]
  simp [Core.record, restartSettings, restartEvents, List.append_assoc]

theorem emit_benign (sig : Signal) :
    ∀ e ∈ [Event.emit sig], e.isStop = false ∧ e.isStart = false := by
  intro e he
  simp at he
  subst he
  simp [Event.isStop, Event.isStart]

/-- C13: with a process running (on a loaded file) and the A marker set,
`setBMarker(sec)` with `sec > A` stores `B = sec` and its effects hold exactly
one stop followed by one start; with the process not running it stores B and
stops or starts nothing. -/
theorem setBMarker_after_A (sec : Int) (s : Core) :
    (s.proc.running = true → s.mdat.filename ≠ "" → s.mset.A_marker > -1 →
      sec > s.mset.A_marker →
        (setBMarker sec s).mset.B_marker = sec ∧
        (setBMarker sec s).we_are_restarting = true ∧
        (setBMarker sec s).log =
          s.log ++ (displayMessageEvents (.b_marker sec) s ++ restartEvents s ++
            [Event.emit (.ABMarkersChanged s.mset.A_marker sec)]) ∧
        oneStopThenStart (displayMessageEvents (.b_marker sec) s ++ restartEvents s ++
            [Event.emit (.ABMarkersChanged s.mset.A_marker sec)])) ∧
    (s.proc.running = false →
        (setBMarker sec s).mset.B_marker = sec ∧
        (setBMarker sec s).proc = s.proc ∧
        (setBMarker sec s).we_are_restarting = s.we_are_restarting ∧
        ∃ evs, (setBMarker sec s).log = s.log ++ evs ∧
          ∀ e ∈ evs, e.isStop = false ∧ e.isStart = false) := by
  constructor
  · intro hr hf ha hb
    rw [setBMarker_restart sec s hr hf ha hb]
    refine ⟨rfl, rfl, rfl, ?_⟩
    exact oneStopThenStart_wrap _ _ _ (restartEvents_oneStopThenStart s)
      (displayMessageEvents_benign _ s) (emit_benign _)
  · intro hr
    have hn : ¬ (s.mset.A_marker > -1 ∧ s.mset.A_marker < sec ∧ s.proc.running = true) := by
      rintro ⟨_, _, h⟩; rw [hr] at h; exact Bool.noConfusion h
    rw [setBMarker_noRestart sec s hn]
    refine ⟨rfl, rfl, rfl, _, rfl, ?_⟩
    intro e he
    rcases List.mem_append.mp he with he | he
    · exact displayMessageEvents_benign _ _ e he
    · exact emit_benign _ e he

theorem setBMarker_after_A_witness :
    ((setBMarker 40 markedCore).mset.B_marker = 40 ∧
      (setBMarker 40 markedCore).we_are_restarting = true ∧
      (setBMarker 40 markedCore).log =
        markedCore.log ++ (displayMessageEvents (.b_marker 40) markedCore ++
          restartEvents markedCore ++
          [Event.emit (.ABMarkersChanged markedCore.mset.A_marker 40)]) ∧
      oneStopThenStart (displayMessageEvents (.b_marker 40) markedCore ++
          restartEvents markedCore ++
          [Event.emit (.ABMarkersChanged markedCore.mset.A_marker 40)])) ∧
    ((setBMarker 40 idleMarkedCore).mset.B_marker = 40 ∧
      (setBMarker 40 idleMarkedCore).proc = idleMarkedCore.proc ∧
      (setBMarker 40 idleMarkedCore).we_are_restarting = idleMarkedCore.we_are_restarting ∧
      ∃ evs, (setBMarker 40 idleMarkedCore).log = idleMarkedCore.log ++ evs ∧
        ∀ e ∈ evs, e.isStop = false ∧ e.isStart = false) :=
  ⟨(setBMarker_after_A 40 markedCore).1 (by decide) (by decide) (by decide) (by decide),
    (setBMarker_after_A 40 idleMarkedCore).2 (by decide)⟩

theorem clearABMarkers_unset (s : Core) (ha : s.mset.A_marker = -1) (hb : s.mset.B_marker = -1) :
    clearABMarkers s =
      { s with log := s.log ++ [Event.emit (.ABMarkersChanged (-1) (-1))] } := by
  simp [clearABMarkers, ha, hb, Core.record]

theorem clearABMarkers_restart (s : Core) (hr : s.proc.running = true)
    (hf : s.mdat.filename ≠ "") (hm : s.mset.A_marker ≠ -1 ∨ s.mset.B_marker ≠ -1) :
    clearABMarkers s =
      { s with
        we_are_restarting := true
        mset := restartSettings { s with mset.A_marker := -1, mset.B_marker := -1 }
        initial_subtitle := ""
        just_loaded_external_subs :=
          if s.initial_subtitle ≠ "" then true else s.just_loaded_external_subs
        proc := { s.proc with running := s.proc.startSucceeds }
        log := s.log ++ (displayMessageEvents .ab_markers_cleared s ++ restartEvents s ++
          [Event.emit (.ABMarkersChanged (-1) (-1))]) } := by
  have hs1 : displayMessage .ab_markers_cleared
        { s with mset.A_marker := -1, mset.B_marker := -1 } =
      { s with
        mset.A_marker := -1
        mset.B_marker := -1
        log := s.log ++ displayMessageEvents .ab_markers_cleared s } := by
    rw [displayMessage_eq]; rfl
  have hS := restartPlay_eq { s with
        mset.A_marker := -1
        mset.B_marker := -1
        log := s.log ++ displayMessageEvents .ab_markers_cleared s } hr hf
  simp only [clearABMarkers, hs1]
  rw [if_pos hm, if_pos hr, hS]
  simp [Core.record, restartSettings, restartEvents, List.append_assoc]

/-- C14: `clearABMarkers()` while a marker is set and a process is running
(on a loaded file) sets both markers to -1 and its effects hold exactly one
stop followed by one start; when both markers are already -1 it changes no
setting, no preference, not the process and not the restart flag, and only
emits `ABMarkersChanged(-1, -1)`. -/
theorem clearABMarkers_cycle (s : Core) :
    (s.proc.running = true → s.mdat.filename ≠ "" →
      (s.mset.A_marker ≠ -1 ∨ s.mset.B_marker ≠ -1) →
        (clearABMarkers s).mset.A_marker = -1 ∧
        (clearABMarkers s).mset.B_marker = -1 ∧
        (clearABMarkers s).we_are_restarting = true ∧
        (clearABMarkers s).log =
          s.log ++ (displayMessageEvents .ab_markers_cleared s ++ restartEvents s ++
            [Event.emit (.ABMarkersChanged (-1) (-1))]) ∧
        oneStopThenStart (displayMessageEvents .ab_markers_cleared s ++ restartEvents s ++
            [Event.emit (.ABMarkersChanged (-1) (-1))])) ∧
    (s.mset.A_marker = -1 → s.mset.B_marker = -1 →
        (clearABMarkers s).mset = s.mset ∧
        (clearABMarkers s).pref = s.pref ∧
        (clearABMarkers s).proc = s.proc ∧
        (clearABMarkers s).we_are_restarting = s.we_are_restarting ∧
        (clearABMarkers s).log = s.log ++ [Event.emit (.ABMarkersChanged (-1) (-1))]) := by
  constructor
  · intro hr hf hm
    rw [clearABMarkers_restart s hr hf hm]
    refine ⟨rfl, rfl, rfl, rfl, ?_⟩
    exact oneStopThenStart_wrap _ _ _ (restartEvents_oneStopThenStart s)
      (displayMessageEvents_benign _ s) (emit_benign _)
  · intro ha hb
    rw [clearABMarkers_unset s ha hb]
    exact ⟨rfl, rfl, rfl, rfl, rfl⟩

theorem clearABMarkers_cycle_witness :
    ((clearABMarkers markedCore).mset.A_marker = -1 ∧
      (clearABMarkers markedCore).mset.B_marker = -1 ∧
      (clearABMarkers markedCore).we_are_restarting = true ∧
      (clearABMarkers markedCore).log =
        markedCore.log ++ (displayMessageEvents .ab_markers_cleared markedCore ++
          restartEvents markedCore ++ [Event.emit (.ABMarkersChanged (-1) (-1))]) ∧
      oneStopThenStart (displayMessageEvents .ab_markers_cleared markedCore ++
          restartEvents markedCore ++ [Event.emit (.ABMarkersChanged (-1) (-1))])) ∧
    ((clearABMarkers sampleCore).mset = sampleCore.mset ∧
      (clearABMarkers sampleCore).pref = sampleCore.pref ∧
      (clearABMarkers sampleCore).proc = sampleCore.proc ∧
      (clearABMarkers sampleCore).we_are_restarting = sampleCore.we_are_restarting ∧
      (clearABMarkers sampleCore).log =
        sampleCore.log ++ [Event.emit (.ABMarkersChanged (-1) (-1))]) :=
  ⟨(clearABMarkers_cycle markedCore).1 (by decide) (by decide) (by decide),
    (clearABMarkers_cycle sampleCore).2 (by decide) (by decide)⟩

/-- C15: for every session, `fileReachedEnd` sets the remembered position to
0, its effects are the widget update and exactly one `mediaFinished`, and it
starts or restarts nothing (process, restart flag and state are untouched). -/
theorem fileReachedEnd_effect (s : Core) :
    (fileReachedEnd s).mset.current_sec = 0 ∧
    (fileReachedEnd s).log =
      s.log ++ [Event.emit .widgetsNeedUpdate, Event.emit .mediaFinished] ∧
    (fileReachedEnd s).proc = s.proc ∧
    (fileReachedEnd s).we_are_restarting = s.we_are_restarting ∧
    (fileReachedEnd s).state = s.state := by
  simp [fileReachedEnd, updateWidgets_eq, Core.record]

theorem stopMplayer_eq (s : Core) :
    stopMplayer s =
      { s with
        proc := { s.proc with running := false }
        log := s.log ++
          (if s.proc.running then
            [Event.writeToStdin .quit, Event.waitForFinished] ++
              (if s.proc.finishesOnQuit then [] else [Event.kill])
           else []) } := by
  obtain ⟨mdat, mset, pref, st, r, jl, ju, cv, isub, ls, proc, log⟩ := s
  obtain ⟨running, fq, ss⟩ := proc
  cases running <;> cases fq <;> simp [stopMplayer, tellmp, Core.record]

theorem stop_eq (cfg : Config) (s : Core) :
    stop cfg s =
      { s with
        mset := if s.state = State.Stopped then { s.mset with current_sec := 0 } else s.mset
        proc := { s.proc with running := false }
        log := s.log ++ (stopEvents cfg s ++ [Event.emit .mediaStoppedByUser]) } := by
  simp only [stop, stopMplayer_eq, Core.record, stopEvents]
  by_cases h : s.state = State.Stopped
  · cases hc : cfg.SEEKBAR_RESOLUTION <;> simp [h, hc, List.append_assoc]
  · simp [h, List.append_assoc]

theorem stateChangedCount_append (a b : List Event) :
    stateChangedCount (a ++ b) = stateChangedCount a + stateChangedCount b := by
  simp [stateChangedCount, List.countP_append]

theorem setState_eq (st : State) (s : Core) :
    setState st s =
      if st = s.state then s
      else
        { s with
          state := st
          change_volume_after_unpause :=
            if st = State.Playing then false else s.change_volume_after_unpause
          log := s.log ++ setStateEvents st s } := by
  obtain ⟨mdat, mset, pref, st0, r, jl, ju, cv, isub, ls, proc, log⟩ := s
  by_cases h : st = st0
  · simp [setState, h]
  · cases cv <;> by_cases hp : st = State.Playing <;>
      simp [setState, watchState, tellmp_eq, Core.record, setStateEvents, effectiveVolume, h, hp]

theorem setState_state (st : State) (s : Core) : (setState st s).state = st := by
  rw [setState_eq]
  by_cases h : st = s.state
  · rw [if_pos h]; exact h.symm
  · rw [if_neg h]

theorem setStateEvents_count (st : State) (s : Core) :
    stateChangedCount (setStateEvents st s) = 1 := by
  unfold setStateEvents stateChangedCount
  split_ifs <;> simp [List.countP_cons]

theorem setState_count (st : State) (s : Core) :
    stateChangedCount (setState st s).log =
      stateChangedCount s.log + (if st = s.state then 0 else 1) := by
  rw [setState_eq]
  by_cases h : st = s.state
  · rw [if_pos h, if_pos h]; rfl
  · rw [if_neg h, if_neg h]
    show stateChangedCount (s.log ++ setStateEvents st s) = _
    rw [stateChangedCount_append, setStateEvents_count]

theorem stopEvents_no_stoppedByUser (cfg : Config) (s : Core) :
    Event.emit .mediaStoppedByUser ∉ stopEvents cfg s := by
  unfold stopEvents
  cases cfg.SEEKBAR_RESOLUTION <;> split_ifs <;> simp

/-- C16: `stop()` emits `mediaStoppedByUser` exactly once, as its last
effect, in every state; it sets the remembered position to 0 when the state is
`Stopped` and leaves it unchanged otherwise; no process is running
afterwards. -/
theorem stop_effect (cfg : Config) (s : Core) :
    (stop cfg s).log = s.log ++ (stopEvents cfg s ++ [Event.emit .mediaStoppedByUser]) ∧
    Event.emit .mediaStoppedByUser ∉ stopEvents cfg s ∧
    (stop cfg s).mset.current_sec =
      (if s.state = State.Stopped then 0 else s.mset.current_sec) ∧
    (stop cfg s).proc.running = false ∧
    (stop cfg s).state = s.state := by
  rw [stop_eq]
  refine ⟨rfl, stopEvents_no_stoppedByUser cfg s, ?_, rfl, rfl⟩
  by_cases h : s.state = State.Stopped
  · simp [h]
  · simp [h]

theorem changeCurrentSec_split (cfg : Config) (sec : ℚ) (s : Core) :
    changeCurrentSec cfg sec s = changeCurrentSecReport cfg sec (changeCurrentSecState sec s) :=
  rfl

theorem setPlaying_state (t : Core) :
    (if t.state ≠ State.Playing then setState State.Playing t else t).state = State.Playing := by
  by_cases h : t.state = State.Playing
  · simp [h]
  · rw [if_pos h]; exact setState_state _ _

theorem setPlaying_count (t : Core) :
    stateChangedCount (if t.state ≠ State.Playing then setState State.Playing t else t).log =
      stateChangedCount t.log + (if t.state = State.Playing then 0 else 1) := by
  by_cases h : t.state = State.Playing
  · simp [h]
  · have h2 : ¬ State.Playing = t.state := fun e => h e.symm
    rw [if_pos h, setState_count, if_neg h2, if_neg h]

theorem changeCurrentSecState_state (sec : ℚ) (s : Core) :
    (changeCurrentSecState sec s).state = State.Playing := by
  unfold changeCurrentSecState
  exact setPlaying_state _

theorem changeCurrentSecState_count (sec : ℚ) (s : Core) :
    stateChangedCount (changeCurrentSecState sec s).log =
      stateChangedCount s.log + (if s.state = State.Playing then 0 else 1) := by
  unfold changeCurrentSecState
  refine (setPlaying_count _).trans ?_
  by_cases h1 : s.mset.starting_time = -1 <;> simp [h1]

theorem changeCurrentSecReport_state (cfg : Config) (sec : ℚ) (s : Core) :
    (changeCurrentSecReport cfg sec s).state = s.state := by
  unfold changeCurrentSecReport
  cases cfg.SEEKBAR_RESOLUTION <;>
    simp [updateChapter, updateWidgets_eq, Core.record] <;>
    split_ifs <;> simp

theorem changeCurrentSecReport_count (cfg : Config) (sec : ℚ) (s : Core) :
    stateChangedCount (changeCurrentSecReport cfg sec s).log = stateChangedCount s.log := by
  unfold changeCurrentSecReport
  cases cfg.SEEKBAR_RESOLUTION <;>
    simp [updateChapter, updateWidgets_eq, Core.record] <;>
    split_ifs <;> simp [stateChangedCount, List.countP_append, List.countP_cons]

theorem changeCurrentSec_state (cfg : Config) (sec : ℚ) (s : Core) :
    (changeCurrentSec cfg sec s).state = State.Playing := by
  rw [changeCurrentSec_split, changeCurrentSecReport_state, changeCurrentSecState_state]

theorem changeCurrentSec_count (cfg : Config) (sec : ℚ) (s : Core) :
    stateChangedCount (changeCurrentSec cfg sec s).log =
      stateChangedCount s.log + (if s.state = State.Playing then 0 else 1) := by
  rw [changeCurrentSec_split, changeCurrentSecReport_count, changeCurrentSecState_count]

/-- C17: after `changePause` the state is `Paused`, after `changeCurrentSec`
it is `Playing`, whatever the state before; each of them adds one
`stateChanged` signal when the state value changes and none when it does
not. -/
theorem pause_and_time_notifications (cfg : Config) (sec : ℚ) (s : Core) :
    (changePause s).state = State.Paused ∧
    stateChangedCount (changePause s).log =
      stateChangedCount s.log + (if s.state = State.Paused then 0 else 1) ∧
    (changeCurrentSec cfg sec s).state = State.Playing ∧
    stateChangedCount (changeCurrentSec cfg sec s).log =
      stateChangedCount s.log + (if s.state = State.Playing then 0 else 1) := by
  refine ⟨setState_state _ s, ?_, changeCurrentSec_state cfg sec s,
    changeCurrentSec_count cfg sec s⟩
  have h := setState_count State.Paused s
  simpa [changePause, eq_comm] using h

theorem processFinished_eq (exit_code : Int) (s : Core) :
    processFinished exit_code s =
      (if exit_code ≠ 0 then
        (if ¬ s.we_are_restarting then setState State.Stopped s else s).record
          (.emit (.mplayerFinishedWithError exit_code))
       else (if ¬ s.we_are_restarting then setState State.Stopped s else s)) :=
  rfl

theorem processFinished_state (exit_code : Int) (s : Core) :
    (processFinished exit_code s).state =
      (if s.we_are_restarting then s.state else State.Stopped) := by
  rw [processFinished_eq]
  cases h : s.we_are_restarting <;> by_cases hc : exit_code = 0 <;>
    simp [hc, Core.record, setState_state]

/-- After `stop()` and `processFinished` the state is `Stopped` exactly when
no restart was under way; otherwise it is the state before. -/
theorem stop_processFinished_state (cfg : Config) (exit_code : Int) (s : Core) :
    (processFinished exit_code (stop cfg s)).state =
      (if s.we_are_restarting then s.state else State.Stopped) := by
  rw [processFinished_state, stop_eq]

/-- C18 fails on the code: the sample session in the middle of a restart is
`Playing` with a running process, and after `stop()` and the delivery of
`processFinished` it is still `Playing`. -/
theorem stop_while_restarting_stays_playing :
    restartingCore.state = State.Playing ∧
    restartingCore.proc.running = true ∧
    restartingCore.we_are_restarting = true ∧
    (processFinished 0 (stop sampleConfig restartingCore)).state = State.Playing := by
  decide

/-- C19: on `processFinished` while not restarting the state becomes
`Stopped`, and the signal `mplayerFinishedWithError` is among the effects
exactly when the exit code is not zero, with that exit code. -/
theorem processFinished_not_restarting (exit_code : Int) (s : Core)
    (h : s.we_are_restarting = false) :
    (processFinished exit_code s).state = State.Stopped ∧
    (processFinished exit_code s).log = s.log ++ processFinishedEvents exit_code s ∧
    (∀ c, Event.emit (.mplayerFinishedWithError c) ∈ processFinishedEvents exit_code s ↔
      (exit_code ≠ 0 ∧ c = exit_code)) := by
  refine ⟨?_, ?_, ?_⟩
  · rw [processFinished_state, h]; rfl
  · have e : (if ¬ s.we_are_restarting then setState State.Stopped s else s) =
        setState State.Stopped s := by simp [h]
    rw [processFinished_eq, e, setState_eq]
    by_cases hs : State.Stopped = s.state
    · have hs2 : s.state = State.Stopped := hs.symm
      rw [if_pos hs]
      by_cases hc : exit_code = 0 <;> simp [hs2, hc, Core.record, processFinishedEvents]
    · have hs2 : ¬ s.state = State.Stopped := fun e => hs e.symm
      rw [if_neg hs]
      by_cases hc : exit_code = 0 <;>
        simp [hs2, hc, Core.record, processFinishedEvents, setStateEvents]
  · intro c
    unfold processFinishedEvents
    by_cases hs : s.state = State.Stopped <;> by_cases hc : exit_code = 0 <;>
      simp [hs, hc]

theorem processFinished_not_restarting_witness :
    (processFinished 1 sampleCore).state = State.Stopped ∧
    (processFinished 1 sampleCore).log =
      sampleCore.log ++ processFinishedEvents 1 sampleCore ∧
    (∀ c, Event.emit (.mplayerFinishedWithError c) ∈ processFinishedEvents 1 sampleCore ↔
      ((1 : Int) ≠ 0 ∧ c = 1)) :=
  processFinished_not_restarting 1 sampleCore (by decide)

/-- C20: when the locator (after the conversion of a `file:` URL) names an
existing file whose suffix is `iso` in any case, `open()` calls `openDVD`
with the disc locator of title 0 (navigation build) or 1, and never
`openFile`. -/
theorem open_iso_dispatches_to_openDVD (cfg : Config) (env : Env) (p : Preferences)
    (file : String) (seek : Int)
    (h : env.fileExists (if startsWith file "file:" then env.toLocalFile file else file) = true ∧
      env.toLower (env.suffix (if startsWith file "file:" then env.toLocalFile file else file))
        = "iso") :
    openCall cfg env p file seek =
      .openDVD (env.DiscName_joinDVD (if cfg.DVDNAV_SUPPORT then 0 else 1)
        (if startsWith file "file:" then env.toLocalFile file else file)
        (cfg.DVDNAV_SUPPORT && p.use_dvdnav)) ∧
    ∀ filename seek2, openCall cfg env p file seek ≠ .openFile filename seek2 := by
  have e : openCall cfg env p file seek =
      .openDVD (env.DiscName_joinDVD (if cfg.DVDNAV_SUPPORT then 0 else 1)
        (if startsWith file "file:" then env.toLocalFile file else file)
        (cfg.DVDNAV_SUPPORT && p.use_dvdnav)) := by
    unfold openCall
    simp only []
    rw [if_pos h]
    cases cfg.DVDNAV_SUPPORT <;> simp
  refine ⟨e, ?_⟩
  intro filename seek2
  rw [e]
  exact fun hc => OpenCall.noConfusion hc

theorem open_iso_dispatches_to_openDVD_witness :
    openCall sampleConfig sampleEnv samplePreferences "/tmp/movie.iso" 0 =
      .openDVD (sampleEnv.DiscName_joinDVD (if sampleConfig.DVDNAV_SUPPORT then 0 else 1)
        (if startsWith "/tmp/movie.iso" "file:" then
          sampleEnv.toLocalFile "/tmp/movie.iso" else "/tmp/movie.iso")
        (sampleConfig.DVDNAV_SUPPORT && samplePreferences.use_dvdnav)) ∧
    ∀ filename seek2, openCall sampleConfig sampleEnv samplePreferences "/tmp/movie.iso" 0 ≠
      .openFile filename seek2 :=
  open_iso_dispatches_to_openDVD sampleConfig sampleEnv samplePreferences "/tmp/movie.iso" 0
    (by decide)

/-- C21, as stated, fails: when the parsed title is -2, a negative number other
than the marker -1, `openDVD` stops the running process, replaces descriptor
and settings, and starts a process. -/
theorem openDVD_negative_title_proceeds :
    (negativeTitleEnv.DiscName_split "dvd://-2").title < 0 ∧
    Event.writeToStdin .quit ∈ (openDVD sampleConfig negativeTitleEnv "dvd://-2" sampleCore).log ∧
    Event.start ∈ (openDVD sampleConfig negativeTitleEnv "dvd://-2" sampleCore).log ∧
    (openDVD sampleConfig negativeTitleEnv "dvd://-2" sampleCore).mset ≠ sampleCore.mset ∧
    (openDVD sampleConfig negativeTitleEnv "dvd://-2" sampleCore).mdat ≠ sampleCore.mdat := by
  decide

/-- C21, amended: `openDVD(url)` on a disc locator whose parsed title is the
invalid-title marker -1 is a no-op: the session is unchanged, so nothing is
stopped, persisted, reset or started. -/
theorem openDVD_invalid_title (cfg : Config) (env : Env) (dvd_url : String) (s : Core)
    (h : (env.DiscName_split dvd_url).title = -1) :
    openDVD cfg env dvd_url s = s := by
  unfold openDVD
  simp only [h, if_true]

/-- C21 at a concrete input: the locator `dvd://` of the sample environment. -/
theorem openDVD_invalid_title_witness :
    openDVD sampleConfig sampleEnv "dvd://" sampleCore = sampleCore :=
  openDVD_invalid_title sampleConfig sampleEnv "dvd://" sampleCore (by decide)

/-- C22 fails on the code: on the sample session, with a running process,
`changeAudio`, `changeVideo` and `changeProgram` called with the sentinel
`NoneSelected` write it to the decoder in `switch_audio`, `switch_video` and
`switch_program`. -/
theorem changeAudio_sends_NoneSelected :
    sampleCore.proc.running = true ∧
    Event.writeToStdin (.switch_audio sampleSettingsConstants.NoneSelected) ∈
      (changeAudio sampleSettingsConstants.NoneSelected true sampleCore).log ∧
    Event.writeToStdin (.switch_video sampleSettingsConstants.NoneSelected) ∈
      (changeVideo sampleSettingsConstants.NoneSelected false sampleCore).log ∧
    Event.writeToStdin (.switch_program sampleSettingsConstants.NoneSelected) ∈
      (changeProgram sampleSettingsConstants.NoneSelected sampleCore).log := by
  decide

/-- C23, as stated, fails: no snapshot is stored for `/tmp/other.mkv`, and after
`playNewFile` the volume is the 50 of the previous media, not the reset
default 40. -/
theorem playNewFile_keeps_volume :
    sampleEnv.existSettingsFor "/tmp/other.mkv" = false ∧
    (playNewFile sampleConfig sampleEnv "/tmp/other.mkv" (-1) sampleCore).mset.volume = 50 ∧
    sampleEnv.mset_reset.volume = 40 := by
  decide

theorem saveMediaInfo_eq (s : Core) :
    saveMediaInfo s = { s with log := s.log ++ saveMediaInfoEvents s } := by
  unfold saveMediaInfo saveMediaInfoEvents
  split_ifs <;> simp [Core.record]

theorem initPlaying_mset (seek : Int) (s : Core) (hf : s.mdat.filename ≠ "") :
    (initPlaying seek s).mset = restartSettings s := by
  obtain ⟨mdat, mset, pref, st, r, jl, ju, cv, isub, ls, proc, log⟩ := s
  obtain ⟨running, fq, ss⟩ := proc
  simp only at hf
  cases running <;> cases fq <;>
    simp [initPlaying, stopMplayer, startMplayer, tellmp, Core.record, restartSettings, hf] <;>
    split_ifs <;> simp_all

theorem playNewFile_eq (cfg : Config) (env : Env) (file : String) (seek : Int) (s : Core)
    (h : cfg.NO_USE_INI_FILES = true ∨ env.existSettingsFor file = false ∨
      s.pref.dont_remember_media_settings = true) :
    playNewFile cfg env file seek s =
      initPlaying seek (playNewFileReset cfg env file
        (cfg.NO_USE_INI_FILES || !env.existSettingsFor file) s) := by
  obtain ⟨mdat, mset, pref, st, r, jl, ju, cv, isub, ls, proc, log⟩ := s
  obtain ⟨running, fq, ss⟩ := proc
  simp only at h
  simp only [playNewFile, playNewFileReset, stopMplayer_eq, saveMediaInfo_eq]
  cases hn : cfg.NO_USE_INI_FILES <;> cases he : env.existSettingsFor file <;>
    cases hd : pref.dont_remember_media_settings <;> cases running <;>
    simp_all [saveMediaInfoEvents]

/-- C23, amended: after `playNewFile` on a file name that is not empty, when no
persisted snapshot is read (the build has no settings files, or none is stored
for the file, or remembering is switched off), the settings are the reset
defaults whatever the settings of the previous media were, except that the
volume of the previous media is kept when the build has no settings files or
none is stored for the file, and except for the two assignments of
`startMplayer` (chapter 0, a pending initial subtitle file). -/
theorem playNewFile_fresh_settings (cfg : Config) (env : Env) (file : String) (seek : Int)
    (s : Core) (hf : file ≠ "")
    (h : cfg.NO_USE_INI_FILES = true ∨ env.existSettingsFor file = false ∨
      s.pref.dont_remember_media_settings = true) :
    (playNewFile cfg env file seek s).mset =
      { env.mset_reset with
        volume :=
          if cfg.NO_USE_INI_FILES = true ∨ env.existSettingsFor file = false then s.mset.volume
          else env.mset_reset.volume
        current_chapter_id := 0
        external_subtitles :=
          if s.initial_subtitle ≠ "" then s.initial_subtitle
          else env.mset_reset.external_subtitles } := by
  rw [playNewFile_eq cfg env file seek s h, initPlaying_mset _ _ (by exact hf)]
  cases hn : cfg.NO_USE_INI_FILES <;> cases he : env.existSettingsFor file <;>
    simp [restartSettings, playNewFileReset]

/-- C23 at a concrete input: a new file without a stored snapshot. -/
theorem playNewFile_fresh_settings_witness :
    (playNewFile sampleConfig sampleEnv "/tmp/other.mkv" (-1) sampleCore).mset =
      { sampleEnv.mset_reset with
        volume :=
          if sampleConfig.NO_USE_INI_FILES = true ∨
              sampleEnv.existSettingsFor "/tmp/other.mkv" = false then sampleCore.mset.volume
          else sampleEnv.mset_reset.volume
        current_chapter_id := 0
        external_subtitles :=
          if sampleCore.initial_subtitle ≠ "" then sampleCore.initial_subtitle
          else sampleEnv.mset_reset.external_subtitles } :=
  playNewFile_fresh_settings sampleConfig sampleEnv "/tmp/other.mkv" (-1) sampleCore
    (by decide) (by decide)

theorem setVolume_tracks (v : Int) (force : Bool) (s : Core) :
    (setVolume v force s).mdat = s.mdat ∧
    (setVolume v force s).mset.current_audio_id = s.mset.current_audio_id := by
  by_cases h : v = (if s.pref.global_volume then s.pref.volume else s.mset.volume) ∧ force = false
  · simp [setVolume, h]
  · simp only [setVolume, h, if_false]
    simp [tellmp_eq, displayMessage_eq, updateWidgets_eq, Core.record,
      Core.mdat_ite, Core.mset_ite, Core.pref_ite, Core.state_ite, Core.proc_ite, Core.log_ite]
    split_ifs <;> simp

theorem mute_tracks (b : Bool) (s : Core) :
    (mute b s).mdat = s.mdat ∧
    (mute b s).mset.current_audio_id = s.mset.current_audio_id := by
  simp only [mute, tellmp_eq, updateWidgets_eq]
  split_ifs <;> simp

theorem changeAudio_tracks (ID : Int) (allow_restart : Bool) (s : Core) :
    (changeAudio ID allow_restart s).mdat = s.mdat ∧
    (changeAudio ID allow_restart s).mset.current_audio_id = ID := by
  unfold changeAudio
  by_cases h : ID = s.mset.current_audio_id
  · simp [h]
  · simp only [h, ne_eq, not_false_eq_true, if_true, updateWidgets_eq, tellmp_eq]
    split_ifs <;>
      simp [(mute_tracks _ _).1, (mute_tracks _ _).2, (setVolume_tracks _ _ _).1,
        (setVolume_tracks _ _ _).2]

theorem itemAt_zero {α : Type} (items : List α) : itemAt items 0 = items.head? := by
  cases items <;> simp [itemAt]

theorem itemAt_isSome {α : Type} (items : List α) (n : Int) :
    (itemAt items n).isSome = existsItemAt items n := by
  unfold itemAt existsItemAt
  by_cases h : n < 0
  · have h2 : ¬ (0 ≤ n) := by omega
    simp [h, h2]
  · have h2 : 0 ≤ n := by omega
    by_cases h3 : n < (items.length : Int)
    · have h4 : n.toNat < items.length := by omega
      simp [h, h2, h3, List.get?_eq_getElem?, h4]
    · have h4 : ¬ n.toNat < items.length := by omega
      simp [h, h3, List.get?_eq_getElem?]
      omega

theorem initialAudio_eq_preferredAudio (env : Env) (p : Preferences) (audios : List Track)
    (hne : audios ≠ []) (hid : ∀ t ∈ audios, t.ID ≠ -1) :
    initialAudio env p audios = preferredAudio env p audios := by
  unfold initialAudio preferredAudio findLang
  rw [itemAt_zero]
  obtain ⟨first, rest, rfl⟩ := List.exists_cons_of_ne_nil hne
  simp only [List.head?_cons, Option.map_some']
  by_cases hl : p.audio_lang = ""
  · simp only [hl, ne_eq, not_true_eq_false, if_false]
    cases he : itemAt (first :: rest) (p.initial_audio_track - 1) with
    | none =>
      have : existsItemAt (first :: rest) (p.initial_audio_track - 1) = false := by
        rw [← itemAt_isSome, he]; rfl
      simp [this]
    | some t =>
      have : existsItemAt (first :: rest) (p.initial_audio_track - 1) = true := by
        rw [← itemAt_isSome, he]; rfl
      simp [this]
  · simp only [hl, ne_eq, not_false_eq_true, if_true]
    cases hf : (first :: rest).find? fun t => env.langMatches p.audio_lang t.lang with
    | none =>
      simp only [ne_eq, not_true_eq_false, if_false]
      cases he : itemAt (first :: rest) (p.initial_audio_track - 1) with
      | none =>
        have : existsItemAt (first :: rest) (p.initial_audio_track - 1) = false := by
          rw [← itemAt_isSome, he]; rfl
        simp [this]
      | some t =>
        have : existsItemAt (first :: rest) (p.initial_audio_track - 1) = true := by
          rw [← itemAt_isSome, he]; rfl
        simp [this]
    | some t =>
      have hmem : t ∈ first :: rest := List.mem_of_find?_eq_some hf
      have hne1 : t.ID ≠ -1 := hid t hmem
      simp [hne1]

theorem changeSubVisibility_mset (b : Bool) (s : Core) :
    (changeSubVisibility b s).mset = s.mset ∧ (changeSubVisibility b s).mdat = s.mdat := by
  simp only [changeSubVisibility, tellmp_eq, displayMessage_eq, updateWidgets_eq]
  split_ifs <;> simp

theorem changeSubtitle_tracks (k : SettingsConstants) (ID : Int) (s : Core) :
    (changeSubtitle k ID s).mset.current_sub_id = ID ∧
    (changeSubtitle k ID s).mdat = s.mdat := by
  unfold changeSubtitle
  simp only [updateWidgets_eq, tellmp_eq]
  split_ifs <;> (try split) <;> (try split) <;>
    simp [(changeSubVisibility_mset _ _).1, (changeSubVisibility_mset _ _).2]

/-- C24: on first load (no audio track selected yet) with a track list that is
not empty and whose IDs are decoder IDs (none is -1), the audio ID selected,
by `newMediaPlaying` and by `initAudioTrack`, is the ID of the first track
that matches the language preference when one is set and matches, else the
ID of the track at position `initial_audio_track - 1` when it exists, else the
ID of the first track; the track list is the one given. -/
theorem initial_audio_selection (k : SettingsConstants) (env : Env) (audios : List Track)
    (s : Core) (hsel : s.mset.current_audio_id = k.NoneSelected) (hne : audios ≠ [])
    (hid : ∀ t ∈ audios, t.ID ≠ -1) :
    (preferredAudio env s.pref audios =
        some (newMediaPlayingAudio k env { s with mdat.audios := audios }).mset.current_audio_id ∧
      (newMediaPlayingAudio k env { s with mdat.audios := audios }).mdat.audios = audios) ∧
    (∃ s', initAudioTrack k env audios { s with mdat.audios := [] } = some s' ∧
      preferredAudio env s.pref audios = some s'.mset.current_audio_id ∧
      s'.mdat.audios = audios) := by
  have hp := initialAudio_eq_preferredAudio env s.pref audios hne hid
  obtain ⟨first, rest, rfl⟩ := List.exists_cons_of_ne_nil hne
  have hsome : ∃ a, initialAudio env s.pref (first :: rest) = some a := by
    unfold initialAudio
    rw [itemAt_zero]
    exact ⟨_, rfl⟩
  obtain ⟨a, ha⟩ := hsome
  constructor
  · unfold newMediaPlayingAudio
    simp only [hsel, List.length_cons, gt_iff_lt, Nat.zero_lt_succ, and_self, if_true, ha]
    rw [← hp, ha]
    exact ⟨by rw [(changeAudio_tracks _ _ _).2], by rw [(changeAudio_tracks _ _ _).1]⟩
  · unfold initAudioTrack initializeMenus
    simp only [hsel, List.length_nil, gt_iff_lt, lt_self_iff_false, ne_eq, not_true_eq_false,
      or_self, decide_False, Bool.false_eq_true, not_false_eq_true, if_true, Core.record, ha]
    refine ⟨_, rfl, ?_, ?_⟩
    · rw [← hp, ha]
      simp [updateWidgets_eq, (changeAudio_tracks _ _ _).2]
    · simp [updateWidgets_eq, (changeAudio_tracks _ _ _).1]

/-- C24 at a concrete input: the two audio tracks of the sample session, French preferred. -/
theorem initial_audio_selection_witness :
    (preferredAudio sampleEnv firstAudioCore.pref sampleCore.mdat.audios =
        some (newMediaPlayingAudio sampleSettingsConstants sampleEnv
          { firstAudioCore with mdat.audios := sampleCore.mdat.audios }).mset.current_audio_id ∧
      (newMediaPlayingAudio sampleSettingsConstants sampleEnv
        { firstAudioCore with mdat.audios := sampleCore.mdat.audios }).mdat.audios =
          sampleCore.mdat.audios) ∧
    (∃ s', initAudioTrack sampleSettingsConstants sampleEnv sampleCore.mdat.audios
        { firstAudioCore with mdat.audios := [] } = some s' ∧
      preferredAudio sampleEnv firstAudioCore.pref sampleCore.mdat.audios =
        some s'.mset.current_audio_id ∧
      s'.mdat.audios = sampleCore.mdat.audios) :=
  initial_audio_selection sampleSettingsConstants sampleEnv sampleCore.mdat.audios
    firstAudioCore (by decide) (by decide) (by decide)

theorem findIdx_isFirstPosition {α : Type} (p : α → Bool) (q : α → Prop)
    (hpq : ∀ d, p d = true ↔ q d) (items : List α) (h : ∃ d ∈ items, q d) :
    items.findIdx p < items.length ∧ isFirstPosition q items (items.findIdx p : Int) := by
  have hlt : items.findIdx p < items.length := by
    apply List.findIdx_lt_length_of_exists
    obtain ⟨d, hd, hq⟩ := h
    exact ⟨d, hd, (hpq d).2 hq⟩
  refine ⟨hlt, ⟨items[items.findIdx p], ?_, ?_⟩, ?_⟩
  · simp [itemAt, List.get?_eq_getElem?, hlt]
  · exact (hpq _).1 List.findIdx_getElem
  · intro j hj d hd hq
    unfold itemAt at hd
    by_cases hneg : j < 0
    · simp [hneg] at hd
    · rw [if_neg hneg, List.get?_eq_getElem?] at hd
      have hjn : j.toNat < items.findIdx p := by omega
      have hjl : j.toNat < items.length := lt_trans hjn hlt
      rw [List.getElem?_eq_getElem hjl] at hd
      have hfalse := List.not_of_lt_findIdx hjn
      have hd2 : items[j.toNat] = d := by simpa using hd
      rw [hd2] at hfalse
      have := (hpq d).2 hq
      rw [this] at hfalse
      exact absurd hfalse (by decide)

theorem findIdx_not_lt {α : Type} (p : α → Bool) (q : α → Prop)
    (hpq : ∀ d, p d = true ↔ q d) (items : List α) (h : ¬ ∃ d ∈ items, q d) :
    ¬ items.findIdx p < items.length := by
  intro hlt
  obtain ⟨d, hd, hp⟩ := List.findIdx_lt_length.1 hlt
  exact h ⟨d, hd, (hpq d).1 hp⟩

theorem SubTracks.selectOne_autoSelected (k : SettingsConstants) (subs : List SubData)
    (lang : String) (initial : Int) (prefer_external : Bool) :
    autoSelected k subs lang initial prefer_external
      (SubTracks.selectOne k subs lang initial prefer_external) := by
  unfold autoSelected
  refine ⟨?_, ?_, ?_⟩
  · intro hpe hl hex
    have key := findIdx_isFirstPosition
      (fun (d : SubData) => decide (d.type = SubType.File) && decide (lang ≠ "" ∧ d.lang = lang))
      (fun d => d.type = SubType.File ∧ d.lang = lang) (by intro d; simp [hl]) subs hex
    unfold SubTracks.selectOne
    simp only []
    rw [if_pos ⟨hpe, key.1⟩]
    exact key.2
  · intro hno hl hex
    have key := findIdx_isFirstPosition
      (fun (d : SubData) => decide (lang ≠ "" ∧ d.lang = lang))
      (fun d => d.lang = lang) (by intro d; simp [hl]) subs hex
    have hfile : ¬ (prefer_external = true ∧
        subs.findIdx (fun (d : SubData) =>
          decide (d.type = SubType.File) && decide (lang ≠ "" ∧ d.lang = lang)) < subs.length) := by
      rintro ⟨hpe, hlt⟩
      rcases hno with hno | hno
      · rw [hno] at hpe
        exact absurd hpe (by decide)
      · exact findIdx_not_lt _ (fun d => d.type = SubType.File ∧ d.lang = lang)
          (by intro d; simp [hl]) subs hno hlt
    unfold SubTracks.selectOne
    simp only []
    rw [if_neg hfile, if_pos key.1]
    exact key.2
  · intro hno
    have hm : ¬ subs.findIdx (fun (d : SubData) => decide (lang ≠ "" ∧ d.lang = lang)) <
        subs.length := by
      intro hlt
      obtain ⟨d, hd, hp⟩ := List.findIdx_lt_length.1 hlt
      simp only [decide_eq_true_eq] at hp
      rcases hno with hno | hno
      · exact hp.1 hno
      · exact hno ⟨d, hd, hp.2⟩
    have hfile : ¬ (prefer_external = true ∧
        subs.findIdx (fun (d : SubData) =>
          decide (d.type = SubType.File) && decide (lang ≠ "" ∧ d.lang = lang)) < subs.length) := by
      rintro ⟨_, hlt⟩
      obtain ⟨d, hd, hp⟩ := List.findIdx_lt_length.1 hlt
      simp only [Bool.and_eq_true, decide_eq_true_eq] at hp
      rcases hno with hno | hno
      · exact hp.2.1 hno
      · exact hno ⟨d, hd, hp.2.2⟩
    unfold SubTracks.selectOne
    simp only []
    rw [if_neg hfile, if_neg hm]
    constructor
    · intro hi
      rw [if_pos (by simpa [existsItemAt] using hi)]
    · intro hi
      rw [if_neg (by simpa [existsItemAt] using hi)]

theorem initSubtitleTrackStore_first (k : SettingsConstants) (env : Env) (subs : List SubData)
    (type : SubType) (ID : Int) (s : Core) (hl : s.just_loaded_external_subs = false) :
    (initSubtitleTrackStore k env subs false type ID s).mset.current_sub_id =
      (if s.pref.autoload_sub then
        SubTracks.selectOne k subs s.pref.subtitle_lang (s.pref.initial_subtitle_track - 1)
          s.pref.prefer_external
       else k.SubNone) ∧
    (initSubtitleTrackStore k env subs false type ID s).mdat.subs = subs := by
  obtain ⟨mdat, mset, pref, st, r, jl, ju, cv, isub, ls, proc, log⟩ := s
  simp only at hl
  subst hl
  cases ju <;>
    simp only [initSubtitleTrackStore, initSubtitleTrackSelect, initializeMenus, Core.record,
      updateWidgets_eq, Bool.false_eq_true, if_false, if_true, false_and, or_self, or_false,
      false_or, not_false_eq_true, ite_self] <;>
    split_ifs <;>
    simp [(changeSubtitle_tracks _ _ _).1, (changeSubtitle_tracks _ _ _).2]

/-- C25: on first load with no external subtitle file pending, subtitle
auto-selection follows the rule `autoSelected`: a language preference that is
matched selects the first matching track (the first matching loaded file when
external files are preferred), else the position `initial_subtitle_track - 1`
is selected when the list has it, else `SubNone`; with auto-load off the
selection is `SubNone`; the track list is the one reported.  This holds for
`newMediaPlaying` (build without subtitle notifications) and for
`initSubtitleTrack` (build with them).  For the tracks `[{0, en}, {1, fr}]`:
language `fr` selects position 1, the track with ID 1; language `de` with
initial track 2 selects position 1; language `en` with initial track 2 selects
position 0. -/
theorem subtitle_auto_selection (k : SettingsConstants) (env : Env) (s : Core)
    (hext : s.mset.external_subtitles = "") :
    (s.pref.autoload_sub = true → s.mset.current_sub_id = k.NoneSelected →
      autoSelected k s.mdat.subs s.pref.subtitle_lang (s.pref.initial_subtitle_track - 1)
        env.prefer_external_default (newMediaPlayingSubtitles k env s).mset.current_sub_id) ∧
    (s.pref.autoload_sub = false →
      (newMediaPlayingSubtitles k env s).mset.current_sub_id = k.SubNone) ∧
    (newMediaPlayingSubtitles k env s).mdat.subs = s.mdat.subs ∧
    (∀ subs, s.mdat.subs = [] → s.mset.current_sub_id = k.NoneSelected →
      s.just_loaded_external_subs = false →
      ∃ s', initSubtitleTrack k env subs s = some s' ∧ s'.mdat.subs = subs ∧
        (s.pref.autoload_sub = true →
          autoSelected k subs s.pref.subtitle_lang (s.pref.initial_subtitle_track - 1)
            s.pref.prefer_external s'.mset.current_sub_id) ∧
        (s.pref.autoload_sub = false → s'.mset.current_sub_id = k.SubNone)) ∧
    (newMediaPlayingSubtitles sampleSettingsConstants sampleEnv
      (firstLoadCore "fr" 1)).mset.current_sub_id = 1 ∧
    (newMediaPlayingSubtitles sampleSettingsConstants sampleEnv
      (firstLoadCore "de" 2)).mset.current_sub_id = 1 ∧
    (newMediaPlayingSubtitles sampleSettingsConstants sampleEnv
      (firstLoadCore "en" 2)).mset.current_sub_id = 0 ∧
    itemAt (firstLoadCore "fr" 1).mdat.subs 1 =
      some { type := .Sub, ID := 1, lang := "fr", filename := "" } := by
  refine ⟨?_, ?_, ?_, ?_, by decide, by decide, by decide, by decide⟩
  · intro ha hn
    have e : (newMediaPlayingSubtitles k env s).mset.current_sub_id =
        SubTracks.selectOne k s.mdat.subs s.pref.subtitle_lang
          (s.pref.initial_subtitle_track - 1) env.prefer_external_default := by
      unfold newMediaPlayingSubtitles
      simp only [hext, ha, hn, if_true]
      exact (changeSubtitle_tracks _ _ _).1
    rw [e]
    exact SubTracks.selectOne_autoSelected _ _ _ _ _
  · intro ha
    unfold newMediaPlayingSubtitles
    simp only [hext, ha, if_true, Bool.false_eq_true, if_false]
    exact (changeSubtitle_tracks _ _ _).1
  · unfold newMediaPlayingSubtitles
    split_ifs <;> simp [(changeSubtitle_tracks _ _ _).2]
  · intro subs hs hn hl
    have key := initSubtitleTrackStore_first k env subs SubType.Sub (-1) s hl
    refine ⟨initSubtitleTrackStore k env subs false SubType.Sub (-1) s, ?_, key.2, ?_, ?_⟩
    · unfold initSubtitleTrack
      simp [hs, hn]
    · intro ha
      rw [key.1, if_pos ha]
      exact SubTracks.selectOne_autoSelected _ _ _ _ _
    · intro ha
      rw [key.1, ha]
      simp

/-- C25 at a concrete input: the sample session at its first load, French
preferred: the selected position is the first one whose track is French,
position 1, the track with ID 1. -/
theorem subtitle_auto_selection_witness :
    isFirstPosition (fun d => d.lang = "fr") (firstLoadCore "fr" 1).mdat.subs
      (newMediaPlayingSubtitles sampleSettingsConstants sampleEnv
        (firstLoadCore "fr" 1)).mset.current_sub_id ∧
    (newMediaPlayingSubtitles sampleSettingsConstants sampleEnv
      (firstLoadCore "fr" 1)).mset.current_sub_id = 1 ∧
    (newMediaPlayingSubtitles sampleSettingsConstants sampleEnv
      (firstLoadCore "fr" 1)).mdat.subs = (firstLoadCore "fr" 1).mdat.subs :=
  ⟨((subtitle_auto_selection sampleSettingsConstants sampleEnv (firstLoadCore "fr" 1)
      (by decide)).1 (by decide) (by decide)).2.1 (by decide) (by decide)
      ⟨{ type := .Sub, ID := 1, lang := "fr", filename := "" }, by decide, rfl⟩,
    by decide, by decide⟩

theorem SubTracks.find_spec (subs : List SubData) (type : SubType) (ID : Int)
    (h : SubTracks.find subs type ID > -1) :
    ∃ d, itemAt subs (SubTracks.find subs type ID) = some d ∧ d.type = type ∧ d.ID = ID := by
  unfold SubTracks.find at h ⊢
  by_cases hlt : subs.findIdx (fun d => decide (d.type = type ∧ d.ID = ID)) < subs.length
  · simp only [hlt, if_true]
    refine ⟨subs[subs.findIdx (fun d => decide (d.type = type ∧ d.ID = ID))], ?_, ?_⟩
    · simp [itemAt, List.get?_eq_getElem?, hlt]
    · have := List.findIdx_getElem (w := hlt)
      simpa using this
  · rw [if_neg hlt] at h
    exact absurd h (lt_irrefl _)

/-- C27 fails on the code: position 7 is neither a sentinel nor a position of
the two subtitle tracks of the sample session, and `changeSubtitle(7)` stores
7 as the selected subtitle, switches the subtitle visibility preference on
and writes `sub_visibility 1` to the decoder. -/
theorem changeSubtitle_invalid_id :
    ¬ (0 ≤ (7 : Int) ∧ (7 : Int) < hiddenSubsCore.mdat.subs.length) ∧
    (7 : Int) ≠ sampleSettingsConstants.SubNone ∧
    (7 : Int) ≠ sampleSettingsConstants.NoneSelected ∧
    hiddenSubsCore.mset.current_sub_id = 0 ∧
    hiddenSubsCore.pref.sub_visibility = false ∧
    (changeSubtitle sampleSettingsConstants 7 hiddenSubsCore).mset.current_sub_id = 7 ∧
    (changeSubtitle sampleSettingsConstants 7 hiddenSubsCore).pref.sub_visibility = true ∧
    Event.writeToStdin (.sub_visibility 1) ∈
      (changeSubtitle sampleSettingsConstants 7 hiddenSubsCore).log := by
  decide

theorem sectionKeys_cases {t : String} (ht : t ∈ sectionKeys) :
    t = "-ss" ∨ t = "-cache" ∨ t = "-nocache" ∨ t = "-vid" ∨ t = "-aid" ∨ t = "-tsprog" := by
  simpa [sectionKeys] using ht

theorem noKeys_argsGeneral (env : Env) (s : Core) (t : String) (ht : t ∈ sectionKeys) :
    Arg.lit t ∉ argsGeneral env s := by
  rcases sectionKeys_cases ht with rfl | rfl | rfl | rfl | rfl | rfl <;>
    simp [argsGeneral]

theorem noKeys_argsCodecs (cfg : Config) (s : Core) (t : String) (ht : t ∈ sectionKeys) :
    Arg.lit t ∉ argsCodecs cfg s := by
  rcases sectionKeys_cases ht with rfl | rfl | rfl | rfl | rfl | rfl <;>
    simp [argsCodecs] <;> split_ifs <;> simp

theorem noKeys_argsOutput (cfg : Config) (env : Env) (s : Core) (t : String)
    (ht : t ∈ sectionKeys) : Arg.lit t ∉ argsOutput cfg env s := by
  rcases sectionKeys_cases ht with rfl | rfl | rfl | rfl | rfl | rfl <;>
    (simp [argsOutput]
     refine ⟨?_, ?_, ?_⟩
     · intro _; cases s.pref.priority <;> simp [priorityName]
     · intro _; split_ifs <;> simp
     · split_ifs <;> simp)

theorem noKeys_argsSubtitleStyle (env : Env) (s : Core) (t : String) (ht : t ∈ sectionKeys) :
    Arg.lit t ∉ argsSubtitleStyle env s := by
  rcases sectionKeys_cases ht with rfl | rfl | rfl | rfl | rfl | rfl <;>
    (simp [argsSubtitleStyle]
     intro _
     split_ifs <;> simp)

theorem noKeys_argsExternalFiles (env : Env) (s : Core) (t : String) (ht : t ∈ sectionKeys) :
    Arg.lit t ∉ argsExternalFiles env s := by
  rcases sectionKeys_cases ht with rfl | rfl | rfl | rfl | rfl | rfl <;>
    (simp [argsExternalFiles]
     intro _
     split_ifs <;> simp)

theorem noKeys_argsEqualizerVolume (s : Core) (t : String) (ht : t ∈ sectionKeys) :
    Arg.lit t ∉ argsEqualizerVolume s := by
  rcases sectionKeys_cases ht with rfl | rfl | rfl | rfl | rfl | rfl <;>
    simp [argsEqualizerVolume] <;> split_ifs <;> simp

theorem noKeys_argsDisc (d : StartTarget) (s : Core) (t : String) (ht : t ∈ sectionKeys) :
    Arg.lit t ∉ argsDisc d s := by
  rcases sectionKeys_cases ht with rfl | rfl | rfl | rfl | rfl | rfl <;>
    simp [argsDisc]

theorem noKeys_argsPlayback (s : Core) (t : String) (ht : t ∈ sectionKeys) :
    Arg.lit t ∉ argsPlayback s := by
  rcases sectionKeys_cases ht with rfl | rfl | rfl | rfl | rfl | rfl <;>
    (simp [argsPlayback]
     constructor <;> intro _ <;> split_ifs <;> simp)

theorem noKeys_argsVideoFilters (cfg : Config) (k : SettingsConstants) (env : Env)
    (s : Core) (t : String) (ht : t ∈ sectionKeys) :
    Arg.lit t ∉ argsVideoFilters cfg k env s := by
  rcases sectionKeys_cases ht with rfl | rfl | rfl | rfl | rfl | rfl <;>
    (simp [argsVideoFilters]
     intro _
     constructor
     · intro _
       unfold deinterlaceFilter
       split_ifs <;> simp
     · intro _
       unfold softEqualizerFilter
       split_ifs <;> simp)

theorem noKeys_argsAudio (k : SettingsConstants) (env : Env) (s : Core) (t : String)
    (ht : t ∈ sectionKeys) : Arg.lit t ∉ argsAudio k env s := by
  rcases sectionKeys_cases ht with rfl | rfl | rfl | rfl | rfl | rfl <;>
    simp [argsAudio]

theorem noKeys_argsTail (env : Env) (d : StartTarget) (s : Core) (t : String)
    (ht : t ∈ sectionKeys) : Arg.lit t ∉ argsTail env d s := by
  rcases sectionKeys_cases ht with rfl | rfl | rfl | rfl | rfl | rfl <;>
    simp [argsTail]

theorem startArguments_count (cfg : Config) (k : SettingsConstants) (env : Env)
    (file : String) (seek : ℚ) (s : Core) (t : String) (ht : t ∈ sectionKeys) :
    (startArguments cfg k env file seek s).count (Arg.lit t) =
      (argsTracks cfg k (startSession s)).count (Arg.lit t) +
      (argsCacheSpeed cfg (startTarget env (startSession s) file) (startSession s)).count
        (Arg.lit t) +
      (argsSeek seek (startSession s)).count (Arg.lit t) := by
  simp only [startArguments, List.count_append]
  rw [List.count_eq_zero.mpr (noKeys_argsGeneral _ _ t ht),
    List.count_eq_zero.mpr (noKeys_argsCodecs _ _ t ht),
    List.count_eq_zero.mpr (noKeys_argsOutput _ _ _ t ht),
    List.count_eq_zero.mpr (noKeys_argsSubtitleStyle _ _ t ht),
    List.count_eq_zero.mpr (noKeys_argsExternalFiles _ _ t ht),
    List.count_eq_zero.mpr (noKeys_argsEqualizerVolume _ t ht),
    List.count_eq_zero.mpr (noKeys_argsDisc _ _ t ht),
    List.count_eq_zero.mpr (noKeys_argsPlayback _ t ht),
    List.count_eq_zero.mpr (noKeys_argsVideoFilters _ _ _ _ t ht),
    List.count_eq_zero.mpr (noKeys_argsAudio _ _ _ t ht),
    List.count_eq_zero.mpr (noKeys_argsTail _ _ _ t ht)]
  omega

theorem argsSeek_infix (cfg : Config) (k : SettingsConstants) (env : Env) (file : String)
    (seek : ℚ) (s : Core) :
    argsSeek seek (startSession s) <:+:
      startArguments cfg k env file seek s := by
  unfold startArguments
  exact ⟨argsGeneral env (startSession s) ++ argsCodecs cfg (startSession s) ++ argsOutput cfg env (startSession s) ++ argsSubtitleStyle env (startSession s) ++ argsTracks cfg k (startSession s) ++ argsExternalFiles env (startSession s) ++ argsEqualizerVolume (startSession s) ++ argsDisc (startTarget env (startSession s) file) (startSession s) ++ argsCacheSpeed cfg (startTarget env (startSession s) file) (startSession s),
    argsPlayback (startSession s) ++ argsVideoFilters cfg k env (startSession s) ++ argsAudio k env (startSession s) ++ argsTail env (startTarget env (startSession s) file) (startSession s),
    by simp only [List.append_assoc]⟩

theorem argsTracks_infix (cfg : Config) (k : SettingsConstants) (env : Env) (file : String)
    (seek : ℚ) (s : Core) :
    argsTracks cfg k (startSession s) <:+:
      startArguments cfg k env file seek s := by
  unfold startArguments
  exact ⟨argsGeneral env (startSession s) ++ argsCodecs cfg (startSession s) ++ argsOutput cfg env (startSession s) ++ argsSubtitleStyle env (startSession s),
    argsExternalFiles env (startSession s) ++ argsEqualizerVolume (startSession s) ++ argsDisc (startTarget env (startSession s) file) (startSession s) ++ argsCacheSpeed cfg (startTarget env (startSession s) file) (startSession s) ++ argsSeek seek (startSession s) ++ argsPlayback (startSession s) ++ argsVideoFilters cfg k env (startSession s) ++ argsAudio k env (startSession s) ++ argsTail env (startTarget env (startSession s) file) (startSession s),
    by simp only [List.append_assoc]⟩

theorem argsCacheSpeed_infix (cfg : Config) (k : SettingsConstants) (env : Env) (file : String)
    (seek : ℚ) (s : Core) :
    argsCacheSpeed cfg (startTarget env (startSession s) file) (startSession s) <:+:
      startArguments cfg k env file seek s := by
  unfold startArguments
  exact ⟨argsGeneral env (startSession s) ++ argsCodecs cfg (startSession s) ++ argsOutput cfg env (startSession s) ++ argsSubtitleStyle env (startSession s) ++ argsTracks cfg k (startSession s) ++ argsExternalFiles env (startSession s) ++ argsEqualizerVolume (startSession s) ++ argsDisc (startTarget env (startSession s) file) (startSession s),
    argsSeek seek (startSession s) ++ argsPlayback (startSession s) ++ argsVideoFilters cfg k env (startSession s) ++ argsAudio k env (startSession s) ++ argsTail env (startTarget env (startSession s) file) (startSession s),
    by simp only [List.append_assoc]⟩

theorem startSession_read (s : Core) :
    (startSession s).mset.A_marker = s.mset.A_marker ∧
    (startSession s).mset.B_marker = s.mset.B_marker ∧
    (startSession s).mset.loop = s.mset.loop ∧
    (startSession s).mdat = s.mdat ∧
    (startSession s).pref = s.pref ∧
    (startSession s).mset.current_video_id = s.mset.current_video_id ∧
    (startSession s).mset.current_audio_id = s.mset.current_audio_id ∧
    (startSession s).mset.current_program_id = s.mset.current_program_id := by
  unfold startSession
  simp only []
  split_ifs <;> exact ⟨rfl, rfl, rfl, rfl, rfl, rfl, rfl, rfl⟩

theorem argsSeek_count_ss (seek : ℚ) (s : Core) :
    (argsSeek seek s).count (Arg.lit "-ss") =
      if s.mdat.type ≠ MediaType.TYPE_TV ∧
        ((s.mset.A_marker > -1 ∧ s.mset.B_marker > s.mset.A_marker) ∨
          (seek ≥ 5 ∧ s.mset.loop = false)) then 1 else 0 := by
  unfold argsSeek
  by_cases ht : s.mdat.type = MediaType.TYPE_TV
  · simp [ht]
  · by_cases hm : s.mset.A_marker > -1 ∧ s.mset.B_marker > s.mset.A_marker
    · simp [ht, hm]
    · by_cases hs : seek ≥ 5 ∧ s.mset.loop = false
      · simp [ht, hm, hs]
      · have hs2 : ¬ (seek ≥ 5 ∧ ¬ s.mset.loop = true) := by simpa using hs
        simp only [ne_eq, ht, not_false_eq_true, hm, hs2, if_true, if_false, hs, or_self,
          and_false, List.count_nil]

theorem argsTracks_count_ss (cfg : Config) (k : SettingsConstants) (s : Core) :
    (argsTracks cfg k s).count (Arg.lit "-ss") = 0 := by
  unfold argsTracks
  split_ifs <;> simp

theorem argsCacheSpeed_count_ss (cfg : Config) (t : StartTarget) (s : Core) :
    (argsCacheSpeed cfg t s).count (Arg.lit "-ss") = 0 := by
  unfold argsCacheSpeed
  split_ifs <;> simp

/-- C28, as stated, fails: in loop mode, without markers and with a requested
offset of 10 seconds, the invocation of a local file contains no `-ss`. -/
theorem loop_drops_seek :
    loopCore.mdat.type ≠ MediaType.TYPE_TV ∧
    ¬ (loopCore.mset.A_marker > -1 ∧ loopCore.mset.B_marker > loopCore.mset.A_marker) ∧
    (10 : ℚ) ≥ 5 ∧
    "-ss" ∉ (startArguments sampleConfig sampleSettingsConstants sampleEnv "/tmp/movie.mkv"
      10 loopCore).map (Arg.render sampleEnv) := by
  decide

/-- C28, amended: for media other than TV, when `A > -1` and `B > A` the
invocation contains `-ss A -endpos (B-A)` with `B-A > 0` and the controller
emits no other `-ss`; otherwise the controller emits `-ss seek`, once, exactly
when the requested offset is at least 5 seconds and loop mode is off, and no
`-ss` in every other case.  (Option words that the user supplies verbatim are
not covered.) -/
theorem seek_arguments (cfg : Config) (k : SettingsConstants) (env : Env) (file : String)
    (seek : ℚ) (s : Core) (ht : s.mdat.type ≠ MediaType.TYPE_TV) :
    ((s.mset.A_marker > -1 ∧ s.mset.B_marker > s.mset.A_marker) →
      [Arg.lit "-ss", Arg.int s.mset.A_marker, Arg.lit "-endpos",
          Arg.int (s.mset.B_marker - s.mset.A_marker)] <:+:
        startArguments cfg k env file seek s ∧
      s.mset.B_marker - s.mset.A_marker > 0 ∧
      (startArguments cfg k env file seek s).count (Arg.lit "-ss") = 1) ∧
    (¬ (s.mset.A_marker > -1 ∧ s.mset.B_marker > s.mset.A_marker) →
      ((seek ≥ 5 ∧ s.mset.loop = false) →
        [Arg.lit "-ss", Arg.num seek] <:+: startArguments cfg k env file seek s ∧
        (startArguments cfg k env file seek s).count (Arg.lit "-ss") = 1) ∧
      (¬ (seek ≥ 5 ∧ s.mset.loop = false) →
        (startArguments cfg k env file seek s).count (Arg.lit "-ss") = 0)) := by
  obtain ⟨hA, hB, hL, hD, -, -, -, -⟩ := startSession_read s
  have hc : (startArguments cfg k env file seek s).count (Arg.lit "-ss") =
      if s.mdat.type ≠ MediaType.TYPE_TV ∧
        ((s.mset.A_marker > -1 ∧ s.mset.B_marker > s.mset.A_marker) ∨
          (seek ≥ 5 ∧ s.mset.loop = false)) then 1 else 0 := by
    rw [startArguments_count cfg k env file seek s "-ss" (by decide), argsTracks_count_ss,
      argsCacheSpeed_count_ss, argsSeek_count_ss, hA, hB, hL, hD]
    simp
  have hi := argsSeek_infix cfg k env file seek s
  unfold argsSeek at hi
  rw [hA, hB, hL, hD] at hi
  constructor
  · intro hm
    refine ⟨?_, by omega, ?_⟩
    · simpa [ht, hm] using hi
    · rw [hc]; simp [ht, hm]
  · intro hm
    constructor
    · intro hs
      refine ⟨?_, ?_⟩
      · have hs2 : seek ≥ 5 ∧ ¬ s.mset.loop = true := by simpa using hs
        simpa only [ne_eq, ht, not_false_eq_true, if_true, hm, if_false, hs2] using hi
      · rw [hc]; simp [ht, hs]
    · intro hs
      rw [hc]
      simp only [ne_eq, ht, not_false_eq_true, hm, hs, or_self, and_false, if_false]

/-- C28 at concrete inputs: markers at 30 and 40, an offset of 10 seconds, loop mode. -/
theorem seek_arguments_witness :
    ([Arg.lit "-ss", Arg.int abCore.mset.A_marker, Arg.lit "-endpos",
          Arg.int (abCore.mset.B_marker - abCore.mset.A_marker)] <:+:
        startArguments sampleConfig sampleSettingsConstants sampleEnv "/tmp/movie.mkv" 10
          abCore ∧
      abCore.mset.B_marker - abCore.mset.A_marker > 0 ∧
      (startArguments sampleConfig sampleSettingsConstants sampleEnv "/tmp/movie.mkv" 10
        abCore).count (Arg.lit "-ss") = 1) ∧
    ([Arg.lit "-ss", Arg.num 10] <:+:
        startArguments sampleConfig sampleSettingsConstants sampleEnv "/tmp/movie.mkv" 10
          sampleCore ∧
      (startArguments sampleConfig sampleSettingsConstants sampleEnv "/tmp/movie.mkv" 10
        sampleCore).count (Arg.lit "-ss") = 1) ∧
    (startArguments sampleConfig sampleSettingsConstants sampleEnv "/tmp/movie.mkv" 10
      loopCore).count (Arg.lit "-ss") = 0 :=
  ⟨(seek_arguments sampleConfig sampleSettingsConstants sampleEnv "/tmp/movie.mkv" 10 abCore
      (by decide)).1 (by decide),
    ((seek_arguments sampleConfig sampleSettingsConstants sampleEnv "/tmp/movie.mkv" 10
      sampleCore (by decide)).2 (by decide)).1 (by decide),
    ((seek_arguments sampleConfig sampleSettingsConstants sampleEnv "/tmp/movie.mkv" 10
      loopCore (by decide)).2 (by decide)).2 (by decide)⟩

theorem argsTracks_mem (cfg : Config) (k : SettingsConstants) (s : Core) :
    (Arg.lit "-tsprog" ∈ argsTracks cfg k s ↔
      (cfg.PROGRAM_SWITCH = true ∧ s.mset.current_program_id ≠ k.NoneSelected)) ∧
    (Arg.lit "-vid" ∈ argsTracks cfg k s ↔
      (¬ (cfg.PROGRAM_SWITCH = true ∧ s.mset.current_program_id ≠ k.NoneSelected) ∧
        s.mset.current_video_id ≠ k.NoneSelected)) ∧
    (Arg.lit "-aid" ∈ argsTracks cfg k s ↔
      (¬ (cfg.PROGRAM_SWITCH = true ∧ s.mset.current_program_id ≠ k.NoneSelected) ∧
        s.mset.current_audio_id ≠ k.NoneSelected ∧ s.mdat.audios.length ≠ 1)) := by
  unfold argsTracks
  by_cases hp : cfg.PROGRAM_SWITCH = true ∧ s.mset.current_program_id ≠ k.NoneSelected
  · simp [hp]
  · by_cases hv : s.mset.current_video_id = k.NoneSelected <;>
      by_cases ha : s.mset.current_audio_id = k.NoneSelected <;>
      by_cases hl : s.mdat.audios.length = 1 <;>
      simp [hp, hv, ha, hl]

theorem argsTracks_pairs (cfg : Config) (k : SettingsConstants) (s : Core) :
    (Arg.lit "-tsprog" ∈ argsTracks cfg k s →
      [Arg.lit "-tsprog", Arg.int s.mset.current_program_id] <:+: argsTracks cfg k s) ∧
    (Arg.lit "-vid" ∈ argsTracks cfg k s →
      [Arg.lit "-vid", Arg.int s.mset.current_video_id] <:+: argsTracks cfg k s) ∧
    (Arg.lit "-aid" ∈ argsTracks cfg k s →
      [Arg.lit "-aid", Arg.int s.mset.current_audio_id] <:+: argsTracks cfg k s) := by
  unfold argsTracks
  by_cases hp : cfg.PROGRAM_SWITCH = true ∧ s.mset.current_program_id ≠ k.NoneSelected
  · simp [hp]
  · by_cases hv : s.mset.current_video_id = k.NoneSelected <;>
      by_cases ha : s.mset.current_audio_id = k.NoneSelected <;>
      by_cases hl : s.mdat.audios.length = 1 <;>
      simp [hp, hv, ha, hl]
    exact ⟨⟨[], [Arg.lit "-aid", Arg.int s.mset.current_audio_id], rfl⟩,
      ⟨[Arg.lit "-vid", Arg.int s.mset.current_video_id], [], rfl⟩⟩

theorem mem_startArguments_iff (cfg : Config) (k : SettingsConstants) (env : Env)
    (file : String) (seek : ℚ) (s : Core) (t : String) (ht : t ∈ sectionKeys) :
    Arg.lit t ∈ startArguments cfg k env file seek s ↔
      (Arg.lit t ∈ argsTracks cfg k (startSession s) ∨
        Arg.lit t ∈ argsCacheSpeed cfg (startTarget env (startSession s) file)
          (startSession s) ∨
        Arg.lit t ∈ argsSeek seek (startSession s)) := by
  have h := startArguments_count cfg k env file seek s t ht
  rw [← List.count_pos_iff, ← List.count_pos_iff, ← List.count_pos_iff,
    ← List.count_pos_iff, h]
  omega

theorem argsCacheSpeed_keys (cfg : Config) (t : StartTarget) (s : Core) :
    Arg.lit "-tsprog" ∉ argsCacheSpeed cfg t s ∧ Arg.lit "-vid" ∉ argsCacheSpeed cfg t s ∧
    Arg.lit "-aid" ∉ argsCacheSpeed cfg t s := by
  unfold argsCacheSpeed
  split_ifs <;> simp

theorem argsSeek_keys (seek : ℚ) (s : Core) :
    Arg.lit "-tsprog" ∉ argsSeek seek s ∧ Arg.lit "-vid" ∉ argsSeek seek s ∧
    Arg.lit "-aid" ∉ argsSeek seek s ∧ Arg.lit "-cache" ∉ argsSeek seek s ∧
    Arg.lit "-nocache" ∉ argsSeek seek s := by
  unfold argsSeek
  split_ifs <;> simp

theorem argsTracks_keys (cfg : Config) (k : SettingsConstants) (s : Core) :
    Arg.lit "-cache" ∉ argsTracks cfg k s ∧ Arg.lit "-nocache" ∉ argsTracks cfg k s := by
  unfold argsTracks
  split_ifs <;> simp

/-- C29, as stated, fails: with exactly one audio track and the free-form option
line `-aid 1` of the user, the invocation contains `-aid`. -/
theorem user_aid_with_single_track :
    singleAudioCore.mdat.audios.length = 1 ∧
    "-aid" ∈ (startArguments sampleConfig sampleSettingsConstants sampleEnv "/tmp/movie.mkv"
      0 singleAudioCore).map (Arg.render sampleEnv) := by
  decide

/-- C29, amended: the controller emits `-tsprog P` exactly when the build has
program switching and a program is selected; it emits `-vid N` exactly when
that is not the case and the selected video ID is not `NoneSelected`, and
`-aid N` exactly when that is not the case, the selected audio ID is not
`NoneSelected` and the number of audio tracks is not one; each option is
followed by the selected ID.  (Option words that the user supplies verbatim
are not covered.) -/
theorem track_arguments (cfg : Config) (k : SettingsConstants) (env : Env) (file : String)
    (seek : ℚ) (s : Core) :
    (Arg.lit "-tsprog" ∈ startArguments cfg k env file seek s ↔
      (cfg.PROGRAM_SWITCH = true ∧ s.mset.current_program_id ≠ k.NoneSelected)) ∧
    (Arg.lit "-vid" ∈ startArguments cfg k env file seek s ↔
      (¬ (cfg.PROGRAM_SWITCH = true ∧ s.mset.current_program_id ≠ k.NoneSelected) ∧
        s.mset.current_video_id ≠ k.NoneSelected)) ∧
    (Arg.lit "-aid" ∈ startArguments cfg k env file seek s ↔
      (¬ (cfg.PROGRAM_SWITCH = true ∧ s.mset.current_program_id ≠ k.NoneSelected) ∧
        s.mset.current_audio_id ≠ k.NoneSelected ∧ s.mdat.audios.length ≠ 1)) ∧
    (Arg.lit "-tsprog" ∈ startArguments cfg k env file seek s →
      [Arg.lit "-tsprog", Arg.int s.mset.current_program_id] <:+:
        startArguments cfg k env file seek s) ∧
    (Arg.lit "-vid" ∈ startArguments cfg k env file seek s →
      [Arg.lit "-vid", Arg.int s.mset.current_video_id] <:+:
        startArguments cfg k env file seek s) ∧
    (Arg.lit "-aid" ∈ startArguments cfg k env file seek s →
      [Arg.lit "-aid", Arg.int s.mset.current_audio_id] <:+:
        startArguments cfg k env file seek s) := by
  obtain ⟨-, -, -, hD, -, hV, hA, hP⟩ := startSession_read s
  have m1 := mem_startArguments_iff cfg k env file seek s "-tsprog" (by decide)
  have m2 := mem_startArguments_iff cfg k env file seek s "-vid" (by decide)
  have m3 := mem_startArguments_iff cfg k env file seek s "-aid" (by decide)
  have hc := argsCacheSpeed_keys cfg (startTarget env (startSession s) file) (startSession s)
  have hs := argsSeek_keys seek (startSession s)
  have e1 : Arg.lit "-tsprog" ∈ startArguments cfg k env file seek s ↔
      Arg.lit "-tsprog" ∈ argsTracks cfg k (startSession s) := by
    rw [m1]; simp [hc.1, hs.1]
  have e2 : Arg.lit "-vid" ∈ startArguments cfg k env file seek s ↔
      Arg.lit "-vid" ∈ argsTracks cfg k (startSession s) := by
    rw [m2]; simp [hc.2.1, hs.2.1]
  have e3 : Arg.lit "-aid" ∈ startArguments cfg k env file seek s ↔
      Arg.lit "-aid" ∈ argsTracks cfg k (startSession s) := by
    rw [m3]; simp [hc.2.2, hs.2.2.1]
  have hm := argsTracks_mem cfg k (startSession s)
  have hp := argsTracks_pairs cfg k (startSession s)
  have hi := argsTracks_infix cfg k env file seek s
  rw [hD, hV, hA, hP] at hm
  rw [hV, hA, hP] at hp
  refine ⟨e1.trans hm.1, e2.trans hm.2.1, e3.trans hm.2.2, ?_, ?_, ?_⟩
  · intro h; exact (hp.1 (e1.mp h)).trans hi
  · intro h; exact (hp.2.1 (e2.mp h)).trans hi
  · intro h; exact (hp.2.2 (e3.mp h)).trans hi

/-- C29 at a concrete input: the sample session, with two audio tracks. -/
theorem track_arguments_witness :
    [Arg.lit "-vid", Arg.int sampleCore.mset.current_video_id] <:+:
      startArguments sampleConfig sampleSettingsConstants sampleEnv "/tmp/movie.mkv" 0
        sampleCore ∧
    [Arg.lit "-aid", Arg.int sampleCore.mset.current_audio_id] <:+:
      startArguments sampleConfig sampleSettingsConstants sampleEnv "/tmp/movie.mkv" 0
        sampleCore :=
  ⟨(track_arguments sampleConfig sampleSettingsConstants sampleEnv "/tmp/movie.mkv" 0
      sampleCore).2.2.2.2.1
      ((track_arguments sampleConfig sampleSettingsConstants sampleEnv "/tmp/movie.mkv" 0
        sampleCore).2.1.mpr (by decide)),
    (track_arguments sampleConfig sampleSettingsConstants sampleEnv "/tmp/movie.mkv" 0
      sampleCore).2.2.2.2.2
      ((track_arguments sampleConfig sampleSettingsConstants sampleEnv "/tmp/movie.mkv" 0
        sampleCore).2.2.1.mpr (by decide))⟩

/-- C30, as stated, fails: with a cache of 2000 for files and the free-form
option line `-nocache` of the user, the invocation contains both `-cache` and
`-nocache`. -/
theorem user_nocache_with_cache :
    "-cache" ∈ (startArguments sampleConfig sampleSettingsConstants sampleEnv
      "/tmp/movie.mkv" 0 noCacheOptionCore).map (Arg.render sampleEnv) ∧
    "-nocache" ∈ (startArguments sampleConfig sampleSettingsConstants sampleEnv
      "/tmp/movie.mkv" 0 noCacheOptionCore).map (Arg.render sampleEnv) := by
  decide

theorem argsCacheSpeed_count (cfg : Config) (t : StartTarget) (s : Core) :
    (argsCacheSpeed cfg t s).count (Arg.lit "-cache") =
      (if cacheSize cfg t s > 31 then 1 else 0) ∧
    (argsCacheSpeed cfg t s).count (Arg.lit "-nocache") =
      (if cacheSize cfg t s > 31 then 0 else 1) := by
  unfold argsCacheSpeed
  split_ifs <;> simp

/-- C30, amended: the controller emits exactly one of `-cache` and `-nocache`:
`-cache N` when the cache size `N` is at least 32 and `-nocache` when it is
smaller; the cache size is the preference of the media kind, 0 for a
`dvdnav:` locator in a build with disc navigation and 0 for an unknown kind.
(Option words that the user supplies verbatim are not covered.) -/
theorem cache_arguments (cfg : Config) (k : SettingsConstants) (env : Env) (file : String)
    (seek : ℚ) (s : Core) :
    (startArguments cfg k env file seek s).count (Arg.lit "-cache") +
      (startArguments cfg k env file seek s).count (Arg.lit "-nocache") = 1 ∧
    (cacheSize cfg (startTarget env (startSession s) file) (startSession s) ≥ 32 →
      [Arg.lit "-cache",
          Arg.int (cacheSize cfg (startTarget env (startSession s) file) (startSession s))] <:+:
        startArguments cfg k env file seek s) ∧
    (cacheSize cfg (startTarget env (startSession s) file) (startSession s) < 32 →
      Arg.lit "-nocache" ∈ startArguments cfg k env file seek s) ∧
    cacheSize cfg (startTarget env (startSession s) file) (startSession s) =
      (match s.mdat.type with
        | .TYPE_FILE => s.pref.cache_for_files
        | .TYPE_DVD =>
          if cfg.DVDNAV_SUPPORT = true ∧
              startsWith (startTarget env (startSession s) file).file "dvdnav:" = true then 0
          else s.pref.cache_for_dvds
        | .TYPE_STREAM => s.pref.cache_for_streams
        | .TYPE_VCD => s.pref.cache_for_vcds
        | .TYPE_AUDIO_CD => s.pref.cache_for_audiocds
        | .TYPE_TV => s.pref.cache_for_tv
        | .TYPE_UNKNOWN => 0) := by
  obtain ⟨-, -, -, hD, hP, -, -, -⟩ := startSession_read s
  have c1 := startArguments_count cfg k env file seek s "-cache" (by decide)
  have c2 := startArguments_count cfg k env file seek s "-nocache" (by decide)
  have ht := argsTracks_keys cfg k (startSession s)
  have hs := argsSeek_keys seek (startSession s)
  have hc := argsCacheSpeed_count cfg (startTarget env (startSession s) file) (startSession s)
  rw [List.count_eq_zero.mpr ht.1, List.count_eq_zero.mpr hs.2.2.2.1, hc.1] at c1
  rw [List.count_eq_zero.mpr ht.2, List.count_eq_zero.mpr hs.2.2.2.2, hc.2] at c2
  have hi := argsCacheSpeed_infix cfg k env file seek s
  refine ⟨?_, ?_, ?_, ?_⟩
  · rw [c1, c2]; split_ifs <;> rfl
  · intro h
    have h2 : cacheSize cfg (startTarget env (startSession s) file) (startSession s) > 31 := by
      omega
    refine List.IsInfix.trans ?_ hi
    unfold argsCacheSpeed
    rw [if_pos h2]
    exact ⟨[], _, rfl⟩
  · intro h
    have h2 : ¬ cacheSize cfg (startTarget env (startSession s) file) (startSession s) > 31 := by
      omega
    have hpos : 0 < (startArguments cfg k env file seek s).count (Arg.lit "-nocache") := by
      rw [c2, if_neg h2]
      all_goals omega
    exact List.count_pos_iff.mp hpos
  · unfold cacheSize
    rw [hD, hP]

/-- C30 at concrete inputs: a cache of 2000 and a cache of 0 for files. -/
theorem cache_arguments_witness :
    [Arg.lit "-cache",
        Arg.int (cacheSize sampleConfig
          (startTarget sampleEnv (startSession sampleCore) "/tmp/movie.mkv")
          (startSession sampleCore))] <:+:
      startArguments sampleConfig sampleSettingsConstants sampleEnv "/tmp/movie.mkv" 0
        sampleCore ∧
    Arg.lit "-nocache" ∈
      startArguments sampleConfig sampleSettingsConstants sampleEnv "/tmp/movie.mkv" 0
        zeroCacheCore :=
  ⟨(cache_arguments sampleConfig sampleSettingsConstants sampleEnv "/tmp/movie.mkv" 0
      sampleCore).2.1 (by decide),
    (cache_arguments sampleConfig sampleSettingsConstants sampleEnv "/tmp/movie.mkv" 0
      zeroCacheCore).2.2.1 (by decide)⟩

theorem filterKeys_cases {t : String} (ht : t ∈ filterKeys) : t = "-vf-add" ∨ t = "-chapter" := by
  simpa [filterKeys] using ht

theorem noFilterKeys_argsGeneral (env : Env) (s : Core) (t : String) (ht : t ∈ filterKeys) :
    Arg.lit t ∉ argsGeneral env s := by
  rcases filterKeys_cases ht with rfl | rfl <;> simp [argsGeneral]

theorem noFilterKeys_argsCodecs (cfg : Config) (s : Core) (t : String) (ht : t ∈ filterKeys) :
    Arg.lit t ∉ argsCodecs cfg s := by
  rcases filterKeys_cases ht with rfl | rfl <;> simp [argsCodecs] <;> split_ifs <;> simp

theorem noFilterKeys_argsOutput (cfg : Config) (env : Env) (s : Core) (t : String)
    (ht : t ∈ filterKeys) : Arg.lit t ∉ argsOutput cfg env s := by
  rcases filterKeys_cases ht with rfl | rfl <;>
    (simp [argsOutput]
     refine ⟨?_, ?_, ?_⟩
     · intro _; cases s.pref.priority <;> simp [priorityName]
     · intro _; split_ifs <;> simp
     · split_ifs <;> simp)

theorem noFilterKeys_argsSubtitleStyle (env : Env) (s : Core) (t : String)
    (ht : t ∈ filterKeys) : Arg.lit t ∉ argsSubtitleStyle env s := by
  rcases filterKeys_cases ht with rfl | rfl <;>
    (simp [argsSubtitleStyle]
     intro _
     split_ifs <;> simp)

theorem noFilterKeys_argsTracks (cfg : Config) (k : SettingsConstants) (s : Core) (t : String)
    (ht : t ∈ filterKeys) : Arg.lit t ∉ argsTracks cfg k s := by
  rcases filterKeys_cases ht with rfl | rfl <;>
    (unfold argsTracks
     split_ifs <;> simp)

theorem noFilterKeys_argsExternalFiles (env : Env) (s : Core) (t : String)
    (ht : t ∈ filterKeys) : Arg.lit t ∉ argsExternalFiles env s := by
  rcases filterKeys_cases ht with rfl | rfl <;>
    (simp [argsExternalFiles]
     intro _
     split_ifs <;> simp)

theorem noFilterKeys_argsEqualizerVolume (s : Core) (t : String) (ht : t ∈ filterKeys) :
    Arg.lit t ∉ argsEqualizerVolume s := by
  rcases filterKeys_cases ht with rfl | rfl <;>
    simp [argsEqualizerVolume] <;> split_ifs <;> simp

theorem noFilterKeys_argsCacheSpeed (cfg : Config) (d : StartTarget) (s : Core) (t : String)
    (ht : t ∈ filterKeys) : Arg.lit t ∉ argsCacheSpeed cfg d s := by
  rcases filterKeys_cases ht with rfl | rfl <;>
    (unfold argsCacheSpeed
     split_ifs <;> simp)

theorem noFilterKeys_argsSeek (seek : ℚ) (s : Core) (t : String) (ht : t ∈ filterKeys) :
    Arg.lit t ∉ argsSeek seek s := by
  rcases filterKeys_cases ht with rfl | rfl <;>
    (unfold argsSeek
     split_ifs <;> simp)

theorem noFilterKeys_argsPlayback (s : Core) (t : String) (ht : t ∈ filterKeys) :
    Arg.lit t ∉ argsPlayback s := by
  rcases filterKeys_cases ht with rfl | rfl <;>
    (simp [argsPlayback]
     constructor <;> intro _ <;> split_ifs <;> simp)

theorem noFilterKeys_argsAudio (k : SettingsConstants) (env : Env) (s : Core) (t : String)
    (ht : t ∈ filterKeys) : Arg.lit t ∉ argsAudio k env s := by
  rcases filterKeys_cases ht with rfl | rfl <;> simp [argsAudio]

theorem noFilterKeys_argsTail (env : Env) (d : StartTarget) (s : Core) (t : String)
    (ht : t ∈ filterKeys) : Arg.lit t ∉ argsTail env d s := by
  rcases filterKeys_cases ht with rfl | rfl <;> simp [argsTail]

theorem noVfAdd_argsDisc (d : StartTarget) (s : Core) :
    Arg.lit "-vf-add" ∉ argsDisc d s := by
  simp [argsDisc]

theorem noChapter_argsVideoFilters (cfg : Config) (k : SettingsConstants) (env : Env)
    (s : Core) : Arg.lit "-chapter" ∉ argsVideoFilters cfg k env s := by
  simp [argsVideoFilters]
  intro _
  constructor
  · intro _
    unfold deinterlaceFilter
    split_ifs <;> simp
  · intro _
    unfold softEqualizerFilter
    split_ifs <;> simp


theorem optionValues_cons_name {α : Type} [DecidableEq α] (n v : α) (rest : List α) :
    optionValues n (n :: v :: rest) = v :: optionValues n rest := by
  simp [optionValues]

theorem optionValues_cons_ne {α : Type} [DecidableEq α] {n a : α} (h : a ≠ n) (rest : List α) :
    optionValues n (a :: rest) = optionValues n rest := by
  cases rest with
  | nil => simp [optionValues]
  | cons v r => simp [optionValues, h]

theorem optionValues_append_of_not_mem {α : Type} [DecidableEq α] {n : α} (xs ys : List α)
    (h : n ∉ xs) : optionValues n (xs ++ ys) = optionValues n ys := by
  induction xs with
  | nil => rfl
  | cons a xs ih =>
    have ha : a ≠ n := fun e => h (by simp [e])
    have hx : n ∉ xs := fun e => h (by simp [e])
    rw [List.cons_append, optionValues_cons_ne ha, ih hx]

theorem optionValues_of_not_mem {α : Type} [DecidableEq α] {n : α} (xs : List α)
    (h : n ∉ xs) : optionValues n xs = [] := by
  have := optionValues_append_of_not_mem xs [] h
  simpa [optionValues] using this

theorem optionValues_block {α : Type} [DecidableEq α] (n v : α) (c : Prop) [Decidable c]
    (rest : List α) :
    optionValues n ((if c then [n, v] else []) ++ rest) =
      (if c then [v] else []) ++ optionValues n rest := by
  split_ifs
  · simp [optionValues]
  · simp

theorem filter_map_cons {α β : Type} (p : α → Bool) (f : α → β) (a : α) (l : List α) :
    ((a :: l).filter p).map f = (if p a = true then [f a] else []) ++ (l.filter p).map f := by
  by_cases h : p a = true <;> simp [List.filter, h]

theorem deinterlaceFilter_value (k : SettingsConstants) (d : Int)
    (hd : d ∈ [k.L5, k.Yadif, k.LB, k.Yadif_1, k.Kerndeint]) :
    deinterlaceFilter k d = [deinterlaceValue k d] := by
  simp only [List.mem_cons, List.mem_singleton, List.not_mem_nil, or_false] at hd
  unfold deinterlaceValue deinterlaceFilter
  split_ifs <;> simp_all

theorem videoFilterSlots_startSession (cfg : Config) (k : SettingsConstants) (env : Env)
    (s : Core) :
    videoFilterSlots cfg k env (startSession s) = videoFilterSlots cfg k env s ∧
    filtersIgnored cfg (startSession s) = filtersIgnored cfg s ∧
    (startSession s).mset.current_deinterlacer = s.mset.current_deinterlacer := by
  unfold startSession
  simp only []
  split_ifs <;> exact ⟨rfl, rfl, rfl⟩

theorem argsVideoFilters_values (cfg : Config) (k : SettingsConstants) (env : Env) (s : Core)
    (rest : List Arg)
    (hd : s.mset.current_deinterlacer = k.NoDeinterlace ∨
      s.mset.current_deinterlacer ∈ [k.L5, k.Yadif, k.LB, k.Yadif_1, k.Kerndeint]) :
    optionValues (Arg.lit "-vf-add") (argsVideoFilters cfg k env s ++ rest) =
      selectedVideoFilters cfg k env s ++ optionValues (Arg.lit "-vf-add") rest := by
  unfold argsVideoFilters selectedVideoFilters filtersIgnored
  simp only [decide_eq_true_eq]
  by_cases hi : ¬ cfg.Q_OS_WIN ∧ s.pref.vdpau_disable_video_filters ∧ startsWith s.pref.vo "vdpau"
  · rw [if_pos hi, if_pos hi]
    rfl
  · rw [if_neg hi, if_neg hi]
    have hdein : (if s.mset.current_deinterlacer ≠ k.NoDeinterlace then
        [Arg.lit "-vf-add"] ++ deinterlaceFilter k s.mset.current_deinterlacer else []) =
        (if s.mset.current_deinterlacer ≠ k.NoDeinterlace then
          [Arg.lit "-vf-add", deinterlaceValue k s.mset.current_deinterlacer] else []) := by
      by_cases hn : s.mset.current_deinterlacer = k.NoDeinterlace
      · simp [hn]
      · rcases hd with hd | hd
        · exact absurd hd hn
        · rw [deinterlaceFilter_value k _ hd]
          rfl
    have hscale : ∀ (v : Arg) (r : List Arg),
        optionValues (Arg.lit "-vf-add")
          ((if s.mset.upscaling_filter then [Arg.lit "-sws", Arg.lit "9", Arg.lit "-vf-add", v]
            else []) ++ r) =
          (if s.mset.upscaling_filter then [v] else []) ++
            optionValues (Arg.lit "-vf-add") r := by
      intro v r
      split_ifs
      · simp [optionValues]
      · simp
    rw [hdein]
    unfold videoFilterSlots
    simp only [List.append_assoc]
    rw [optionValues_block, optionValues_block, optionValues_block, optionValues_block,
      optionValues_block, hscale, optionValues_block, optionValues_block, optionValues_block,
      optionValues_block, optionValues_block, optionValues_block, optionValues_block,
      optionValues_block, optionValues_block, optionValues_block]
    simp only [filter_map_cons, List.filter_nil, List.map_nil, List.append_assoc,
      List.append_nil, decide_eq_true_eq, Bool.or_eq_true, Bool.and_eq_true]


theorem selectedVideoFilters_startSession (cfg : Config) (k : SettingsConstants) (env : Env)
    (s : Core) :
    selectedVideoFilters cfg k env (startSession s) = selectedVideoFilters cfg k env s := by
  unfold selectedVideoFilters
  rw [(videoFilterSlots_startSession cfg k env s).1, (videoFilterSlots_startSession cfg k env s).2.1]

theorem count_block {α : Type} [DecidableEq α] (n v : α) (c : Prop) [Decidable c] (h : v ≠ n) :
    List.count n (if c then [n, v] else []) = (if c then [v] else []).length := by
  split_ifs <;> simp [List.count_cons, h]

theorem deinterlaceValue_ne (k : SettingsConstants) (d : Int) :
    deinterlaceValue k d ≠ Arg.lit "-vf-add" := by
  unfold deinterlaceValue deinterlaceFilter
  split_ifs <;> simp

theorem softEqualizerFilter_ne (cfg : Config) (p : Preferences) :
    Arg.lit (softEqualizerFilter cfg p) ≠ Arg.lit "-vf-add" := by
  unfold softEqualizerFilter
  split_ifs <;> simp

theorem argsVideoFilters_count (cfg : Config) (k : SettingsConstants) (env : Env) (s : Core)
    (hd : s.mset.current_deinterlacer = k.NoDeinterlace ∨
      s.mset.current_deinterlacer ∈ [k.L5, k.Yadif, k.LB, k.Yadif_1, k.Kerndeint]) :
    (argsVideoFilters cfg k env s).count (Arg.lit "-vf-add") =
      (selectedVideoFilters cfg k env s).length := by
  unfold argsVideoFilters selectedVideoFilters filtersIgnored
  simp only [decide_eq_true_eq]
  by_cases hi : ¬ cfg.Q_OS_WIN ∧ s.pref.vdpau_disable_video_filters ∧ startsWith s.pref.vo "vdpau"
  · rw [if_pos hi, if_pos hi]
    rfl
  · rw [if_neg hi, if_neg hi]
    have hdein : (if s.mset.current_deinterlacer ≠ k.NoDeinterlace then
        [Arg.lit "-vf-add"] ++ deinterlaceFilter k s.mset.current_deinterlacer else []) =
        (if s.mset.current_deinterlacer ≠ k.NoDeinterlace then
          [Arg.lit "-vf-add", deinterlaceValue k s.mset.current_deinterlacer] else []) := by
      by_cases hn : s.mset.current_deinterlacer = k.NoDeinterlace
      · simp [hn]
      · rcases hd with hd | hd
        · exact absurd hd hn
        · rw [deinterlaceFilter_value k _ hd]
          rfl
    have hscale : ∀ (v : String),
        List.count (Arg.lit "-vf-add")
          (if s.mset.upscaling_filter then
            [Arg.lit "-sws", Arg.lit "9", Arg.lit "-vf-add", Arg.str v]
            else []) = (if s.mset.upscaling_filter then [Arg.str v] else []).length := by
      intro v
      split_ifs
      · simp [List.count_cons]
      · simp
    rw [hdein]
    unfold videoFilterSlots
    simp only [filter_map_cons, List.filter_nil, List.map_nil, List.append_assoc,
      List.append_nil, decide_eq_true_eq, Bool.or_eq_true, Bool.and_eq_true,
      List.count_append, List.length_append, hscale]
    rw [count_block _ _ _ (by simp), count_block _ _ _ (deinterlaceValue_ne _ _),
      count_block _ _ _ (by simp), count_block _ _ _ (by simp), count_block _ _ _ (by simp),
      count_block _ _ _ (by simp), count_block _ _ _ (by simp),
      count_block _ _ _ (softEqualizerFilter_ne _ _), count_block _ _ _ (by simp),
      count_block _ _ _ (by simp), count_block _ _ _ (by simp), count_block _ _ _ (by simp),
      count_block _ _ _ (by simp), count_block _ _ _ (by simp), count_block _ _ _ (by simp)]

/-- C31, amended: when the deinterlacer is `NoDeinterlace` or one of the five
deinterlacers of the enumeration, the values that follow the `-vf-add`
keywords of the controller, in the order of the invocation, are the values of
the selected entries of the fixed list phase, deinterlacer, denoiser, deblock,
dering, scale, noise, expand, software equalizer, user filters of the file,
global user filters, ass, rotate, flip, mirror, screenshot, in the order of
that list; there is one `-vf-add` keyword for each selected entry, and none at
all when the filters are ignored for the `vdpau` driver.  (Option words that
the user supplies verbatim are not covered.) -/
theorem video_filter_order (cfg : Config) (k : SettingsConstants) (env : Env) (file : String)
    (seek : ℚ) (s : Core)
    (hd : s.mset.current_deinterlacer = k.NoDeinterlace ∨
      s.mset.current_deinterlacer ∈ [k.L5, k.Yadif, k.LB, k.Yadif_1, k.Kerndeint]) :
    optionValues (Arg.lit "-vf-add") (startArguments cfg k env file seek s) =
      selectedVideoFilters cfg k env s ∧
    (startArguments cfg k env file seek s).count (Arg.lit "-vf-add") =
      (selectedVideoFilters cfg k env s).length ∧
    List.Sublist (selectedVideoFilters cfg k env s)
      ((videoFilterSlots cfg k env s).map fun slot => slot.2) := by
  have hk : "-vf-add" ∈ filterKeys := by simp [filterKeys]
  have hd2 : (startSession s).mset.current_deinterlacer = k.NoDeinterlace ∨
      (startSession s).mset.current_deinterlacer ∈ [k.L5, k.Yadif, k.LB, k.Yadif_1, k.Kerndeint] := by
    rw [(videoFilterSlots_startSession cfg k env s).2.2]
    exact hd
  refine ⟨?_, ?_, ?_⟩
  · unfold startArguments
    simp only [List.append_assoc]
    rw [optionValues_append_of_not_mem _ _ (noFilterKeys_argsGeneral _ _ _ hk),
      optionValues_append_of_not_mem _ _ (noFilterKeys_argsCodecs _ _ _ hk),
      optionValues_append_of_not_mem _ _ (noFilterKeys_argsOutput _ _ _ _ hk),
      optionValues_append_of_not_mem _ _ (noFilterKeys_argsSubtitleStyle _ _ _ hk),
      optionValues_append_of_not_mem _ _ (noFilterKeys_argsTracks _ _ _ _ hk),
      optionValues_append_of_not_mem _ _ (noFilterKeys_argsExternalFiles _ _ _ hk),
      optionValues_append_of_not_mem _ _ (noFilterKeys_argsEqualizerVolume _ _ hk),
      optionValues_append_of_not_mem _ _ (noVfAdd_argsDisc _ _),
      optionValues_append_of_not_mem _ _ (noFilterKeys_argsCacheSpeed _ _ _ _ hk),
      optionValues_append_of_not_mem _ _ (noFilterKeys_argsSeek _ _ _ hk),
      optionValues_append_of_not_mem _ _ (noFilterKeys_argsPlayback _ _ hk),
      argsVideoFilters_values cfg k env (startSession s) _ hd2,
      optionValues_append_of_not_mem _ _ (noFilterKeys_argsAudio _ _ _ _ hk),
      optionValues_of_not_mem _ (noFilterKeys_argsTail _ _ _ _ hk),
      List.append_nil, selectedVideoFilters_startSession]
  · unfold startArguments
    simp only [List.count_append]
    rw [List.count_eq_zero_of_not_mem (noFilterKeys_argsGeneral _ _ _ hk),
      List.count_eq_zero_of_not_mem (noFilterKeys_argsCodecs _ _ _ hk),
      List.count_eq_zero_of_not_mem (noFilterKeys_argsOutput _ _ _ _ hk),
      List.count_eq_zero_of_not_mem (noFilterKeys_argsSubtitleStyle _ _ _ hk),
      List.count_eq_zero_of_not_mem (noFilterKeys_argsTracks _ _ _ _ hk),
      List.count_eq_zero_of_not_mem (noFilterKeys_argsExternalFiles _ _ _ hk),
      List.count_eq_zero_of_not_mem (noFilterKeys_argsEqualizerVolume _ _ hk),
      List.count_eq_zero_of_not_mem (noVfAdd_argsDisc _ _),
      List.count_eq_zero_of_not_mem (noFilterKeys_argsCacheSpeed _ _ _ _ hk),
      List.count_eq_zero_of_not_mem (noFilterKeys_argsSeek _ _ _ hk),
      List.count_eq_zero_of_not_mem (noFilterKeys_argsPlayback _ _ hk),
      argsVideoFilters_count cfg k env (startSession s) hd2,
      List.count_eq_zero_of_not_mem (noFilterKeys_argsAudio _ _ _ _ hk),
      List.count_eq_zero_of_not_mem (noFilterKeys_argsTail _ _ _ _ hk),
      selectedVideoFilters_startSession]
    omega
  · unfold selectedVideoFilters
    split_ifs
    · exact List.nil_sublist _
    · exact List.Sublist.map _ (List.filter_sublist _)

/-- C31 at a concrete input: the sample session with the phase, Yadif, dering
and mirror filters. -/
theorem video_filter_order_witness :
    optionValues (Arg.lit "-vf-add")
        (startArguments sampleConfig sampleSettingsConstants sampleEnv "/tmp/movie.mkv" 0
          filteredCore) =
      [Arg.lit "phase=A", Arg.lit "yadif", Arg.lit "pp=dr", Arg.str "rotate=0",
        Arg.lit "mirror"] := by
  have h := (video_filter_order sampleConfig sampleSettingsConstants sampleEnv "/tmp/movie.mkv" 0
    filteredCore (by decide)).1
  rw [h]
  decide

/-- C31, as stated, fails: with the mirror filter on and the free-form option
line `-vf-add phase=A` of the user, the `-vf-add` values of the invocation are
rotate, mirror, phase, so phase follows mirror; and with the `vdpau` driver and
its filters disabled, the enabled flip filter does not appear at all. -/
theorem user_vf_add_out_of_order :
    optionValues "-vf-add"
        ((startArguments sampleConfig sampleSettingsConstants sampleEnv "/tmp/movie.mkv" 0
          userFilterCore).map (Arg.render sampleEnv)) = ["rotate=0", "mirror", "phase=A"] ∧
    "-vf-add" ∉ (startArguments sampleConfig sampleSettingsConstants sampleEnv "/tmp/movie.mkv" 0
      vdpauCore).map (Arg.render sampleEnv) ∧
    vdpauCore.mset.flip = true := by
  decide

theorem keepsFlags_trans {a b c : Core} (h1 : keepsFlags a b) (h2 : keepsFlags b c) :
    keepsFlags a c :=
  ⟨h2.1.trans h1.1, h2.2.1.trans h1.2.1, h2.2.2.trans h1.2.2⟩

theorem keepsTracks_record (e : Event) (s : Core) : keepsTracks s (s.record e) :=
  ⟨rfl, rfl, rfl, rfl, rfl, rfl, [e], rfl⟩

theorem keepsTracks_tellmp (c : Command) (s : Core) : keepsTracks s (tellmp c s) := by
  unfold keepsTracks
  simp [tellmp_eq]

theorem keepsTracks_displayMessage (m : Message) (s : Core) :
    keepsTracks s (displayMessage m s) := by
  unfold keepsTracks
  simp [displayMessage_eq]

theorem keepsTracks_initializeMenus (s : Core) : keepsTracks s (initializeMenus s) :=
  keepsTracks_record _ _

/-- C32 fails on the code: with the karaoke filter and the left stereo mode,
the value of `-af` starts with `karaokechannels=2:2:0:1:0:0`: no comma
separates the karaoke filter from the stereo-mode remix. -/
theorem audio_filters_missing_comma :
    audioFilters sampleSettingsConstants sampleEnv karaokeLeftCore =
      "karaokechannels=2:2:0:1:0:0,scaletempo,equalizer=0:0:0:0:0:0:0:0:0:0" ∧
    optionValues "-af"
        ((startArguments sampleConfig sampleSettingsConstants sampleEnv "/tmp/movie.mkv" 0
          karaokeLeftCore).map (Arg.render sampleEnv)) =
      ["karaokechannels=2:2:0:1:0:0,scaletempo,equalizer=0:0:0:0:0:0:0:0:0:0"] := by
  decide

/-- C34 fails on the code: the muted sample session, in per-media mode and in
global volume mode, is not muted after `changeAudio(1)`, and no `mute 1` is
written to the decoder. -/
theorem changeAudio_unmutes :
    effectiveMute mutedCore = true ∧
    mutedCore.mset.current_audio_id ≠ 1 ∧
    effectiveMute (changeAudio 1 true mutedCore) = false ∧
    Event.writeToStdin (.mute 1) ∉ (changeAudio 1 true mutedCore).log ∧
    effectiveMute globalMuteCore = true ∧
    effectiveMute (changeAudio 1 true globalMuteCore) = false := by
  decide

/-- C35 fails on the code: in global volume mode, after `mute(true)`, the
session is still muted after one `switchMute()`, and two calls leave it
unmuted. -/
theorem switchMute_global_stays_muted :
    globalMutedCore.pref.global_volume = true ∧
    effectiveMute globalMutedCore = true ∧
    effectiveMute (switchMute globalMutedCore) = true ∧
    effectiveMute (switchMute (switchMute globalMutedCore)) = false := by
  decide

/-- C37 fails on the code: called in the middle of a restart, `openVCD` and
`openAudioCD` start the process and leave the restarting flag true; so do
`openFile`, `openDVD`, `openTV` and `openStream` when the process of the
restart has exited. -/
theorem openVCD_keeps_restarting_flag :
    restartingCore.we_are_restarting = true ∧
    (openVCD sampleConfig sampleEnv 1 restartingCore).we_are_restarting = true ∧
    Event.start ∈ (openVCD sampleConfig sampleEnv 1 restartingCore).log ∧
    (openAudioCD sampleConfig sampleEnv 1 restartingCore).we_are_restarting = true ∧
    Event.start ∈ (openAudioCD sampleConfig sampleEnv 1 restartingCore).log ∧
    (openFile sampleConfig sampleEnv "/tmp/other.mkv" (-1) exitedRestartCore).we_are_restarting =
      true ∧
    (openDVD sampleConfig sampleEnv "dvd://1" exitedRestartCore).we_are_restarting = true ∧
    (openTV sampleConfig sampleEnv "tv://1" exitedRestartCore).we_are_restarting = true ∧
    (openStream sampleConfig sampleEnv "http://example.org/a.ogg" exitedRestartCore).we_are_restarting =
      true := by
  decide

/-- C40 fails on the code: on the stopped sample session, without a process,
each of `toggleDeblock`, `toggleDering`, `toggleNoise`, `toggleAutophase`,
`changeDenoise`, `changeDeinterlace`, `changeUpscale`, `changeLetterbox`,
`changeRotate`, `setAudioChannels` and `setStereoMode`, called with a new
value, starts a process and sets the restarting flag; `toggleFlip`,
`toggleMirror` and `changeClosedCaptionChannel` do neither. -/
theorem unguarded_mutators_start_process :
    idleCore.proc.running = false ∧ idleCore.we_are_restarting = false ∧
    (∀ f ∈ unguardedRestartCalls,
      Event.start ∈ (f idleCore).log ∧ (f idleCore).proc.running = true ∧
        (f idleCore).we_are_restarting = true) ∧
    (∀ f ∈ guardedRestartCalls,
      Event.start ∉ (f idleCore).log ∧ (f idleCore).proc.running = false ∧
        (f idleCore).we_are_restarting = false) := by
  decide

theorem noChapter_argsDisc (t : StartTarget) (s : Core) :
    Arg.lit "-chapter" ∉ argsDisc t (startSession s) := by
  have hc : (startSession s).mset.current_chapter_id = 0 := by
    unfold startSession
    simp only []
    split_ifs <;> rfl
  unfold argsDisc
  rw [hc]
  simp

theorem startArguments_no_chapter (cfg : Config) (k : SettingsConstants) (env : Env)
    (file : String) (seek : ℚ) (s : Core) :
    Arg.lit "-chapter" ∉ startArguments cfg k env file seek s := by
  have hk : "-chapter" ∈ filterKeys := by simp [filterKeys]
  unfold startArguments
  simp only [List.mem_append, not_or]
  exact ⟨⟨⟨⟨⟨⟨⟨⟨⟨⟨⟨⟨⟨noFilterKeys_argsGeneral _ _ _ hk, noFilterKeys_argsCodecs _ _ _ hk⟩,
    noFilterKeys_argsOutput _ _ _ _ hk⟩, noFilterKeys_argsSubtitleStyle _ _ _ hk⟩,
    noFilterKeys_argsTracks _ _ _ _ hk⟩, noFilterKeys_argsExternalFiles _ _ _ hk⟩,
    noFilterKeys_argsEqualizerVolume _ _ hk⟩, noChapter_argsDisc _ _⟩,
    noFilterKeys_argsCacheSpeed _ _ _ _ hk⟩, noFilterKeys_argsSeek _ _ _ hk⟩,
    noFilterKeys_argsPlayback _ _ hk⟩, noChapter_argsVideoFilters _ _ _ _⟩,
    noFilterKeys_argsAudio _ _ _ _ hk⟩, noFilterKeys_argsTail _ _ _ _ hk⟩

/-- C36 fails on the code: the decoder is never started with a `-chapter` parameter.  For every
session, the argument list that `startMplayer` builds holds no `-chapter`
keyword, because the chapter is reset to 0 before the list is built.  On the
sample DVD session with a cache, at chapter 3, `changeChapter(5, false)`
restarts the process, the requested chapter is not stored, and the argument
list of the restart holds no `-chapter`. -/
theorem chapter_option_never_passed :
    (∀ (cfg : Config) (k : SettingsConstants) (env : Env) (file : String) (seek : ℚ) (s : Core),
      Arg.lit "-chapter" ∉ startArguments cfg k env file seek s) ∧
    dvdCore.mdat.type = MediaType.TYPE_DVD ∧ dvdCore.pref.cache_for_dvds = 1000 ∧
    dvdCore.mset.current_chapter_id = 3 ∧
    Event.start ∈ (changeChapter 5 false dvdCore).log ∧
    (changeChapter 5 false dvdCore).mset.current_chapter_id = 0 ∧
    "-chapter" ∉ (startArguments sampleConfig sampleSettingsConstants sampleEnv "dvd://1" 0
      dvdCore).map (Arg.render sampleEnv) :=
  ⟨startArguments_no_chapter, by decide, by decide, by decide, by decide, by decide, by decide⟩

/-- C38 fails on the code: on a medium of ten seconds, with a running process,
`goToSec(15)` writes `seek -10 2`, a target below 0. -/
theorem goToSec_short_media :
    shortCore.mdat.duration = 10 ∧ shortCore.proc.running = true ∧
    (goToSec 15 shortCore).log = [Event.writeToStdin (.seek (-10) 2)] := by
  refine ⟨rfl, rfl, ?_⟩
  simp [goToSec, tellmp_eq, shortCore, sampleCore]
  norm_num

end SMPlayer2
